import Mathlib

/-!
# Verification of the vectorscope dependency-graph engine

Shallow embedding of the core of the `cranmer/vectorscope` backend:

* `backend/services/data_store.py`   — the Entity Store (layers, points, custom axes),
* `backend/services/transform_engine.py` — transformation application and the
  downstream-propagation protocol,
* `backend/services/projection_engine.py` — lazily computed, cached projections.

Modelling conventions:

* `uuid4()` is modelled by a fresh-id counter `nextId` carried in the global
  state `World`; ids are `Nat`.
* Python dicts (insertion ordered) are modelled by association lists in
  insertion order; in-place mutation of an entry is modelled by rewriting the
  entry with the same key at the same position.
* Numeric vectors are `List ℚ` in the graph-engine model.  The numeric kernels
  that are irrational or external (rotation's trigonometry, sklearn PCA,
  t-SNE, UMAP, and the custom-axes norms) are supplied as function parameters
  (`Kernels`, `ProjKernels`), mirroring the spec's "pluggable black-box
  reduction function" boundary; per-axis scaling — the kernel the claims
  compute with — is embedded exactly.  The custom-axes coordinate mathematics
  itself is embedded separately over `ℝ` (end of the file) for the claims
  about it.
* `np.random` (the *global*, unseeded numpy RNG used for jitter and for
  drawing a projection's seed) is modelled as a hidden state `rngState : Nat`
  in `World` together with a draw function `Rng` passed as a parameter.
* The `backend.status` tracker (a UI side channel touched by
  `_ensure_computed`) stores no graph state and is omitted.
-/

namespace Vectorscope

/-- An axis definition as found in the `axes` entry of a parameter dict:
`{"type": "direction", "vector": [...]}` (`transform_engine.py`,
`projection_engine.py`). -/
structure AxisDef (α : Type) where
  type : String
  vector : List α
deriving DecidableEq, Repr

/-- The parameter mapping of a transformation or projection.  The Python code
stores parameters as a free-form dict; this structure carries the keys the
embedded code paths read, and `extra` stands for any remaining entries (so
that "parameters changed" is still a meaningful notion). -/
structure Params where
  scale_factors : Option (List ℚ) := none
  axes : List (AxisDef ℚ) := []
  output_mode : Option String := none
  n_components : Option Nat := none
  components : Option (List Nat) := none
  dim : Option Nat := none
  dim_x : Option Nat := none
  dim_y : Option Nat := none
  dim_z : Option Nat := none
  random_seed : Option Nat := none
  extra : List (String × String) := []
deriving DecidableEq, Repr

/-- Point payload used when adding points (`backend/models` — the model file
itself is not under `src/`; fields are those used by the services and listed
by the spec's data model: id, label, metadata, vector, `is_virtual`). -/
structure PointData where
  id : Nat
  label : Option String := none
  metadata : List (String × String) := []
  vector : List ℚ
  is_virtual : Bool := false
deriving DecidableEq, Repr

/-- A stored point (same fields as `PointData`; `DataStore.add_point` copies
them field by field). -/
structure Point where
  id : Nat
  label : Option String
  metadata : List (String × String)
  vector : List ℚ
  is_virtual : Bool
deriving DecidableEq, Repr

/-- A layer (`backend/models` / spec §3): identity, name, optional
description, dimensionality, point count, derivation flag, optional reference
to the producing transformation. -/
structure Layer where
  id : Nat
  name : String
  description : Option String
  dimensionality : Nat
  point_count : Nat
  is_derived : Bool
  source_transformation_id : Option Nat
deriving DecidableEq, Repr

/-- Transformation type tags, as dispatched on in
`TransformEngine._apply_transformation`. -/
inductive TransformationType where
  | scaling
  | rotation
  | pca
  | custom_axes
  | custom_affine
deriving DecidableEq, Repr

/-- The `.value` string of the type tag (used in the generated layer
description `f"Result of {transformation.type.value} transformation"`). -/
def TransformationType.value : TransformationType → String
  | .scaling => "scaling"
  | .rotation => "rotation"
  | .pca => "pca"
  | .custom_axes => "custom_axes"
  | .custom_affine => "custom_affine"

/-- A transformation: source layer reference, target layer reference (none
until applied), parameter mapping. -/
structure Transformation where
  id : Nat
  name : String
  type : TransformationType
  source_layer_id : Nat
  target_layer_id : Option Nat := none
  parameters : Params
deriving DecidableEq, Repr

/-- A custom axis (spec §3): two point references and a cached direction
vector `vector(b) − vector(a)`. -/
structure CustomAxis where
  id : Nat
  name : String
  layer_id : Nat
  point_a_id : Nat
  point_b_id : Nat
  vector : List ℚ
deriving DecidableEq, Repr

/-- Projection type tags (`ProjectionType` in `backend/models`), as
dispatched on in `ProjectionEngine._compute_projection`. -/
inductive ProjectionType where
  | pca
  | tsne
  | umap
  | custom_axes
  | direct
  | density
  | boxplot
  | violin
deriving DecidableEq, Repr

/-- A projection: layer reference, target dimensionality, parameters and the
random seed fixed at creation. -/
structure Projection where
  id : Nat
  name : String
  type : ProjectionType
  layer_id : Nat
  dimensions : Nat
  parameters : Params
  random_seed : Nat
deriving DecidableEq, Repr

/-- A cached projected point (`ProjectedPoint`): identity = source point id,
label/metadata/virtual flag copied, low-dimensional coordinates. -/
structure ProjectedPoint where
  id : Nat
  label : Option String
  metadata : List (String × String)
  coordinates : List ℚ
  is_virtual : Bool
deriving DecidableEq, Repr

/-- The combined state of the three singleton services (`DataStore`,
`TransformEngine`, `ProjectionEngine` share state through their singletons),
plus the fresh-id counter standing for `uuid4()` and the hidden state of the
global numpy RNG. -/
structure World where
  nextId : Nat
  layers : List Layer
  points : List (Nat × List Point)
  axes : List CustomAxis
  transformations : List Transformation
  projections : List Projection
  projResults : List (Nat × List ProjectedPoint)
  rngState : Nat
deriving DecidableEq, Repr

/-- The empty world: fresh store and engines, no objects. -/
def emptyWorld : World :=
  { nextId := 0, layers := [], points := [], axes := [], transformations := []
    projections := [], projResults := [], rngState := 0 }

/-! ## Entity Store (`data_store.py`) -/

/-- `DataStore.get_layer`. -/
def get_layer (w : World) (lid : Nat) : Option Layer :=
  w.layers.find? (fun l => l.id = lid)

/-- `DataStore.create_layer`: allocate a fresh id, store the layer and an
empty point dict for it. -/
def create_layer (w : World) (name : String) (dimensionality : Nat)
    (description : Option String) (source_transformation_id : Option Nat) :
    Layer × World :=
  let layer : Layer :=
    { id := w.nextId, name := name, description := description
      dimensionality := dimensionality, point_count := 0
      is_derived := source_transformation_id.isSome
      source_transformation_id := source_transformation_id }
  (layer,
    { w with nextId := w.nextId + 1, layers := w.layers ++ [layer]
             points := w.points ++ [(layer.id, [])] })

/-- The point list stored under a layer id (the layer's dict in
`DataStore._points`, in insertion order). -/
def pointsOf (w : World) (lid : Nat) : List Point :=
  match w.points.find? (fun e => e.1 = lid) with
  | some e => e.2
  | none => []

/-- Insertion into a layer's point dict: `self._points[layer_id][point.id] =
point` overwrites an existing entry in place (keeping its position) and
otherwise appends. -/
def insertPoint (ps : List Point) (p : Point) : List Point :=
  if ps.any (fun q => q.id = p.id) then
    ps.map (fun q => if q.id = p.id then p else q)
  else ps ++ [p]

/-- Replace a layer's point list. -/
def setPoints (w : World) (lid : Nat) (f : List Point → List Point) : World :=
  { w with points := w.points.map (fun e => if e.1 = lid then (e.1, f e.2) else e) }

/-- `self._layers[layer_id].point_count += n`. -/
def bumpCount (w : World) (lid : Nat) (n : Nat) : World :=
  { w with layers := w.layers.map (fun l =>
      if l.id = lid then { l with point_count := l.point_count + n } else l) }

/-- Build a `Point` from a `PointData` (field-by-field copy, as in
`DataStore.add_point`). -/
def toPoint (pd : PointData) : Point :=
  { id := pd.id, label := pd.label, metadata := pd.metadata
    vector := pd.vector, is_virtual := pd.is_virtual }

/-- `DataStore.add_point`: no-op returning `none` if the layer is unknown;
otherwise store the point (overwriting any point with the same id) and
increment `point_count` by one — note the increment happens even on an
overwrite. -/
def add_point (w : World) (lid : Nat) (pd : PointData) : Option Point × World :=
  if (get_layer w lid).isSome then
    (some (toPoint pd), bumpCount (setPoints w lid (fun ps => insertPoint ps (toPoint pd))) lid 1)
  else (none, w)

/-- `DataStore.add_points_bulk`: store every point of the batch (overwriting
on id collision) and increment `point_count` by the full batch size. -/
def add_points_bulk (w : World) (lid : Nat) (pds : List PointData) : Nat × World :=
  if (get_layer w lid).isSome then
    (pds.length,
      bumpCount (setPoints w lid (fun ps => pds.foldl (fun acc pd => insertPoint acc (toPoint pd)) ps))
        lid pds.length)
  else (0, w)

/-- `DataStore.get_points`: all points of a layer, optionally filtered by an
id list (`[layer_points[pid] for pid in point_ids if pid in layer_points]`). -/
def get_points (w : World) (lid : Nat) (point_ids : Option (List Nat)) : List Point :=
  match w.points.find? (fun e => e.1 = lid) with
  | none => []
  | some e =>
    match point_ids with
    | none => e.2
    | some l => l.filterMap (fun pid => e.2.find? (fun p => p.id = pid))

/-- `DataStore.get_vectors_as_array`: the dense matrix of a layer's vectors
plus the parallel id list. -/
def get_vectors_as_array (w : World) (lid : Nat) (point_ids : Option (List Nat)) :
    List (List ℚ) × List Nat :=
  let ps := get_points w lid point_ids
  (ps.map (fun p => p.vector), ps.map (fun p => p.id))

/-- Modelled from the spec: `delete_layer` is called by
`TransformEngine.update_transformation` and `_propagate_downstream` but its
implementation is not under `src/`.  Per spec invariant 2 ("any change to the
transformation's type/parameters deletes the old target layer"), it removes
the layer record and the points stored under it, touching nothing else. -/
def delete_layer (w : World) (lid : Nat) : World :=
  { w with layers := w.layers.filter (fun l => l.id ≠ lid)
           points := w.points.filter (fun e => e.1 ≠ lid) }

/-- Modelled from the spec: `list_custom_axes` (called by
`TransformEngine._apply_transformation`; implementation not under `src/`)
lists the custom axes attached to a layer. -/
def list_custom_axes (w : World) (lid : Nat) : List CustomAxis :=
  w.axes.filter (fun a => a.layer_id = lid)

/-- Modelled from the spec: `create_custom_axis` (implementation not under
`src/`).  Spec §3/§4.1: a custom axis stores two point references of the
layer's own point set (failing if either endpoint id is absent — the
`ValueError` caught by the transform engine) and a cached direction vector
`vector(b) − vector(a)`. -/
def create_custom_axis (w : World) (name : String) (lid : Nat)
    (point_a_id point_b_id : Nat) : Option (CustomAxis × World) :=
  match (pointsOf w lid).find? (fun p => p.id = point_a_id),
        (pointsOf w lid).find? (fun p => p.id = point_b_id) with
  | some pa, some pb =>
    let axis : CustomAxis :=
      { id := w.nextId, name := name, layer_id := lid
        point_a_id := point_a_id, point_b_id := point_b_id
        vector := List.zipWith (fun b a => b - a) pb.vector pa.vector }
    some (axis, { w with nextId := w.nextId + 1, axes := w.axes ++ [axis] })
  | _, _ => none

/-! ## Transform Engine (`transform_engine.py`) -/

/-- `TransformEngine._apply_scaling`: elementwise multiply by the per-axis
factor vector; absent `scale_factors` defaults to a uniform factor of `2.0`;
a factor vector of the wrong length is replaced by its first element
broadcast to every axis (`1.0` if it is empty). -/
def apply_scaling (params : Params) (vectors : List (List ℚ)) : List (List ℚ) :=
  match params.scale_factors with
  | none => vectors.map (fun r => r.map (fun x => x * 2))
  | some scale =>
    let D := (vectors.head?.getD []).length
    let scale' :=
      if scale.length ≠ D then
        List.replicate D (if scale.length > 0 then scale.headD 1 else 1)
      else scale
    vectors.map (fun r => List.zipWith (fun x s => x * s) r scale')

/-- The numeric kernels of `_apply_rotation`, `_apply_pca` and
`_apply_custom_axes` involve trigonometry, the external sklearn PCA, and
Euclidean norms — irrational (or external black-box) computations that are
supplied as parameters of the graph-engine model (the custom-axes coordinate
mathematics is embedded exactly, over `ℝ`, at the end of this file).
`pca` and `axes` also return the rewritten parameter mapping
(`transformation.parameters = {**params, "_components": ...}` etc.). -/
structure Kernels where
  rot : Params → List (List ℚ) → List (List ℚ)
  pca : Params → List (List ℚ) → List (List ℚ) × Params
  axes : Params → List (List ℚ) → List (List ℚ) × Params

/-- The type dispatch of `TransformEngine._apply_transformation`:
scaling and rotation leave the parameter mapping unchanged, PCA and
custom-axes write derived parameters back, and `CUSTOM_AFFINE` calls the
custom-axes code with `output_mode` forced to `"full"`. -/
def dispatchTransform (K : Kernels) (t : Transformation) (vectors : List (List ℚ)) :
    List (List ℚ) × Params :=
  match t.type with
  | .scaling => (apply_scaling t.parameters vectors, t.parameters)
  | .rotation => (K.rot t.parameters vectors, t.parameters)
  | .pca => K.pca t.parameters vectors
  | .custom_axes => K.axes t.parameters vectors
  | .custom_affine => K.axes { t.parameters with output_mode := some "full" } vectors

/-- The target-layer points built in `_apply_transformation`: same ids,
labels, metadata and virtual flags as the source points, new vectors. -/
def mkTargetPoints (src : List Point) (transformed : List (List ℚ)) : List PointData :=
  List.zipWith
    (fun (p : Point) (v : List ℚ) =>
      { id := p.id, label := p.label, metadata := p.metadata
        vector := v, is_virtual := p.is_virtual : PointData })
    src transformed

/-- `TransformEngine._apply_transformation`: read the source vectors (failing
on an empty layer), apply the type-dispatched kernel, create the target layer
(named `"{source.name}_{transform.name}"` unless a preserved name is given),
copy every source point into it with the transformed vector, and copy every
custom axis of the source layer onto the target (failures skipped).
Returns the target layer, the transformation with its (possibly rewritten)
parameters, and the new world.

In the Python code the point records are rebuilt from the id list through the
`source_points` dict; since point ids within a layer's dict are unique, that
round trip returns exactly the stored point list, which is used directly
here. -/
def apply_transformation (K : Kernels) (w : World) (t : Transformation)
    (source_layer : Layer) (preserve_name : Option String) :
    Option (Layer × Transformation × World) :=
  let src := get_points w source_layer.id none
  let vectors := src.map (fun p => p.vector)
  if vectors = [] then none
  else
    let td := dispatchTransform K t vectors
    let t' := { t with parameters := td.2 }
    let layer_name := preserve_name.getD (source_layer.name ++ "_" ++ t.name)
    let lw := create_layer w layer_name (td.1.head?.getD []).length
      (some ("Result of " ++ t.type.value ++ " transformation")) (some t.id)
    let w2 := (add_points_bulk lw.2 lw.1.id (mkTargetPoints src td.1)).2
    let w3 := (list_custom_axes w2 source_layer.id).foldl
      (fun acc axis =>
        match create_custom_axis acc axis.name lw.1.id axis.point_a_id axis.point_b_id with
        | some aw => aw.2
        | none => acc)
      w2
    some (lw.1, t', w3)

/-- `TransformEngine.get_transformation` (dict lookup). -/
def get_transformation (w : World) (tid : Nat) : Option Transformation :=
  w.transformations.find? (fun t => t.id = tid)

/-- In-place mutation of the transformation object stored in
`TransformEngine._transformations`: rewrite the entry with the same id. -/
def set_transformation (w : World) (t : Transformation) : World :=
  { w with transformations := w.transformations.map (fun u => if u.id = t.id then t else u) }

/-- `TransformEngine.create_transformation`: look up the source layer
(returning `none` if absent), build the transformation with a fresh id, apply
it (returning `none` — and storing nothing — if the source layer is empty),
record the target layer id and store the transformation. -/
def create_transformation (K : Kernels) (w : World) (name : String)
    (type : TransformationType) (source_layer_id : Nat) (parameters : Params) :
    Option Transformation × World :=
  match get_layer w source_layer_id with
  | none => (none, w)
  | some source_layer =>
    let t : Transformation :=
      { id := w.nextId, name := name, type := type
        source_layer_id := source_layer_id, target_layer_id := none
        parameters := parameters }
    let w0 := { w with nextId := w.nextId + 1 }
    match apply_transformation K w0 t source_layer none with
    | none => (none, w0)
    | some r =>
      let t2 := { r.2.1 with target_layer_id := some r.1.id }
      (some t2, { r.2.2 with transformations := r.2.2.transformations ++ [t2] })

/-- `ProjectionEngine._update_layer_reference` (invoked by the transform
engine's propagation): every projection referencing the old layer id is
rewritten to the new id and its cache entry is removed. -/
def update_layer_reference (w : World) (old_layer_id new_layer_id : Nat) : World :=
  let affected := (w.projections.filter (fun p => p.layer_id = old_layer_id)).map (fun p => p.id)
  { w with
      projections := w.projections.map (fun p =>
        if p.layer_id = old_layer_id then { p with layer_id := new_layer_id } else p)
      projResults := w.projResults.filter (fun e => ¬ affected.contains e.1) }

/-- `TransformEngine._propagate_downstream`: rebind the projections of the
replaced layer, then for every transformation whose source was the old layer:
rewrite its source, delete its stale target layer (remembering the name),
reapply it against the new source and recurse on (old target → new target).

The Python recursion terminates because the graph is acyclic; here the
recursion depth is bounded by an explicit fuel, which callers set to the
number of stored transformations — at least the length of any acyclic
downstream chain, so the bound is never hit on an acyclic graph. -/
def propagate_downstream (K : Kernels) :
    Nat → Nat → Nat → World → World
  | 0, _, _, w => w
  | fuel + 1, old_layer_id, new_layer_id, w =>
    let w1 := update_layer_reference w old_layer_id new_layer_id
    let ids := ((w1.transformations.filter
      (fun t => t.source_layer_id = old_layer_id)).map (fun t => t.id))
    ids.foldl
      (fun acc tid =>
        match get_transformation acc tid with
        | none => acc
        | some tr =>
          let tr1 := { tr with source_layer_id := new_layer_id }
          let acc1 := set_transformation acc tr1
          match get_layer acc1 new_layer_id with
          | none => acc1
          | some new_source =>
            let oname : Option String :=
              match tr1.target_layer_id with
              | some oid => (get_layer acc1 oid).map (fun l => l.name)
              | none => none
            let acc2 :=
              match tr1.target_layer_id with
              | some oid => delete_layer acc1 oid
              | none => acc1
            match apply_transformation K acc2 tr1 new_source oname with
            | none => acc2
            | some r =>
              let tr3 := { r.2.1 with target_layer_id := some r.1.id }
              let acc4 := set_transformation r.2.2 tr3
              match tr1.target_layer_id with
              | some oid => propagate_downstream K fuel oid r.1.id acc4
              | none => acc4)
      w1

/-- `TransformEngine.update_transformation`: update the name in place
(never triggering recomputation on its own); if a type or parameter mapping
is supplied, update them, delete the old target layer (preserving its name),
reapply the transformation from the unchanged source layer and propagate
downstream from the old target id to the new one.

Returns the updated transformation (or `none` on failure) together with the
world; Python's in-place mutations keep their effect even on the failure
paths, which is why the world is returned in every case. -/
def update_transformation (K : Kernels) (w : World) (tid : Nat)
    (name : Option String) (type : Option TransformationType)
    (parameters : Option Params) : Option Transformation × World :=
  match get_transformation w tid with
  | none => (none, w)
  | some t0 =>
    let t1 := match name with
      | some n => { t0 with name := n }
      | none => t0
    let w1 := set_transformation w t1
    if type.isNone ∧ parameters.isNone then (some t1, w1)
    else
      match get_layer w1 t1.source_layer_id with
      | none => (none, w1)
      | some source_layer =>
        let t2 := { t1 with type := type.getD t1.type
                            parameters := parameters.getD t1.parameters }
        let w2 := set_transformation w1 t2
        let oname : Option String :=
          match t2.target_layer_id with
          | some oid => (get_layer w2 oid).map (fun l => l.name)
          | none => none
        let w3 :=
          match t2.target_layer_id with
          | some oid => delete_layer w2 oid
          | none => w2
        match apply_transformation K w3 t2 source_layer oname with
        | none => (none, w3)
        | some r =>
          let t4 := { r.2.1 with target_layer_id := some r.1.id }
          let w5 := set_transformation r.2.2 t4
          let w6 :=
            match t2.target_layer_id with
            | some oid =>
              propagate_downstream K w5.transformations.length oid r.1.id w5
            | none => w5
          (some t4, w6)

/-! ## Projection Engine (`projection_engine.py`) -/

/-- The external reduction algorithms (`sklearn` PCA / t-SNE / `umap`) and
the custom-axes display math (embedded exactly over `ℝ` at the end of this
file) supplied as black-box parameters, mirroring the spec's external
interface `reduce(matrix, dims, seed, params) -> matrix`.  `tsne` and `umap`
receive the projection's random seed, exactly as the engine passes it. -/
structure ProjKernels where
  pca : List (List ℚ) → Nat → Params → List (List ℚ)
  tsne : List (List ℚ) → Nat → Nat → Params → List (List ℚ)
  umap : List (List ℚ) → Nat → Nat → Params → List (List ℚ)
  custom_axes : List (List ℚ) → Nat → Params → List (List ℚ)

/-- The global numpy RNG, as used by the projection engine:
`np.random.uniform(-0.1, 0.1, n)` (jitter) and `np.random.randint(0, 10000)`
(seed assignment) both draw from hidden global state, modelled as a `Nat`
threaded through `World.rngState`. -/
structure Rng where
  uniform : Nat → Nat → List ℚ × Nat
  randint : Nat → Nat × Nat

/-- `ProjectionEngine._compute_direct`: select raw dimension indices as
coordinates verbatim, clamped to the valid range. -/
def compute_direct (vectors : List (List ℚ)) (dimensions : Nat) (parameters : Params) :
    List (List ℚ) :=
  let n_dims := (vectors.head?.getD []).length
  let dim_x := min (parameters.dim_x.getD 0) (n_dims - 1)
  let dim_y := min (parameters.dim_y.getD 1) (n_dims - 1)
  if dimensions = 2 then
    vectors.map (fun r => [r.getD dim_x 0, r.getD dim_y 0])
  else
    let dim_z := min (parameters.dim_z.getD 2) (n_dims - 1)
    vectors.map (fun r => [r.getD dim_x 0, r.getD dim_y 0, r.getD dim_z 0])

/-- `ProjectionEngine._compute_density`: the chosen dimension's raw values as
X and a jitter drawn from the global RNG as Y.  Returns the coordinate rows
and the advanced RNG state. -/
def compute_density (vectors : List (List ℚ)) (parameters : Params)
    (R : Rng) (s : Nat) : List (List ℚ) × Nat :=
  let n_dims := (vectors.head?.getD []).length
  let dim := min (parameters.dim.getD 0) (n_dims - 1)
  let xs := vectors.map (fun r => r.getD dim 0)
  let js := R.uniform s xs.length
  (List.zipWith (fun x j => [x, j]) xs js.1, js.2)

/-- `ProjectionEngine._compute_boxplot` (same computation as density:
dimension value plus global-RNG jitter). -/
def compute_boxplot (vectors : List (List ℚ)) (parameters : Params)
    (R : Rng) (s : Nat) : List (List ℚ) × Nat :=
  let n_dims := (vectors.head?.getD []).length
  let dim := min (parameters.dim.getD 0) (n_dims - 1)
  let xs := vectors.map (fun r => r.getD dim 0)
  let js := R.uniform s xs.length
  (List.zipWith (fun x j => [x, j]) xs js.1, js.2)

/-- `ProjectionEngine._compute_violin` (same computation as density). -/
def compute_violin (vectors : List (List ℚ)) (parameters : Params)
    (R : Rng) (s : Nat) : List (List ℚ) × Nat :=
  let n_dims := (vectors.head?.getD []).length
  let dim := min (parameters.dim.getD 0) (n_dims - 1)
  let xs := vectors.map (fun r => r.getD dim 0)
  let js := R.uniform s xs.length
  (List.zipWith (fun x j => [x, j]) xs js.1, js.2)

/-- The result rows built at the end of `_compute_projection` (same ids,
labels, metadata and virtual flags as the source points, low-dimensional
coordinates). -/
def mkProjected (src : List Point) (coords : List (List ℚ)) : List ProjectedPoint :=
  List.zipWith
    (fun (p : Point) (c : List ℚ) =>
      { id := p.id, label := p.label, metadata := p.metadata
        coordinates := c, is_virtual := p.is_virtual : ProjectedPoint })
    src coords

/-- `ProjectionEngine._compute_projection`: read the layer's vectors (`none`
if empty), dispatch on the projection type, and build the projected points.
Returns the result and the (possibly advanced) global RNG state — only the
density/boxplot/violin branches consume RNG draws. -/
def compute_projection (R : Rng) (PK : ProjKernels) (w : World)
    (projection : Projection) (point_ids : Option (List Nat)) :
    Option (List ProjectedPoint) × Nat :=
  let src := get_points w projection.layer_id point_ids
  let vectors := src.map (fun p => p.vector)
  if vectors = [] then (none, w.rngState)
  else
    let cs : List (List ℚ) × Nat :=
      match projection.type with
      | .pca => (PK.pca vectors projection.dimensions projection.parameters, w.rngState)
      | .tsne =>
        (PK.tsne vectors projection.dimensions projection.random_seed projection.parameters,
          w.rngState)
      | .umap =>
        (PK.umap vectors projection.dimensions projection.random_seed projection.parameters,
          w.rngState)
      | .custom_axes =>
        (PK.custom_axes vectors projection.dimensions projection.parameters, w.rngState)
      | .direct => (compute_direct vectors projection.dimensions projection.parameters, w.rngState)
      | .density => compute_density vectors projection.parameters R w.rngState
      | .boxplot => compute_boxplot vectors projection.parameters R w.rngState
      | .violin => compute_violin vectors projection.parameters R w.rngState
    (some (mkProjected src cs.1), cs.2)

/-- The cache lookup `projection_id in self._projection_results`. -/
def getCached (w : World) (pid : Nat) : Option (List ProjectedPoint) :=
  (w.projResults.find? (fun e => e.1 = pid)).map (fun e => e.2)

/-- `ProjectionEngine._ensure_computed`: cache hit → done; unknown projection
→ failure; otherwise compute and cache the result when it is non-empty
(Python's `if results:` treats both `None` and `[]` as failure).

The returned triple is (success, world, computed): the final flag records
whether `_compute_projection` was invoked — the instrumentation needed to
state "no recomputation"; it does not alter the modelled behaviour. -/
def ensure_computed (R : Rng) (PK : ProjKernels) (w : World) (pid : Nat) :
    Bool × World × Bool :=
  if (w.projResults.find? (fun e => e.1 = pid)).isSome then (true, w, false)
  else
    match w.projections.find? (fun p => p.id = pid) with
    | none => (false, w, false)
    | some projection =>
      let res := compute_projection R PK w projection none
      let w1 := { w with rngState := res.2 }
      match res.1 with
      | some results =>
        if results = [] then (false, w1, true)
        else (true, { w1 with projResults := w1.projResults ++ [(pid, results)] }, true)
      | none => (false, w1, true)

/-- `ProjectionEngine.get_projection_coordinates`: ensure computed (lazily),
then return the cached list (or `none`).  The final flag again records
whether a computation was performed. -/
def get_projection_coordinates (R : Rng) (PK : ProjKernels) (w : World) (pid : Nat) :
    Option (List ProjectedPoint) × World × Bool :=
  let e := ensure_computed R PK w pid
  (getCached e.2.1 pid, e.2.1, e.2.2)

/-- `ProjectionEngine.create_projection`: look up the layer (`none` if
absent), take the random seed from the parameters or draw one from the global
RNG, store the projection, and compute immediately only when requested. -/
def create_projection (R : Rng) (PK : ProjKernels) (w : World) (name : String)
    (type : ProjectionType) (layer_id : Nat) (dimensions : Nat)
    (parameters : Option Params) (compute_now : Bool) : Option Projection × World :=
  match get_layer w layer_id with
  | none => (none, w)
  | some _ =>
    let ps := parameters.getD {}
    let sw : Nat × World :=
      match ps.random_seed with
      | some s => (s, w)
      | none =>
        let d := R.randint w.rngState
        (d.1, { w with rngState := d.2 })
    let projection : Projection :=
      { id := sw.2.nextId, name := name, type := type, layer_id := layer_id
        dimensions := dimensions, parameters := ps, random_seed := sw.1 }
    let w2 := { sw.2 with nextId := sw.2.nextId + 1
                          projections := sw.2.projections ++ [projection] }
    let w3 := if compute_now then (ensure_computed R PK w2 projection.id).2.1 else w2
    (some projection, w3)

/-! ## Custom-axes coordinate mathematics, over `ℝ`

Exact embedding of `TransformEngine._apply_custom_axes` (2D output mode,
`_apply_custom_axes_2d`) and `ProjectionEngine._compute_custom_axes`.
These functions involve Euclidean norms and so are stated over `ℝ`
(idealizing IEEE floats by exact reals, as the repository's own tests do via
`np.isclose` tolerances). -/

/-- Dot product of two vectors (`a @ b`). -/
def dotR (a b : List ℝ) : ℝ := (List.zipWith (fun x y => x * y) a b).sum

/-- Squared Euclidean norm. -/
def normSq (v : List ℝ) : ℝ := dotR v v

/-- `np.linalg.norm`. -/
noncomputable def vnorm (v : List ℝ) : ℝ := Real.sqrt (normSq v)

/-- The zero-vector threshold `1e-10` used when filtering axis vectors. -/
noncomputable def epsAxis : ℝ := 1 / 10 ^ 10

open Classical in
/-- The axis-vector extraction loop shared by both engines: keep the
`"direction"`-typed axes whose vector has norm above the threshold. -/
noncomputable def extract_raw_vectors (axes : List (AxisDef ℝ)) : List (List ℝ) :=
  axes.filterMap (fun a =>
    if a.type = "direction" then
      if vnorm a.vector > epsAxis then some a.vector else none
    else none)

/-- `np.mean(vectors, axis=0)`. -/
noncomputable def meanVec (m : List (List ℝ)) : List ℝ :=
  (m.foldl (fun acc r => List.zipWith (fun x y => x + y) acc r)
      (List.replicate (m.head?.getD []).length 0)).map
    (fun x => x / (m.length : ℝ))

/-- `vectors - mean`. -/
noncomputable def centerRows (m : List (List ℝ)) : List (List ℝ) :=
  m.map (fun r => List.zipWith (fun x y => x - y) r (meanVec m))

/-- `TransformEngine._apply_custom_axes_2d`, on already-centered data:
one axis → orthogonal projection onto the normalized axis with a zero-filled
second coordinate; two axes `v1, v2` → the oblique coefficients
`(VᵗV)⁻¹ Vᵗ x` (the 2×2 inverse is written out via the adjugate; on a
singular `VᵗV` the Python `np.linalg.inv` raises, and the theorems below
assume linear independence).  No rescaling is applied to the coefficients —
per the source comment, `v1` maps to `(1, 0)` and `v2` to `(0, 1)`.
The write-back of `_projection_matrix`/`_mean` into the parameter dict is
introspection metadata and does not affect the returned matrix. -/
noncomputable def apply_custom_axes_2d (centered : List (List ℝ)) :
    List (List ℝ) → List (List ℝ)
  | [] => []
  | [v1] =>
    let e1 := v1.map (fun x => x / vnorm v1)
    centered.map (fun r => [dotR r e1, 0])
  | v1 :: v2 :: _ =>
    let a := dotR v1 v1
    let b := dotR v1 v2
    let c := dotR v2 v2
    let det := a * c - b * b
    let pm1 := List.zipWith (fun x y => (c * x - b * y) / det) v1 v2
    let pm2 := List.zipWith (fun x y => (a * y - b * x) / det) v1 v2
    centered.map (fun r => [dotR r pm1, dotR r pm2])

/-- `TransformEngine._apply_custom_axes` in its default `"2d"` output mode:
no axes (or none surviving the filter) → an `n × 2` zero matrix; otherwise
center the data on its mean and apply `_apply_custom_axes_2d`. -/
noncomputable def apply_custom_axes_te2d (vectors : List (List ℝ))
    (axes : List (AxisDef ℝ)) : List (List ℝ) :=
  match axes with
  | [] => vectors.map (fun _ => [0, 0])
  | _ :: _ =>
    match extract_raw_vectors axes with
    | [] => vectors.map (fun _ => [0, 0])
    | raw => apply_custom_axes_2d (centerRows vectors) raw

/-- `ProjectionEngine._compute_custom_axes`: takes the first `dimensions`
axis definitions and filters them; no surviving axis → zeros; one axis →
orthogonal projection onto the normalized axis (zero-padded second
coordinate when `dimensions = 2`); two axes → the same oblique coefficients
as the transform engine, but **each coordinate is then scaled by the
corresponding axis's original magnitude** (`projected * scales`), then
zero-padded up to `dimensions`. -/
noncomputable def compute_custom_axes (vectors : List (List ℝ))
    (dimensions : Nat) (axes : List (AxisDef ℝ)) : List (List ℝ) :=
  match axes with
  | [] => vectors.map (fun _ => List.replicate dimensions 0)
  | _ :: _ =>
    match extract_raw_vectors (axes.take dimensions) with
    | [] => vectors.map (fun _ => List.replicate dimensions 0)
    | [v1] =>
      let e1 := v1.map (fun x => x / vnorm v1)
      let centered := centerRows vectors
      if dimensions = 2 then centered.map (fun r => [dotR r e1, 0])
      else centered.map (fun r => [dotR r e1])
    | v1 :: v2 :: _ =>
      let centered := centerRows vectors
      let a := dotR v1 v1
      let b := dotR v1 v2
      let c := dotR v2 v2
      let det := a * c - b * b
      let pm1 := List.zipWith (fun x y => (c * x - b * y) / det) v1 v2
      let pm2 := List.zipWith (fun x y => (a * y - b * x) / det) v1 v2
      let projected := centered.map (fun r => [dotR r pm1 * vnorm v1, dotR r pm2 * vnorm v2])
      if 2 < dimensions then
        projected.map (fun r => r ++ List.replicate (dimensions - 2) 0)
      else projected

/-! ## Auxiliary predicates and concrete instances used by the theorems -/

/-- The numeric kernels of the real engine map an `N × D` matrix to a matrix
with the same number of rows (numpy transformations are row-wise).  The
graph-engine theorems hold for every kernel family with this property. -/
def RowPreserving (K : Kernels) : Prop :=
  (∀ p m, (K.rot p m).length = m.length) ∧
  (∀ p m, (K.pca p m).1.length = m.length) ∧
  (∀ p m, (K.axes p m).1.length = m.length)

/-- `np.random.uniform(-0.1, 0.1, n)` returns exactly `n` draws; any faithful
model of the global RNG satisfies this. -/
def RngLen (R : Rng) : Prop :=
  ∀ s n, (R.uniform s n).1.length = n

/-- Trivial transform kernels (identity numerics) used to instantiate the
kernel-parameterized theorems at concrete inputs. -/
def K0 : Kernels :=
  { rot := fun _ m => m, pca := fun p m => (m, p), axes := fun p m => (m, p) }

/-- Trivial projection kernels used to instantiate theorems at concrete
inputs. -/
def PK0 : ProjKernels :=
  { pca := fun m _ _ => m, tsne := fun m _ _ _ => m
    umap := fun m _ _ _ => m, custom_axes := fun m _ _ => m }

/-- A concrete model of the hidden-state global RNG: the draw value is
derived from the state, and the state advances.  (The precise distribution of
numpy's generator is irrelevant; what matters is that draws depend on hidden
state that is not among a projection's declared inputs.) -/
def R0 : Rng :=
  { uniform := fun s n => (List.replicate n (if s = 0 then (0 : ℚ) else 1), s + 1)
    randint := fun s => (s % 10000, s + 1) }

/-! ### Entity Store operation traces (claim C7) -/

/-- An Entity Store mutation, as exposed by `data_store.py`. -/
inductive StoreOp where
  | createLayer (name : String) (dimensionality : Nat)
      (description : Option String) (source_transformation_id : Option Nat)
  | addPoint (lid : Nat) (pd : PointData)
  | addPointsBulk (lid : Nat) (pds : List PointData)
deriving DecidableEq, Repr

/-- Run one store operation. -/
def runOp (w : World) : StoreOp → World
  | .createLayer n d ds s => (create_layer w n d ds s).2
  | .addPoint lid pd => (add_point w lid pd).2
  | .addPointsBulk lid pds => (add_points_bulk w lid pds).2

/-- Run a sequence of store operations. -/
def runOps (w : World) (ops : List StoreOp) : World := ops.foldl runOp w

/-- An operation adds only fresh point ids: the added point's id is not yet
present in its layer, and a bulk batch has pairwise-distinct ids. -/
def FreshOp (w : World) : StoreOp → Prop
  | .createLayer _ _ _ _ => True
  | .addPoint lid pd => ∀ p ∈ pointsOf w lid, p.id ≠ pd.id
  | .addPointsBulk lid pds =>
    (pds.map PointData.id).Nodup ∧ ∀ pd ∈ pds, ∀ p ∈ pointsOf w lid, p.id ≠ pd.id

/-- Every operation of the trace adds only fresh point ids (evaluated in the
state where it runs). -/
def FreshTrace : World → List StoreOp → Prop
  | _, [] => True
  | w, op :: ops => FreshOp w op ∧ FreshTrace (runOp w op) ops

/-- Spec invariant 1: every layer's `point_count` equals the number of points
stored under it. -/
def pcInv (w : World) : Prop :=
  ∀ l ∈ w.layers, l.point_count = (pointsOf w l.id).length

/-- The structural store invariant maintained by the Entity Store operations
(point dict keys mirror the layer ids, ids are unique and below the fresh-id
counter) together with the point-count invariant. -/
def StoreInv (w : World) : Prop :=
  w.points.map Prod.fst = w.layers.map Layer.id ∧
  (w.layers.map Layer.id).Nodup ∧
  (∀ e ∈ w.points, e.1 < w.nextId) ∧
  pcInv w

/-- A store-operation trace that adds the same point id twice to one layer. -/
def dupOps : List StoreOp :=
  [.createLayer "L" 2 none none,
   .addPoint 0 { id := 5, vector := [1, 2] },
   .addPoint 0 { id := 5, vector := [3, 4] }]

/-- A store-operation trace whose added point ids are all fresh. -/
def freshOps : List StoreOp :=
  [.createLayer "L" 2 none none,
   .addPoint 0 { id := 1, vector := [1, 2] },
   .addPointsBulk 0 [{ id := 2, vector := [0, 0] }, { id := 3, vector := [1, 1] }]]

instance decFreshOp (w : World) (op : StoreOp) : Decidable (FreshOp w op) := by
  cases op <;> unfold FreshOp <;> infer_instance

instance decFreshTrace : (w : World) → (ops : List StoreOp) → Decidable (FreshTrace w ops)
  | _, [] => .isTrue trivial
  | w, op :: ops =>
    have : Decidable (FreshTrace (runOp w op) ops) := decFreshTrace _ ops
    inferInstanceAs (Decidable (_ ∧ _))

/-- A concrete transformation record used to witness theorems at concrete
inputs. -/
def demoT8 : Transformation :=
  { id := 7, name := "old", type := .scaling, source_layer_id := 0
    target_layer_id := some 1, parameters := {} }

/-- A concrete world holding one stored transformation. -/
def demoW8 : World := { emptyWorld with transformations := [demoT8] }

/-- A concrete layer record (id 0, two dimensions, one stored point). -/
def demoLayer0 : Layer :=
  { id := 0, name := "L", description := none, dimensionality := 2
    point_count := 1, is_derived := false, source_transformation_id := none }

/-- A concrete stored point. -/
def demoPoint : Point :=
  { id := 1, label := none, metadata := [], vector := [1, 2], is_virtual := false }

/-- A concrete density projection over layer 0. -/
def demoDensityProj : Projection :=
  { id := 50, name := "d", type := .density, layer_id := 0, dimensions := 2
    parameters := {}, random_seed := 1 }

/-- A world holding one nonempty layer and one density projection, with the
global RNG in state 0. -/
def demoW9a : World :=
  { nextId := 51, layers := [demoLayer0], points := [(0, [demoPoint])], axes := []
    transformations := [], projections := [demoDensityProj], projResults := []
    rngState := 0 }

/-- The same world with the global RNG in state 1 (everything a projection's
declared inputs mention is identical to `demoW9a`). -/
def demoW9b : World := { demoW9a with rngState := 1 }

/-- A concrete layer with zero points. -/
def demoLayerEmpty : Layer :=
  { id := 0, name := "E", description := none, dimensionality := 2
    point_count := 0, is_derived := false, source_transformation_id := none }

/-- A direct projection over the empty layer. -/
def demoDirectProj : Projection :=
  { id := 1, name := "p", type := .direct, layer_id := 0, dimensions := 2
    parameters := {}, random_seed := 3 }

/-- A world with an empty layer and a projection on it: its computation fails
and is never cached. -/
def demoW6 : World :=
  { nextId := 2, layers := [demoLayerEmpty], points := [(0, [])], axes := []
    transformations := [], projections := [demoDirectProj], projResults := []
    rngState := 0 }

/-- The normal form of `apply_transformation`'s successful result (proved
equal to it in `apply_transformation_spec` below): the fresh target layer,
the transformation with kernel-rewritten parameters, and the world extended
by the target layer and its points.  The Layer value returned by the Python
method is the same object stored in the layer dict (whose `point_count` is
incremented by the bulk add); the engine only ever reads `.id` from the
returned value, which agrees. -/
def applyResult (K : Kernels) (w : World) (t : Transformation) (src : Layer)
    (pn : Option String) : Layer × Transformation × World :=
  let ps := pointsOf w src.id
  let td := dispatchTransform K t (ps.map (fun p => p.vector))
  let tgt : Layer :=
    { id := w.nextId, name := pn.getD (src.name ++ "_" ++ t.name)
      description := some ("Result of " ++ t.type.value ++ " transformation")
      dimensionality := (td.1.head?.getD []).length, point_count := 0
      is_derived := true, source_transformation_id := some t.id }
  let newPts := (mkTargetPoints ps td.1).map toPoint
  (tgt, { t with parameters := td.2 },
    { w with nextId := w.nextId + 1
             layers := w.layers ++ [{ tgt with point_count := newPts.length }]
             points := w.points ++ [(w.nextId, newPts)] })

/-- A world holding one two-dimensional layer with a single point, used to
witness the transformation theorems. -/
def demoW5 : World :=
  { nextId := 2, layers := [demoLayer0], points := [(0, [demoPoint])], axes := []
    transformations := [], projections := [], projResults := [], rngState := 0 }

/-! ### Spec-side comparator for claim C4 -/

/-- The 2D custom-axes transform as described by the spec sentence for C4:
oblique coefficients `(VᵗV)⁻¹Vᵗ` applied to mean-centered data, **then each
coordinate scaled by the corresponding axis's original magnitude** (so that
`v1 ↦ (‖v1‖, 0)`, `v2 ↦ (0, ‖v2‖)`).  Written from the spec's words, to be
compared against the source-derived `apply_custom_axes_te2d`. -/
noncomputable def custom_axes_2d_spec_scaled (vectors : List (List ℝ))
    (v1 v2 : List ℝ) : List (List ℝ) :=
  let centered := centerRows vectors
  let a := dotR v1 v1
  let b := dotR v1 v2
  let c := dotR v2 v2
  let det := a * c - b * b
  let pm1 := List.zipWith (fun x y => (c * x - b * y) / det) v1 v2
  let pm2 := List.zipWith (fun x y => (a * y - b * x) / det) v1 v2
  centered.map (fun r => [dotR r pm1 * vnorm v1, dotR r pm2 * vnorm v2])

/-! ## The repeated reapply step of `update_transformation` / `_propagate_downstream`

Both `update_transformation` (transform_engine.py:385-409) and each loop
iteration of `_propagate_downstream` (transform_engine.py:434-459) perform
the same store edit: write the rewritten transformation, delete the stale
target layer (its name read off beforehand), reapply the transformation on
its source layer and retarget the stored copy at the freshly created layer.
The following definitions name the world, transformation and layer produced
by one such step; they abbreviate compositions of the functions above. -/

/-- The point list of the layer created by one reapply: the source points
pushed through the type-dispatched kernel (`_apply_transformation`'s loop). -/
def stepPts (K : Kernels) (t : Transformation) (ps : List Point) : List Point :=
  (mkTargetPoints ps (dispatchTransform K t (ps.map (fun p => p.vector))).1).map toPoint

/-- The world after one rewrite–delete–reapply step on base world `w`:
transformation `t2` stored, stale target `zid` deleted, `t2` reapplied on
`src` (the new layer taking the remembered name `zname`), stored copy
retargeted at the fresh id. -/
def applyReplaceWorld (K : Kernels) (w : World) (t2 : Transformation) (src : Layer)
    (zid : Nat) (zname : String) : World :=
  set_transformation
    (applyResult K (delete_layer (set_transformation w t2) zid) t2 src (some zname)).2.2
    { (applyResult K (delete_layer (set_transformation w t2) zid) t2 src (some zname)).2.1
      with target_layer_id := some w.nextId }

/-- The transformation stored by one reapply step. -/
def applyReplaceT (K : Kernels) (w : World) (t2 : Transformation) (src : Layer)
    (zid : Nat) (zname : String) : Transformation :=
  { (applyResult K (delete_layer (set_transformation w t2) zid) t2 src (some zname)).2.1
    with target_layer_id := some w.nextId }

/-- The layer created by one reapply step. -/
def applyReplaceLayer (K : Kernels) (w : World) (t2 : Transformation) (src : Layer)
    (zname : String) : Layer :=
  { id := w.nextId, name := zname
    description := some ("Result of " ++ t2.type.value ++ " transformation")
    dimensionality := ((dispatchTransform K t2
      ((pointsOf w src.id).map (fun p => p.vector))).1.head?.getD []).length
    point_count := (stepPts K t2 (pointsOf w src.id)).length
    is_derived := true, source_transformation_id := some t2.id }

/-! ### A concrete transformation chain A → B → C → D, for witnesses -/

def demoChainA : Layer :=
  { id := 0, name := "A", description := none, dimensionality := 2
    point_count := 1, is_derived := false, source_transformation_id := none }

def demoChainB : Layer :=
  { id := 1, name := "B", description := none, dimensionality := 2
    point_count := 1, is_derived := true, source_transformation_id := some 4 }

def demoChainC : Layer :=
  { id := 2, name := "C", description := none, dimensionality := 2
    point_count := 1, is_derived := true, source_transformation_id := some 5 }

def demoChainD : Layer :=
  { id := 3, name := "D", description := none, dimensionality := 2
    point_count := 1, is_derived := true, source_transformation_id := some 6 }

def demoChainT1 : Transformation :=
  { id := 4, name := "t1", type := .scaling, source_layer_id := 0
    target_layer_id := some 1, parameters := {} }

def demoChainT2 : Transformation :=
  { id := 5, name := "t2", type := .scaling, source_layer_id := 1
    target_layer_id := some 2, parameters := {} }

def demoChainT3 : Transformation :=
  { id := 6, name := "t3", type := .scaling, source_layer_id := 2
    target_layer_id := some 3, parameters := {} }

def demoChainP : Projection :=
  { id := 7, name := "proj", type := .pca, layer_id := 1, dimensions := 2
    parameters := {}, random_seed := 42 }

def demoChainPt (lid : Nat) : Point :=
  { id := 100 + lid, label := none, metadata := [], vector := [1, 2]
    is_virtual := false }

/-- A world holding the chain `A → B → C → D` with one point per layer and a
projection bound to `B`. -/
def demoChainW : World :=
  { nextId := 8
    layers := [demoChainA, demoChainB, demoChainC, demoChainD]
    points := [(0, [demoChainPt 0]), (1, [demoChainPt 1]), (2, [demoChainPt 2]),
      (3, [demoChainPt 3])]
    axes := []
    transformations := [demoChainT1, demoChainT2, demoChainT3]
    projections := [demoChainP]
    projResults := []
    rngState := 0 }

/-! ## Helper lemmas: keyed lookup in association lists -/

theorem find?_key_eq {α : Type} (key : α → Nat) (l : List α) (x : α)
    (hnd : (l.map key).Nodup) (hx : x ∈ l) :
    l.find? (fun y => key y = key x) = some x := by
  induction l with
  | nil => cases hx
  | cons a as ih =>
    rcases List.mem_cons.mp hx with rfl | hmem
    · simp [List.find?_cons_of_pos]
    · by_cases h : key a = key x
      · exfalso
        have : key x ∈ as.map key := List.mem_map_of_mem key hmem
        simp only [List.map_cons, List.nodup_cons] at hnd
        exact hnd.1 (h ▸ this)
      · rw [List.find?_cons_of_neg _ (by simpa using h)]
        exact ih (by simpa using (List.nodup_cons.mp (by simpa using hnd)).2) hmem

theorem find?_key_eq_none {α : Type} (key : α → Nat) (l : List α) (k : Nat)
    (h : ∀ y ∈ l, key y ≠ k) :
    l.find? (fun y => key y = k) = none := by
  induction l with
  | nil => rfl
  | cons a as ih =>
    rw [List.find?_cons_of_neg _ (by simpa using h a (List.mem_cons_self a as))]
    exact ih (fun y hy => h y (List.mem_cons_of_mem a hy))

/-- `find?` ignores removal of elements the predicate rejects. -/
theorem find?_filter_superset {α : Type} (p q : α → Bool) (l : List α)
    (himp : ∀ y ∈ l, p y = true → q y = true) :
    (l.filter q).find? p = l.find? p := by
  induction l with
  | nil => rfl
  | cons a as ih =>
    by_cases hpa : p a = true
    · have hqa : q a = true := himp a (List.mem_cons_self a as) hpa
      simp [List.filter_cons, hqa, List.find?_cons_of_pos _ hpa]
    · have ih' := ih (fun y hy => himp y (List.mem_cons_of_mem a hy))
      by_cases hqa : q a = true
      · simp [List.filter_cons, hqa, List.find?_cons_of_neg _ (by simpa using hpa), ih']
      · simp [List.filter_cons, hqa, List.find?_cons_of_neg _ (by simpa using hpa), ih']

/-- Mapping that rewrites only elements the predicate rejects does not change
`find?`. -/
theorem find?_map_untouched {α : Type} (p : α → Bool) (f : α → α) (l : List α)
    (hf : ∀ y ∈ l, p y = true → f y = y) (hp : ∀ y ∈ l, p (f y) = p y) :
    (l.map f).find? p = l.find? p := by
  induction l with
  | nil => rfl
  | cons a as ih =>
    have hrest := ih (fun y hy => hf y (List.mem_cons_of_mem a hy))
      (fun y hy => hp y (List.mem_cons_of_mem a hy))
    by_cases hpa : p a = true
    · have : p (f a) = true := (hp a (List.mem_cons_self a as)).trans hpa
      simp [List.find?_cons_of_pos _ hpa, List.find?_cons_of_pos _ this,
        hf a (List.mem_cons_self a as) hpa]
    · have : p (f a) = false := by
        rw [hp a (List.mem_cons_self a as)]; exact Bool.not_eq_true _ ▸ (by simpa using hpa)
      simp only [List.map_cons]
      rw [List.find?_cons_of_neg _ (by simp [this]),
        List.find?_cons_of_neg _ (by simpa using hpa)]
      exact hrest

/-- Two elements of a list with `Nodup` keys and the same key are equal. -/
theorem eq_of_key_eq {α : Type} (key : α → Nat) (l : List α) (x y : α)
    (hnd : (l.map key).Nodup) (hx : x ∈ l) (hy : y ∈ l) (hk : key x = key y) :
    x = y := by
  induction l with
  | nil => cases hx
  | cons a as ih =>
    simp only [List.map_cons, List.nodup_cons] at hnd
    rcases List.mem_cons.mp hx with rfl | hx' <;> rcases List.mem_cons.mp hy with rfl | hy'
    · rfl
    · exact absurd (hk ▸ List.mem_map_of_mem key hy') hnd.1
    · exact absurd (hk ▸ List.mem_map_of_mem key hx') hnd.1
    · exact ih hnd.2 hx' hy'

/-- A map that rewrites elements by predicate leaves a list unchanged when no
element satisfies the predicate. -/
theorem map_ite_id {α : Type} (p : α → Prop) [DecidablePred p] (f : α → α) (l : List α)
    (h : ∀ y ∈ l, ¬ p y) :
    l.map (fun y => if p y then f y else y) = l := by
  induction l with
  | nil => rfl
  | cons a as ih =>
    simp only [List.map_cons, if_neg (h a (List.mem_cons_self a as))]
    rw [ih (fun y hy => h y (List.mem_cons_of_mem a hy))]

/-! ## Scaling lemmas -/

theorem zipWith_mul_replicate (r : List ℚ) (D : Nat) (c : ℚ) (h : r.length = D) :
    List.zipWith (fun x s => x * s) r (List.replicate D c) = r.map (fun x => x * c) := by
  induction r generalizing D with
  | nil => simp
  | cons x xs ih =>
    cases D with
    | zero => simp at h
    | succ n =>
      simp only [List.replicate_succ, List.zipWith_cons_cons, List.map_cons]
      rw [ih n (by simpa using h)]

/-- C10: `_apply_scaling` with `scale_factors` present but equal to the empty
list is the identity transformation: the empty factor vector has mismatched
length, so it is replaced by `1.0` broadcast to every axis; by contrast, an
absent `scale_factors` multiplies every entry by the default factor `2.0`. -/
theorem C10_scaling_empty_factors (m : List (List ℚ))
    (hw : ∀ r ∈ m, r.length = (m.head?.getD []).length) :
    apply_scaling { scale_factors := some [] } m = m ∧
    apply_scaling { scale_factors := none } m =
      m.map (fun r => r.map (fun x => x * 2)) := by
  constructor
  · unfold apply_scaling
    simp only
    by_cases hD : (m.head?.getD []).length = 0
    · have : ∀ r ∈ m, r = [] := by
        intro r hr
        exact List.length_eq_zero.mp ((hw r hr).trans hD)
      conv_rhs => rw [← List.map_id m]
      refine List.map_congr_left ?_
      intro r hr
      rw [this r hr]
      by_cases h0 : (0 : Nat) ≠ (m.head?.getD []).length <;> simp [h0]
    · rw [if_pos (by simpa using fun h => hD h.symm)]
      conv_rhs => rw [← List.map_id m]
      refine List.map_congr_left ?_
      intro r hr
      have := zipWith_mul_replicate r (m.head?.getD []).length 1 (hw r hr)
      simp only [List.length_nil, gt_iff_lt, lt_irrefl, if_false, List.headD_nil] at *
      rw [this]
      simp
  · rfl

/-- Witness for C10 at a concrete matrix. -/
theorem C10_scaling_empty_factors_witness :
    (∀ r ∈ [[(1:ℚ), 2], [3, 4]], r.length = (([[(1:ℚ), 2], [3, 4]]).head?.getD []).length) ∧
    (apply_scaling { scale_factors := some [] } [[(1:ℚ), 2], [3, 4]] = [[1, 2], [3, 4]] ∧
      apply_scaling { scale_factors := none } [[(1:ℚ), 2], [3, 4]] =
        [[(1:ℚ), 2], [3, 4]].map (fun r => r.map (fun x => x * 2))) :=
  ⟨by decide, C10_scaling_empty_factors [[(1:ℚ), 2], [3, 4]] (by decide)⟩

/-! ## Rename-only transformation update (claim C8) -/

theorem find?_id_map_replace (l : List Transformation) (t t' : Transformation)
    (h : l.find? (fun u => u.id = t.id) = some t) (hid : t'.id = t.id) :
    (l.map (fun u => if u.id = t'.id then t' else u)).find? (fun u => u.id = t.id) =
      some t' := by
  induction l with
  | nil => simp at h
  | cons a as ih =>
    by_cases ha : a.id = t.id
    · rw [List.find?_cons_of_pos _ (by simpa using ha)] at h
      simp only [List.map_cons, hid ▸ ha, if_pos]
      rw [List.find?_cons_of_pos _ (by simpa using hid)]
    · rw [List.find?_cons_of_neg _ (by simpa using ha)] at h
      have hrw : (if a.id = t'.id then t' else a) = a :=
        if_neg (show ¬ a.id = t'.id by rw [hid]; exact ha)
      simp only [List.map_cons, hrw]
      rw [List.find?_cons_of_neg _ (by simpa using ha)]
      exact ih h

/-- C8: updating a transformation with only a new name (no type, no
parameters) changes exactly its name: the result is the same transformation
with the new name (same target layer), the stored transformation entry is the
only changed one, and layers, points, custom axes, projections, the
projection cache, the id counter and the RNG state are all untouched —
no recomputation happens. -/
theorem C8_rename_only (K : Kernels) (w : World) (t : Transformation) (nm : String)
    (h : get_transformation w t.id = some t) :
    (update_transformation K w t.id (some nm) none none).1 = some { t with name := nm } ∧
    ((update_transformation K w t.id (some nm) none none).2.layers = w.layers ∧
      (update_transformation K w t.id (some nm) none none).2.points = w.points ∧
      (update_transformation K w t.id (some nm) none none).2.axes = w.axes ∧
      (update_transformation K w t.id (some nm) none none).2.projections = w.projections ∧
      (update_transformation K w t.id (some nm) none none).2.projResults = w.projResults ∧
      (update_transformation K w t.id (some nm) none none).2.nextId = w.nextId ∧
      (update_transformation K w t.id (some nm) none none).2.rngState = w.rngState) ∧
    ({ t with name := nm } : Transformation).target_layer_id = t.target_layer_id ∧
    get_transformation (update_transformation K w t.id (some nm) none none).2 t.id =
      some { t with name := nm } ∧
    ∀ u ∈ w.transformations, u.id ≠ t.id →
      u ∈ (update_transformation K w t.id (some nm) none none).2.transformations := by
  have hu : update_transformation K w t.id (some nm) none none =
      (some { t with name := nm },
        set_transformation w { t with name := nm }) := by
    unfold update_transformation
    rw [h]
    rfl
  rw [hu]
  refine ⟨rfl, ⟨rfl, rfl, rfl, rfl, rfl, rfl, rfl⟩, rfl, ?_, ?_⟩
  · exact find?_id_map_replace w.transformations t { t with name := nm } h rfl
  · intro u hm hne
    have : (if u.id = ({ t with name := nm } : Transformation).id
        then { t with name := nm } else u) = u := if_neg (by simpa using hne)
    exact this ▸ List.mem_map_of_mem _ hm

/-- Witness for C8 on a concrete world containing one stored transformation. -/
theorem C8_rename_only_witness :
    (get_transformation demoW8 demoT8.id = some demoT8) ∧
    (update_transformation K0 demoW8 demoT8.id (some "new") none none).1 =
      some { demoT8 with name := "new" } :=
  ⟨by decide, (C8_rename_only K0 demoW8 demoT8 "new" (by decide)).1⟩

/-! ## Entity Store point-count invariant (claim C7) -/

theorem insertPoint_fresh (ps : List Point) (p : Point)
    (h : ∀ q ∈ ps, q.id ≠ p.id) : insertPoint ps p = ps ++ [p] := by
  unfold insertPoint
  rw [if_neg]
  simp only [List.any_eq_true, decide_eq_true_eq, not_exists]
  intro q
  rw [not_and]
  exact h q

theorem foldl_insertPoint_fresh (pds : List PointData) : ∀ acc : List Point,
    (∀ pd ∈ pds, ∀ q ∈ acc, q.id ≠ pd.id) → (pds.map PointData.id).Nodup →
    pds.foldl (fun a pd => insertPoint a (toPoint pd)) acc = acc ++ pds.map toPoint := by
  induction pds with
  | nil => intro acc _ _; simp
  | cons pd rest ih =>
    intro acc hfresh hnd
    simp only [List.foldl_cons]
    rw [insertPoint_fresh acc (toPoint pd)
      (fun q hq => hfresh pd (List.mem_cons_self _ _) q hq)]
    rw [ih (acc ++ [toPoint pd]) ?_ ?_]
    · simp
    · intro pd' hpd' q hq
      rcases List.mem_append.mp hq with hq | hq
      · exact hfresh pd' (List.mem_cons_of_mem _ hpd') q hq
      · simp only [List.mem_singleton] at hq
        subst hq
        intro hc
        simp only [List.map_cons, List.nodup_cons] at hnd
        exact hnd.1 (by
          rw [show pd.id = pd'.id from hc]
          exact List.mem_map_of_mem PointData.id hpd')
    · simp only [List.map_cons, List.nodup_cons] at hnd
      exact hnd.2

theorem find?_entry_rewrite (points : List (Nat × List Point)) (lid k : Nat)
    (f : List Point → List Point) :
    (points.map (fun e => if e.1 = lid then (e.1, f e.2) else e)).find?
        (fun e => e.1 = k) =
      if k = lid then (points.find? (fun e => e.1 = k)).map (fun e => (e.1, f e.2))
      else points.find? (fun e => e.1 = k) := by
  induction points with
  | nil => by_cases h : k = lid <;> simp [h]
  | cons e rest ih =>
    by_cases he : e.1 = k
    · by_cases hel : e.1 = lid
      · have h1 : (if e.1 = lid then (e.1, f e.2) else e) = (e.1, f e.2) := if_pos hel
        simp only [List.map_cons, h1]
        rw [List.find?_cons_of_pos _ (by simpa using he),
          List.find?_cons_of_pos _ (by simpa using he),
          if_pos (he ▸ hel ▸ rfl)]
        rfl
      · have h1 : (if e.1 = lid then (e.1, f e.2) else e) = e := if_neg hel
        simp only [List.map_cons, h1]
        rw [List.find?_cons_of_pos _ (by simpa using he),
          List.find?_cons_of_pos _ (by simpa using he),
          if_neg (fun hc => hel (he.trans hc))]
    · have h2 : ((if e.1 = lid then (e.1, f e.2) else e)).1 = e.1 := by
        by_cases hel : e.1 = lid <;> simp [hel]
      simp only [List.map_cons]
      rw [List.find?_cons_of_neg _ (by simp [h2, he]),
        List.find?_cons_of_neg _ (by simpa using he), ih]

theorem pointsOf_setPoints (w : World) (lid k : Nat) (f : List Point → List Point) :
    pointsOf (setPoints w lid f) k =
      if k = lid ∧ (w.points.find? (fun e => e.1 = lid)).isSome then f (pointsOf w lid)
      else pointsOf w k := by
  unfold pointsOf setPoints
  simp only
  rw [find?_entry_rewrite]
  by_cases hk : k = lid
  · subst hk
    cases hfind : w.points.find? (fun e => e.1 = k) with
    | none => simp [hfind]
    | some e => simp [hfind]
  · simp [hk]

theorem keys_setPoints (w : World) (lid : Nat) (f : List Point → List Point) :
    (setPoints w lid f).points.map Prod.fst = w.points.map Prod.fst := by
  unfold setPoints
  simp only [List.map_map]
  refine List.map_congr_left ?_
  intro e _
  by_cases he : e.1 = lid <;> simp [he]

theorem pointsOf_bumpCount (w : World) (lid : Nat) (n k : Nat) :
    pointsOf (bumpCount w lid n) k = pointsOf w k := rfl

theorem layers_ids_bumpCount (w : World) (lid n : Nat) :
    (bumpCount w lid n).layers.map Layer.id = w.layers.map Layer.id := by
  unfold bumpCount
  simp only [List.map_map]
  refine List.map_congr_left ?_
  intro l _
  by_cases hl : l.id = lid <;> simp [hl]

theorem get_layer_isSome_iff (w : World) (lid : Nat) :
    (get_layer w lid).isSome ↔ lid ∈ w.layers.map Layer.id := by
  unfold get_layer
  rw [List.find?_isSome]
  constructor
  · rintro ⟨l, hl, hp⟩
    exact (by simpa using hp : l.id = lid) ▸ List.mem_map_of_mem Layer.id hl
  · intro h
    rcases List.mem_map.mp h with ⟨l, hl, hid⟩
    exact ⟨l, hl, by simpa using hid⟩

theorem entry_isSome_iff (w : World) (lid : Nat) :
    (w.points.find? (fun e => e.1 = lid)).isSome ↔ lid ∈ w.points.map Prod.fst := by
  rw [List.find?_isSome]
  constructor
  · rintro ⟨e, he, hp⟩
    exact (by simpa using hp : e.1 = lid) ▸ List.mem_map_of_mem Prod.fst he
  · intro h
    rcases List.mem_map.mp h with ⟨e, he, hid⟩
    exact ⟨e, he, by simpa using hid⟩

theorem bulk_pointsOf (w : World) (lid : Nat) (pds : List PointData)
    (hw : StoreInv w) (hf : FreshOp w (.addPointsBulk lid pds))
    (hl : (get_layer w lid).isSome) :
    pointsOf (add_points_bulk w lid pds).2 lid = pointsOf w lid ++ pds.map toPoint := by
  obtain ⟨hcorr, hnd, hfresh, hpc⟩ := hw
  obtain ⟨hndpds, hdisj⟩ := hf
  have hentry : (w.points.find? (fun e => e.1 = lid)).isSome := by
    rw [entry_isSome_iff, hcorr]
    exact (get_layer_isSome_iff w lid).mp hl
  unfold add_points_bulk
  rw [if_pos hl]
  simp only
  rw [pointsOf_bumpCount, pointsOf_setPoints, if_pos ⟨rfl, hentry⟩]
  exact foldl_insertPoint_fresh pds (pointsOf w lid)
    (fun pd hpd q hq => hdisj pd hpd q hq) hndpds

theorem fresh_of_keys (ps' ps : List (Nat × List Point)) (n : Nat)
    (hk : ps'.map Prod.fst = ps.map Prod.fst)
    (h : ∀ e ∈ ps, e.1 < n) : ∀ e ∈ ps', e.1 < n := by
  intro e he
  have hmem : e.1 ∈ ps.map Prod.fst := hk ▸ List.mem_map_of_mem Prod.fst he
  rcases List.mem_map.mp hmem with ⟨e0, he0, heq⟩
  exact heq ▸ h e0 he0

theorem storeInv_runOp (w : World) (op : StoreOp)
    (hw : StoreInv w) (hf : FreshOp w op) : StoreInv (runOp w op) := by
  obtain ⟨hcorr, hnd, hfresh, hpc⟩ := hw
  cases op with
  | createLayer n d ds s =>
    have hkeylt : ∀ k ∈ w.layers.map Layer.id, k < w.nextId := by
      intro k hk
      rw [← hcorr] at hk
      rcases List.mem_map.mp hk with ⟨e, he, hke⟩
      exact hke ▸ hfresh e he
    have hpts_old : ∀ k, k < w.nextId →
        pointsOf (runOp w (.createLayer n d ds s)) k = pointsOf w k := by
      intro k hk
      unfold runOp create_layer pointsOf
      simp only
      rw [List.find?_append]
      have h2 : List.find? (fun e => e.1 = k) [(w.nextId, ([] : List Point))] = none := by
        simp [Nat.ne_of_gt hk]
      rw [h2, Option.or_none]
    refine ⟨?_, ?_, ?_, ?_⟩
    · simp [runOp, create_layer, hcorr]
    · simp only [runOp, create_layer, List.map_append]
      rw [List.nodup_append]
      refine ⟨hnd, by simp, ?_⟩
      intro x hx hmem
      simp only [List.map_cons, List.map_nil, List.mem_singleton] at hmem
      exact absurd (hmem ▸ hkeylt x hx) (lt_irrefl _)
    · intro e he
      simp only [runOp, create_layer, List.mem_append] at he
      rcases he with he | he
      · exact Nat.lt_succ_of_lt (hfresh e he)
      · simp only [List.mem_singleton] at he
        simp [he, runOp, create_layer]
    · intro l hl
      simp only [runOp, create_layer, List.mem_append] at hl
      rcases hl with hl | hl
      · have hlt : l.id < w.nextId := hkeylt l.id (List.mem_map_of_mem Layer.id hl)
        rw [hpts_old l.id hlt]
        exact hpc l hl
      · simp only [List.mem_singleton] at hl
        subst hl
        simp only
        have h1 : List.find? (fun e => e.1 = w.nextId) w.points = none :=
          find?_key_eq_none Prod.fst w.points w.nextId
            (fun e he => Nat.ne_of_lt (hfresh e he))
        unfold runOp create_layer pointsOf
        simp only
        rw [List.find?_append, h1]
        simp
  | addPoint lid pd =>
    by_cases hl : (get_layer w lid).isSome
    · have hentry : (w.points.find? (fun e => e.1 = lid)).isSome := by
        rw [entry_isSome_iff, hcorr]
        exact (get_layer_isSome_iff w lid).mp hl
      have hrun : runOp w (.addPoint lid pd) =
          bumpCount (setPoints w lid (fun ps => insertPoint ps (toPoint pd))) lid 1 := by
        simp only [runOp, add_point]
        rw [if_pos hl]
      rw [hrun]
      have hkeys : (bumpCount (setPoints w lid fun ps => insertPoint ps (toPoint pd)) lid 1).points.map
          Prod.fst = w.points.map Prod.fst := by
        show (setPoints w lid fun ps => insertPoint ps (toPoint pd)).points.map Prod.fst
          = w.points.map Prod.fst
        exact keys_setPoints w lid _
      refine ⟨?_, ?_, ?_, ?_⟩
      · rw [hkeys, layers_ids_bumpCount]
        exact hcorr
      · rw [layers_ids_bumpCount]
        exact hnd
      · exact fresh_of_keys _ w.points w.nextId hkeys hfresh
      · intro l' hl'
        have hly : (bumpCount (setPoints w lid fun ps => insertPoint ps (toPoint pd)) lid 1).layers
            = w.layers.map (fun l =>
                if l.id = lid then { l with point_count := l.point_count + 1 } else l) := rfl
        rw [hly] at hl'
        rcases List.mem_map.mp hl' with ⟨l, hlmem, heq⟩
        by_cases hid : l.id = lid
        · rw [← heq, if_pos hid]
          rw [show ({ l with point_count := l.point_count + 1 } : Layer).id = l.id from rfl]
          rw [pointsOf_bumpCount, pointsOf_setPoints, hid, if_pos ⟨rfl, hentry⟩]
          rw [insertPoint_fresh (pointsOf w lid) (toPoint pd) (fun q hq => hf q hq)]
          rw [List.length_append]
          simp only [List.length_singleton]
          rw [hpc l hlmem, hid]
        · rw [← heq, if_neg hid]
          rw [pointsOf_bumpCount, pointsOf_setPoints, if_neg (fun hc => hid hc.1)]
          exact hpc l hlmem
    · have hrun : runOp w (.addPoint lid pd) = w := by
        simp only [runOp, add_point]
        rw [if_neg hl]
      rw [hrun]
      exact ⟨hcorr, hnd, hfresh, hpc⟩
  | addPointsBulk lid pds =>
    by_cases hl : (get_layer w lid).isSome
    · have hbulk := bulk_pointsOf w lid pds ⟨hcorr, hnd, hfresh, hpc⟩ hf hl
      have hrun : runOp w (.addPointsBulk lid pds) =
          bumpCount (setPoints w lid
            (fun ps => pds.foldl (fun acc pd => insertPoint acc (toPoint pd)) ps))
            lid pds.length := by
        simp only [runOp, add_points_bulk]
        rw [if_pos hl]
      have hbulk' : pointsOf (bumpCount (setPoints w lid
          (fun ps => pds.foldl (fun acc pd => insertPoint acc (toPoint pd)) ps))
          lid pds.length) lid = pointsOf w lid ++ pds.map toPoint := by
        rw [← hrun]
        exact hbulk
      rw [hrun]
      have hkeys : (bumpCount (setPoints w lid
          (fun ps => pds.foldl (fun acc pd => insertPoint acc (toPoint pd)) ps))
          lid pds.length).points.map Prod.fst = w.points.map Prod.fst := by
        show (setPoints w lid
          (fun ps => pds.foldl (fun acc pd => insertPoint acc (toPoint pd)) ps)).points.map
            Prod.fst = w.points.map Prod.fst
        exact keys_setPoints w lid _
      refine ⟨?_, ?_, ?_, ?_⟩
      · rw [hkeys, layers_ids_bumpCount]
        exact hcorr
      · rw [layers_ids_bumpCount]
        exact hnd
      · exact fresh_of_keys _ w.points w.nextId hkeys hfresh
      · intro l' hl'
        have hly : (bumpCount (setPoints w lid
            (fun ps => pds.foldl (fun acc pd => insertPoint acc (toPoint pd)) ps))
            lid pds.length).layers
            = w.layers.map (fun l =>
                if l.id = lid then { l with point_count := l.point_count + pds.length } else l) := rfl
        rw [hly] at hl'
        rcases List.mem_map.mp hl' with ⟨l, hlmem, heq⟩
        by_cases hid : l.id = lid
        · rw [← heq, if_pos hid]
          rw [show ({ l with point_count := l.point_count + pds.length } : Layer).id = l.id from rfl]
          rw [hid, hbulk']
          rw [List.length_append, List.length_map]
          rw [hpc l hlmem, hid]
        · rw [← heq, if_neg hid]
          rw [pointsOf_bumpCount, pointsOf_setPoints, if_neg (fun hc => hid hc.1)]
          exact hpc l hlmem
    · have hrun : runOp w (.addPointsBulk lid pds) = w := by
        simp only [runOp, add_points_bulk]
        rw [if_neg hl]
      rw [hrun]
      exact ⟨hcorr, hnd, hfresh, hpc⟩

theorem storeInv_runOps : ∀ (ops : List StoreOp) (w : World),
    StoreInv w → FreshTrace w ops → StoreInv (runOps w ops) := by
  intro ops
  induction ops with
  | nil => intro w hw _; exact hw
  | cons op rest ih =>
    intro w hw htr
    exact ih (runOp w op) (storeInv_runOp w op hw htr.1) htr.2

/-- C7 counterexample: adding the same point id twice to a layer leaves
`point_count = 2` while only one point is stored (the dict entry is
overwritten but the counter is incremented anyway), so the invariant
"every layer's point_count equals the number of stored points" fails. -/
theorem C7_counterexample :
    ((get_layer (runOps emptyWorld dupOps) 0).map Layer.point_count = some 2 ∧
      (pointsOf (runOps emptyWorld dupOps) 0).length = 1) ∧
    ¬ pcInv (runOps emptyWorld dupOps) := by
  refine ⟨by decide, ?_⟩
  unfold pcInv
  decide

/-- C7 (amended): provided every added point id is new to its layer and every
bulk batch has pairwise-distinct ids, after any sequence of Entity Store
operations each layer's `point_count` equals the number of points stored
under it; and under the same freshness condition a further bulk add on an
existing layer admits every point of the batch and reports the full batch
size. -/
theorem C7_point_count_inv (ops : List StoreOp) (h : FreshTrace emptyWorld ops) :
    pcInv (runOps emptyWorld ops) ∧
    ∀ lid pds,
      FreshOp (runOps emptyWorld ops) (.addPointsBulk lid pds) →
      (get_layer (runOps emptyWorld ops) lid).isSome →
      pointsOf (add_points_bulk (runOps emptyWorld ops) lid pds).2 lid =
          pointsOf (runOps emptyWorld ops) lid ++ pds.map toPoint ∧
        (add_points_bulk (runOps emptyWorld ops) lid pds).1 = pds.length := by
  have hinv : StoreInv (runOps emptyWorld ops) :=
    storeInv_runOps ops emptyWorld
      ⟨rfl, List.nodup_nil, fun e he => absurd he (List.not_mem_nil e), fun l hl =>
        absurd hl (List.not_mem_nil l)⟩ h
  refine ⟨hinv.2.2.2, ?_⟩
  intro lid pds hfo hl
  refine ⟨bulk_pointsOf _ lid pds hinv hfo hl, ?_⟩
  unfold add_points_bulk
  rw [if_pos hl]

/-- Witness for C7 on a concrete fresh trace. -/
theorem C7_point_count_inv_witness :
    FreshTrace emptyWorld freshOps ∧ pcInv (runOps emptyWorld freshOps) :=
  ⟨by decide, (C7_point_count_inv freshOps (by decide)).1⟩

/-! ## Projection caching and determinism (claims C6, C9) -/

theorem mkProjected_eq_nil (src : List Point) (coords : List (List ℚ)) :
    mkProjected src coords = [] ↔ src = [] ∨ coords = [] := by
  cases src <;> cases coords <;> simp [mkProjected]

/-- A failed computation (`none`) leaves the global RNG untouched: the only
`none` exit is the empty-vectors check, before any branch runs. -/
theorem compute_projection_none_rng (R : Rng) (PK : ProjKernels) (w : World)
    (proj : Projection) (pids : Option (List Nat))
    (h : (compute_projection R PK w proj pids).1 = none) :
    (compute_projection R PK w proj pids).2 = w.rngState := by
  unfold compute_projection at h ⊢
  by_cases hv : (get_points w proj.layer_id pids).map (fun p => p.vector) = []
  · simp only [hv, if_pos]
  · simp only [hv, if_neg, ite_false] at h
    simp at h

/-- A successful but empty computation also leaves the RNG untouched: the
jitter branches produce one row per stored point (`RngLen`), so an empty
result can come only from a non-RNG branch. -/
theorem compute_projection_some_nil_rng (R : Rng) (PK : ProjKernels) (w : World)
    (proj : Projection) (hR : RngLen R)
    (h : (compute_projection R PK w proj none).1 = some []) :
    (compute_projection R PK w proj none).2 = w.rngState := by
  unfold compute_projection at h ⊢
  by_cases hv : (get_points w proj.layer_id none).map (fun p => p.vector) = []
  · simp only [hv, if_pos]
  · simp only [hv, if_neg, ite_false] at h ⊢
    have hsrc : get_points w proj.layer_id none ≠ [] := by
      intro hc
      exact hv (by rw [hc]; rfl)
    have hnil := Option.some_injective _ h
    rcases (mkProjected_eq_nil _ _).mp hnil with hc | hcoords
    · exact absurd hc hsrc
    · cases hty : proj.type <;> simp only [hty] at hcoords ⊢ <;> try rfl
      all_goals {
        exfalso
        revert hcoords
        simp only [compute_density, compute_boxplot, compute_violin]
        intro hcoords
        have hlen := congrArg List.length hcoords
        rw [List.length_zipWith, hR] at hlen
        simp only [List.length_map, List.length_nil] at hlen
        rw [min_self] at hlen
        exact hsrc (List.length_eq_zero.mp hlen) }

/-- C6 (amended): two consecutive `get_projection_coordinates` calls with no
intervening change return identical coordinate lists; and whenever the first
call returns a result (i.e. the cache is populated), the second call performs
no recomputation — it reads the cache.  (When the first computation fails,
e.g. on an empty layer, both calls return `none` but the second call does
attempt the computation again; see the counterexample.) -/
theorem C6_idempotent_cached (R : Rng) (PK : ProjKernels) (w : World) (pid : Nat)
    (hR : RngLen R) :
    (get_projection_coordinates R PK (get_projection_coordinates R PK w pid).2.1 pid).1 =
        (get_projection_coordinates R PK w pid).1 ∧
    ((get_projection_coordinates R PK w pid).1.isSome →
      (get_projection_coordinates R PK (get_projection_coordinates R PK w pid).2.1 pid).2.2 =
        false) := by
  by_cases hcache : (w.projResults.find? (fun e => e.1 = pid)).isSome
  · have he : ensure_computed R PK w pid = (true, w, false) := by
      unfold ensure_computed
      rw [if_pos hcache]
    have hE1 : get_projection_coordinates R PK w pid = (getCached w pid, w, false) := by
      unfold get_projection_coordinates
      rw [he]
    refine ⟨?_, fun _ => ?_⟩
    · rw [hE1]
      show (get_projection_coordinates R PK w pid).1 = getCached w pid
      rw [hE1]
    · rw [hE1]
      show (get_projection_coordinates R PK w pid).2.2 = false
      rw [hE1]
  · have hnone : w.projResults.find? (fun e => e.1 = pid) = none :=
      Option.not_isSome_iff_eq_none.mp hcache
    have hgc : getCached w pid = none := by
      unfold getCached
      rw [hnone]
      rfl
    cases hproj : w.projections.find? (fun p => p.id = pid) with
    | none =>
      have he : ensure_computed R PK w pid = (false, w, false) := by
        unfold ensure_computed
        rw [if_neg hcache, hproj]
      have hE1 : get_projection_coordinates R PK w pid = (getCached w pid, w, false) := by
        unfold get_projection_coordinates
        rw [he]
      refine ⟨?_, fun hs => ?_⟩
      · rw [hE1]
        show (get_projection_coordinates R PK w pid).1 = getCached w pid
        rw [hE1]
      · rw [hE1] at hs
        exact absurd (show (getCached w pid).isSome from hs) (by rw [hgc]; simp)
    | some proj =>
      cases hr : (compute_projection R PK w proj none).1 with
      | none =>
        have hw1 : ({ w with rngState := (compute_projection R PK w proj none).2 } : World)
            = w := by rw [compute_projection_none_rng R PK w proj none hr]
        have he : ensure_computed R PK w pid = (false, w, true) := by
          unfold ensure_computed
          rw [if_neg hcache, hproj]
          simp [hr, hw1]
        have hE1 : get_projection_coordinates R PK w pid = (getCached w pid, w, true) := by
          unfold get_projection_coordinates
          rw [he]
        refine ⟨?_, fun hs => ?_⟩
        · rw [hE1]
          show (get_projection_coordinates R PK w pid).1 = getCached w pid
          rw [hE1]
        · rw [hE1] at hs
          exact absurd (show (getCached w pid).isSome from hs) (by rw [hgc]; simp)
      | some results =>
        by_cases hnil : results = []
        · subst hnil
          have hw1 : ({ w with rngState := (compute_projection R PK w proj none).2 } : World)
              = w := by rw [compute_projection_some_nil_rng R PK w proj hR hr]
          have he : ensure_computed R PK w pid = (false, w, true) := by
            unfold ensure_computed
            rw [if_neg hcache, hproj]
            simp [hr, hw1]
          have hE1 : get_projection_coordinates R PK w pid = (getCached w pid, w, true) := by
            unfold get_projection_coordinates
            rw [he]
          refine ⟨?_, fun hs => ?_⟩
          · rw [hE1]
            show (get_projection_coordinates R PK w pid).1 = getCached w pid
            rw [hE1]
          · rw [hE1] at hs
            exact absurd (show (getCached w pid).isSome from hs) (by rw [hgc]; simp)
        · have he : ensure_computed R PK w pid =
              (true,
                { w with rngState := (compute_projection R PK w proj none).2
                         projResults := w.projResults ++ [(pid, results)] }, true) := by
            unfold ensure_computed
            rw [if_neg hcache, hproj]
            simp [hr, hnil]
          have hfind :
              (({ w with rngState := (compute_projection R PK w proj none).2
                         projResults := w.projResults ++ [(pid, results)] } : World).projResults.find?
                (fun e => e.1 = pid)) = some (pid, results) := by
            show (w.projResults ++ [(pid, results)]).find? (fun e => e.1 = pid) = _
            rw [List.find?_append, hnone]
            simp
          have he2 : ensure_computed R PK
              { w with rngState := (compute_projection R PK w proj none).2
                       projResults := w.projResults ++ [(pid, results)] } pid =
              (true,
                { w with rngState := (compute_projection R PK w proj none).2
                         projResults := w.projResults ++ [(pid, results)] }, false) := by
            unfold ensure_computed
            rw [if_pos (by rw [hfind]; rfl)]
          have hE1 : get_projection_coordinates R PK w pid =
              (getCached { w with rngState := (compute_projection R PK w proj none).2
                                  projResults := w.projResults ++ [(pid, results)] } pid,
                { w with rngState := (compute_projection R PK w proj none).2
                         projResults := w.projResults ++ [(pid, results)] }, true) := by
            unfold get_projection_coordinates
            rw [he]
          have hE2 : get_projection_coordinates R PK
              { w with rngState := (compute_projection R PK w proj none).2
                       projResults := w.projResults ++ [(pid, results)] } pid =
              (getCached { w with rngState := (compute_projection R PK w proj none).2
                                  projResults := w.projResults ++ [(pid, results)] } pid,
                { w with rngState := (compute_projection R PK w proj none).2
                         projResults := w.projResults ++ [(pid, results)] }, false) := by
            unfold get_projection_coordinates
            rw [he2]
          refine ⟨?_, fun _ => ?_⟩
          · rw [hE1]
            show (get_projection_coordinates R PK
              { w with rngState := (compute_projection R PK w proj none).2
                       projResults := w.projResults ++ [(pid, results)] } pid).1 = _
            rw [hE2]
          · rw [hE1]
            show (get_projection_coordinates R PK
              { w with rngState := (compute_projection R PK w proj none).2
                       projResults := w.projResults ++ [(pid, results)] } pid).2.2 = false
            rw [hE2]

/-- Witness for C6 on a concrete world with a computable projection. -/
theorem C6_idempotent_cached_witness :
    RngLen R0 ∧
    (get_projection_coordinates R0 PK0
        (get_projection_coordinates R0 PK0 demoW9a demoDensityProj.id).2.1
        demoDensityProj.id).1 =
      (get_projection_coordinates R0 PK0 demoW9a demoDensityProj.id).1 :=
  ⟨fun s n => by simp [R0], (C6_idempotent_cached R0 PK0 demoW9a demoDensityProj.id
    (fun s n => by simp [R0])).1⟩

/-- C6 counterexample: on a projection over an empty layer the first call
fails to populate the cache and the second call performs the computation
again — the claim's "the second call performs no recomputation" is false as
stated (both calls do return the same `none`). -/
theorem C6_counterexample :
    (get_projection_coordinates R0 PK0
        (get_projection_coordinates R0 PK0 demoW6 demoDirectProj.id).2.1
        demoDirectProj.id).2.2 = true ∧
    (get_projection_coordinates R0 PK0 demoW6 demoDirectProj.id).1 = none := by
  constructor <;> decide

/-- C9 (amended): for every projection whose type is PCA, t-SNE, UMAP,
custom-axes or direct, the computed coordinate list is a deterministic
function of the referenced layer's stored points, the projection record
(type, dimensions, parameters, random seed) and the fixed reduction kernels:
two computations run from any two states agreeing on those inputs — in
particular with different hidden global-RNG states or after the cache was
cleared — return identical results.  (The density/boxplot/violin types draw
their jitter from the unseeded global RNG and are excluded; see the
counterexample.) -/
theorem C9_deterministic (R R' : Rng) (PK : ProjKernels) (w w' : World)
    (proj : Projection)
    (htype : proj.type ≠ .density ∧ proj.type ≠ .boxplot ∧ proj.type ≠ .violin)
    (hpts : get_points w proj.layer_id none = get_points w' proj.layer_id none) :
    (compute_projection R PK w proj none).1 = (compute_projection R' PK w' proj none).1 := by
  unfold compute_projection
  rw [← hpts]
  cases hty : proj.type with
  | density => exact absurd hty htype.1
  | boxplot => exact absurd hty htype.2.1
  | violin => exact absurd hty htype.2.2
  | pca =>
    by_cases hv : (get_points w proj.layer_id none).map (fun p => p.vector) = [] <;> simp [hv]
  | tsne =>
    by_cases hv : (get_points w proj.layer_id none).map (fun p => p.vector) = [] <;> simp [hv]
  | umap =>
    by_cases hv : (get_points w proj.layer_id none).map (fun p => p.vector) = [] <;> simp [hv]
  | custom_axes =>
    by_cases hv : (get_points w proj.layer_id none).map (fun p => p.vector) = [] <;> simp [hv]
  | direct =>
    by_cases hv : (get_points w proj.layer_id none).map (fun p => p.vector) = [] <;> simp [hv]

/-- Witness for C9 at a concrete direct projection computed from two worlds
that differ in their global-RNG state. -/
theorem C9_deterministic_witness :
    ((demoDirectProj.type ≠ ProjectionType.density ∧
        demoDirectProj.type ≠ ProjectionType.boxplot ∧
        demoDirectProj.type ≠ ProjectionType.violin) ∧
      get_points demoW9a demoDirectProj.layer_id none =
        get_points { demoW9a with rngState := 1 } demoDirectProj.layer_id none) ∧
    (compute_projection R0 PK0 demoW9a demoDirectProj none).1 =
      (compute_projection R0 PK0 { demoW9a with rngState := 1 } demoDirectProj none).1 :=
  ⟨⟨by decide, by decide⟩,
    C9_deterministic R0 R0 PK0 demoW9a { demoW9a with rngState := 1 } demoDirectProj
      (by decide) (by decide)⟩

/-- C9 counterexample: a density projection's coordinates are *not* a
function of (layer vectors, type, dimensions, parameters, random seed):
two computations from worlds identical in all of those — differing only in
the hidden global-RNG state that `np.random.uniform` reads — produce
different jitter coordinates. -/
theorem C9_counterexample :
    (get_points demoW9a demoDensityProj.layer_id none =
        get_points demoW9b demoDensityProj.layer_id none ∧
      demoW9a.layers = demoW9b.layers ∧
      demoW9a.projections = demoW9b.projections) ∧
    (compute_projection R0 PK0 demoW9a demoDensityProj none).1 ≠
      (compute_projection R0 PK0 demoW9b demoDensityProj none).1 := by
  constructor
  · constructor
    · decide
    · exact ⟨rfl, rfl⟩
  · decide

/-! ## Dot-product algebra for the custom-axes claims (C2, C3, C4) -/

theorem dotR_nil_left (b : List ℝ) : dotR [] b = 0 := by simp [dotR]

theorem dotR_nil_right (a : List ℝ) : dotR a [] = 0 := by cases a <;> simp [dotR]

theorem dotR_cons (x y : ℝ) (xs ys : List ℝ) :
    dotR (x :: xs) (y :: ys) = x * y + dotR xs ys := by simp [dotR]

theorem dotR_comm (a b : List ℝ) : dotR a b = dotR b a := by
  induction a generalizing b with
  | nil => cases b <;> simp [dotR]
  | cons x xs ih =>
    cases b with
    | nil => simp [dotR]
    | cons y ys => rw [dotR_cons, dotR_cons, ih, mul_comm]

theorem dotR_sub_left (a b c : List ℝ) (hab : a.length = b.length) :
    dotR (List.zipWith (fun x y => x - y) a b) c = dotR a c - dotR b c := by
  induction a generalizing b c with
  | nil =>
    cases b with
    | nil => simp [dotR]
    | cons y ys => simp at hab
  | cons x xs ih =>
    cases b with
    | nil => simp at hab
    | cons y ys =>
      cases c with
      | nil => simp [dotR_nil_right]
      | cons z zs =>
        simp only [List.zipWith_cons_cons, dotR_cons]
        rw [ih ys zs (by simpa using hab)]
        ring

theorem dotR_zip_combo (u v1 v2 : List ℝ) (c b det : ℝ)
    (h1 : v1.length = v2.length) (hu : u.length = v1.length) :
    dotR u (List.zipWith (fun x y => (c * x - b * y) / det) v1 v2)
      = (c * dotR u v1 - b * dotR u v2) / det := by
  induction u generalizing v1 v2 with
  | nil => simp [dotR]
  | cons x xs ih =>
    cases v1 with
    | nil => simp at hu
    | cons a as =>
      cases v2 with
      | nil => simp at h1
      | cons d ds =>
        simp only [List.zipWith_cons_cons, dotR_cons]
        rw [ih as ds (by simpa using h1) (by simpa using hu)]
        rw [← mul_div_assoc, div_add_div_same]
        congr 1
        ring

theorem dotR_zip_combo2 (u v1 v2 : List ℝ) (a0 b0 det : ℝ)
    (h1 : v1.length = v2.length) (hu : u.length = v1.length) :
    dotR u (List.zipWith (fun x y => (a0 * y - b0 * x) / det) v1 v2)
      = (a0 * dotR u v2 - b0 * dotR u v1) / det := by
  induction u generalizing v1 v2 with
  | nil => simp [dotR]
  | cons x xs ih =>
    cases v1 with
    | nil => simp at hu
    | cons a as =>
      cases v2 with
      | nil => simp at h1
      | cons d ds =>
        simp only [List.zipWith_cons_cons, dotR_cons]
        rw [ih as ds (by simpa using h1) (by simpa using hu)]
        rw [← mul_div_assoc, div_add_div_same]
        congr 1
        ring

theorem foldl_zipWith_add_length (m : List (List ℝ)) (D : Nat) :
    ∀ acc : List ℝ, acc.length = D → (∀ r ∈ m, r.length = D) →
    (m.foldl (fun acc r => List.zipWith (fun x y => x + y) acc r) acc).length = D := by
  induction m with
  | nil => intro acc hacc _; simpa using hacc
  | cons r rest ih =>
    intro acc hacc hm
    simp only [List.foldl_cons]
    exact ih _ (by
        rw [List.length_zipWith, hacc, hm r (List.mem_cons_self r rest), min_self])
      (fun r' hr' => hm r' (List.mem_cons_of_mem r hr'))

theorem meanVec_length (m : List (List ℝ)) (D : Nat) (hne : m ≠ [])
    (hm : ∀ r ∈ m, r.length = D) : (meanVec m).length = D := by
  unfold meanVec
  rw [List.length_map]
  refine foldl_zipWith_add_length m D _ ?_ hm
  rw [List.length_replicate]
  cases m with
  | nil => exact absurd rfl hne
  | cons r rest => exact hm r (List.mem_cons_self r rest)

theorem centerRows_getElem? (m : List (List ℝ)) (i : Nat) :
    (centerRows m)[i]? =
      (m[i]?).map (fun r => List.zipWith (fun x y => x - y) r (meanVec m)) := by
  unfold centerRows
  exact List.getElem?_map _ _ _

theorem extract_two (v1 v2 : List ℝ) (h1 : vnorm v1 > epsAxis) (h2 : vnorm v2 > epsAxis) :
    extract_raw_vectors [⟨"direction", v1⟩, ⟨"direction", v2⟩] = [v1, v2] := by
  unfold extract_raw_vectors
  simp [h1, h2]

/-- The two-axis path of `_apply_custom_axes` (2D mode) written out: the
oblique coefficient rows over the centered data. -/
theorem te2d_two_axes (m : List (List ℝ)) (v1 v2 : List ℝ)
    (h1 : vnorm v1 > epsAxis) (h2 : vnorm v2 > epsAxis) :
    apply_custom_axes_te2d m [⟨"direction", v1⟩, ⟨"direction", v2⟩] =
      (centerRows m).map (fun r =>
        [dotR r (List.zipWith (fun x y =>
            (dotR v2 v2 * x - dotR v1 v2 * y) /
              (dotR v1 v1 * dotR v2 v2 - dotR v1 v2 * dotR v1 v2)) v1 v2),
         dotR r (List.zipWith (fun x y =>
            (dotR v1 v1 * y - dotR v1 v2 * x) /
              (dotR v1 v1 * dotR v2 v2 - dotR v1 v2 * dotR v1 v2)) v1 v2)]) := by
  show (match extract_raw_vectors [⟨"direction", v1⟩, ⟨"direction", v2⟩] with
    | [] => m.map (fun _ => ([0, 0] : List ℝ))
    | raw => apply_custom_axes_2d (centerRows m) raw) = _
  rw [extract_two v1 v2 h1 h2]
  rfl

/-- C4 (amended): the transform engine's 2D custom-axes output is the
oblique coefficients `(VᵗV)⁻¹Vᵗ` applied to mean-centered data with **no**
rescaling by the axis magnitudes: an input displacement equal to `v1` maps to
`(1, 0)` and one equal to `v2` maps to `(0, 1)` (the magnitude rescaling
described by the spec lives in the projection engine, not here). -/
theorem C4_te2d_unit_coefficients (m : List (List ℝ)) (v1 v2 ri rj : List ℝ)
    (D i j : Nat)
    (h1 : vnorm v1 > epsAxis) (h2 : vnorm v2 > epsAxis)
    (hl1 : v1.length = D) (hl2 : v2.length = D)
    (hrows : ∀ r ∈ m, r.length = D)
    (hdet : dotR v1 v1 * dotR v2 v2 - dotR v1 v2 * dotR v1 v2 ≠ 0)
    (hri : m[i]? = some ri) (hrj : m[j]? = some rj) :
    (List.zipWith (fun x y => x - y) ri rj = v1 →
      List.zipWith (fun x y => x - y)
        (((apply_custom_axes_te2d m [⟨"direction", v1⟩, ⟨"direction", v2⟩])[i]?).getD [])
        (((apply_custom_axes_te2d m [⟨"direction", v1⟩, ⟨"direction", v2⟩])[j]?).getD [])
        = [1, 0]) ∧
    (List.zipWith (fun x y => x - y) ri rj = v2 →
      List.zipWith (fun x y => x - y)
        (((apply_custom_axes_te2d m [⟨"direction", v1⟩, ⟨"direction", v2⟩])[i]?).getD [])
        (((apply_custom_axes_te2d m [⟨"direction", v1⟩, ⟨"direction", v2⟩])[j]?).getD [])
        = [0, 1]) := by
  have hne : m ≠ [] := by
    intro hc
    subst hc
    simp at hri
  have hμ : (meanVec m).length = D := meanVec_length m D hne hrows
  have hriLen : ri.length = D := hrows ri (by
    rcases List.getElem?_eq_some.mp hri with ⟨h, hget⟩
    exact hget ▸ List.getElem_mem h)
  have hrjLen : rj.length = D := hrows rj (by
    rcases List.getElem?_eq_some.mp hrj with ⟨h, hget⟩
    exact hget ▸ List.getElem_mem h)
  rw [te2d_two_axes m v1 v2 h1 h2]
  have hout : ∀ (k : Nat) (rk : List ℝ), m[k]? = some rk →
      (((centerRows m).map (fun r =>
        [dotR r (List.zipWith (fun x y =>
            (dotR v2 v2 * x - dotR v1 v2 * y) /
              (dotR v1 v1 * dotR v2 v2 - dotR v1 v2 * dotR v1 v2)) v1 v2),
         dotR r (List.zipWith (fun x y =>
            (dotR v1 v1 * y - dotR v1 v2 * x) /
              (dotR v1 v1 * dotR v2 v2 - dotR v1 v2 * dotR v1 v2)) v1 v2)]))[k]?).getD []
      = [dotR (List.zipWith (fun x y => x - y) rk (meanVec m)) (List.zipWith (fun x y =>
            (dotR v2 v2 * x - dotR v1 v2 * y) /
              (dotR v1 v1 * dotR v2 v2 - dotR v1 v2 * dotR v1 v2)) v1 v2),
         dotR (List.zipWith (fun x y => x - y) rk (meanVec m)) (List.zipWith (fun x y =>
            (dotR v1 v1 * y - dotR v1 v2 * x) /
              (dotR v1 v1 * dotR v2 v2 - dotR v1 v2 * dotR v1 v2)) v1 v2)] := by
    intro k rk hk
    rw [List.getElem?_map, centerRows_getElem?, hk]
    rfl
  rw [hout i ri hri, hout j rj hrj]
  have hkey : ∀ pm : List ℝ,
      dotR (List.zipWith (fun x y => x - y) ri (meanVec m)) pm -
        dotR (List.zipWith (fun x y => x - y) rj (meanVec m)) pm =
      dotR (List.zipWith (fun x y => x - y) ri rj) pm := by
    intro pm
    rw [dotR_sub_left ri (meanVec m) pm (hriLen.trans hμ.symm),
      dotR_sub_left rj (meanVec m) pm (hrjLen.trans hμ.symm),
      dotR_sub_left ri rj pm (hriLen.trans hrjLen.symm)]
    ring
  simp only [List.zipWith_cons_cons, List.zipWith_nil_right]
  constructor
  · intro hv
    rw [hkey, hkey, hv]
    rw [dotR_zip_combo v1 v1 v2 (dotR v2 v2) (dotR v1 v2)
        (dotR v1 v1 * dotR v2 v2 - dotR v1 v2 * dotR v1 v2) (hl1.trans hl2.symm) rfl,
      dotR_zip_combo2 v1 v1 v2 (dotR v1 v1) (dotR v1 v2)
        (dotR v1 v1 * dotR v2 v2 - dotR v1 v2 * dotR v1 v2) (hl1.trans hl2.symm) rfl]
    have hx : (dotR v2 v2 * dotR v1 v1 - dotR v1 v2 * dotR v1 v2) /
        (dotR v1 v1 * dotR v2 v2 - dotR v1 v2 * dotR v1 v2) = 1 := by
      rw [show (dotR v2 v2 * dotR v1 v1 - dotR v1 v2 * dotR v1 v2 : ℝ)
          = dotR v1 v1 * dotR v2 v2 - dotR v1 v2 * dotR v1 v2 by ring]
      exact div_self hdet
    have hy : (dotR v1 v1 * dotR v1 v2 - dotR v1 v2 * dotR v1 v1) /
        (dotR v1 v1 * dotR v2 v2 - dotR v1 v2 * dotR v1 v2) = 0 := by
      rw [show (dotR v1 v1 * dotR v1 v2 - dotR v1 v2 * dotR v1 v1 : ℝ) = 0 by ring]
      exact zero_div _
    rw [hx, hy]
  · intro hv
    rw [hkey, hkey, hv]
    rw [dotR_zip_combo v2 v1 v2 (dotR v2 v2) (dotR v1 v2)
        (dotR v1 v1 * dotR v2 v2 - dotR v1 v2 * dotR v1 v2) (hl1.trans hl2.symm)
        (hl2.trans hl1.symm),
      dotR_zip_combo2 v2 v1 v2 (dotR v1 v1) (dotR v1 v2)
        (dotR v1 v1 * dotR v2 v2 - dotR v1 v2 * dotR v1 v2) (hl1.trans hl2.symm)
        (hl2.trans hl1.symm)]
    rw [dotR_comm v2 v1]
    have hx : (dotR v2 v2 * dotR v1 v2 - dotR v1 v2 * dotR v2 v2) /
        (dotR v1 v1 * dotR v2 v2 - dotR v1 v2 * dotR v1 v2) = 0 := by
      rw [show (dotR v2 v2 * dotR v1 v2 - dotR v1 v2 * dotR v2 v2 : ℝ) = 0 by ring]
      exact zero_div _
    have hy : (dotR v1 v1 * dotR v2 v2 - dotR v1 v2 * dotR v1 v2) /
        (dotR v1 v1 * dotR v2 v2 - dotR v1 v2 * dotR v1 v2) = 1 := div_self hdet
    rw [hx, hy]

/-! ### Concrete norm evaluations -/

theorem vnorm_20 : vnorm [(2 : ℝ), 0] = 2 := by
  have h : normSq [(2 : ℝ), 0] = 4 := by norm_num [normSq, dotR]
  unfold vnorm
  rw [h, show (4 : ℝ) = 2 ^ 2 by norm_num, Real.sqrt_sq (by norm_num : (0:ℝ) ≤ 2)]

theorem vnorm_01 : vnorm [(0 : ℝ), 1] = 1 := by
  have h : normSq [(0 : ℝ), 1] = 1 := by norm_num [normSq, dotR]
  unfold vnorm
  rw [h, Real.sqrt_one]

theorem vnorm_10 : vnorm [(1 : ℝ), 0] = 1 := by
  have h : normSq [(1 : ℝ), 0] = 1 := by norm_num [normSq, dotR]
  unfold vnorm
  rw [h, Real.sqrt_one]

theorem vnorm_34 : vnorm [(3 : ℝ), 4] = 5 := by
  have h : normSq [(3 : ℝ), 4] = 25 := by norm_num [normSq, dotR]
  unfold vnorm
  rw [h, show (25 : ℝ) = 5 ^ 2 by norm_num, Real.sqrt_sq (by norm_num : (0:ℝ) ≤ 5)]

theorem vnorm_m43 : vnorm [(-4 : ℝ), 3] = 5 := by
  have h : normSq [(-4 : ℝ), 3] = 25 := by norm_num [normSq, dotR]
  unfold vnorm
  rw [h, show (25 : ℝ) = 5 ^ 2 by norm_num, Real.sqrt_sq (by norm_num : (0:ℝ) ≤ 5)]

theorem eps_lt_norm_20 : vnorm [(2 : ℝ), 0] > epsAxis := by
  rw [vnorm_20]; norm_num [epsAxis]

theorem eps_lt_norm_01 : vnorm [(0 : ℝ), 1] > epsAxis := by
  rw [vnorm_01]; norm_num [epsAxis]

theorem eps_lt_norm_34 : vnorm [(3 : ℝ), 4] > epsAxis := by
  rw [vnorm_34]; norm_num [epsAxis]

theorem eps_lt_norm_m43 : vnorm [(-4 : ℝ), 3] > epsAxis := by
  rw [vnorm_m43]; norm_num [epsAxis]

/-- The projection engine's two-axis path written out: the same oblique
coefficient rows as the transform engine, scaled by the axis norms. -/
theorem pe2d_two_axes (m : List (List ℝ)) (v1 v2 : List ℝ)
    (h1 : vnorm v1 > epsAxis) (h2 : vnorm v2 > epsAxis) :
    compute_custom_axes m 2 [⟨"direction", v1⟩, ⟨"direction", v2⟩] =
      (centerRows m).map (fun r =>
        [dotR r (List.zipWith (fun x y =>
            (dotR v2 v2 * x - dotR v1 v2 * y) /
              (dotR v1 v1 * dotR v2 v2 - dotR v1 v2 * dotR v1 v2)) v1 v2) * vnorm v1,
         dotR r (List.zipWith (fun x y =>
            (dotR v1 v1 * y - dotR v1 v2 * x) /
              (dotR v1 v1 * dotR v2 v2 - dotR v1 v2 * dotR v1 v2)) v1 v2) * vnorm v2]) := by
  unfold compute_custom_axes
  rw [show (([⟨"direction", v1⟩, ⟨"direction", v2⟩] : List (AxisDef ℝ)).take 2)
      = [⟨"direction", v1⟩, ⟨"direction", v2⟩] from rfl]
  rw [extract_two v1 v2 h1 h2]
  rfl

/-- C2 (amended): the projection engine's custom-axes computation (with
`dimensions = 2`) agrees with the transform engine's 2D custom-axes
computation whenever both axis vectors have unit Euclidean norm; in general
the projection engine additionally scales each output coordinate by the
corresponding axis's magnitude, so the two differ on non-unit axes. -/
theorem C2_engines_agree_unit_axes (m : List (List ℝ)) (v1 v2 : List ℝ)
    (h1 : vnorm v1 = 1) (h2 : vnorm v2 = 1) :
    compute_custom_axes m 2 [⟨"direction", v1⟩, ⟨"direction", v2⟩] =
      apply_custom_axes_te2d m [⟨"direction", v1⟩, ⟨"direction", v2⟩] := by
  have he1 : vnorm v1 > epsAxis := by rw [h1]; norm_num [epsAxis]
  have he2 : vnorm v2 > epsAxis := by rw [h2]; norm_num [epsAxis]
  rw [pe2d_two_axes m v1 v2 he1 he2, te2d_two_axes m v1 v2 he1 he2]
  simp [h1, h2]

/-- Witness for C2 at concrete unit axes. -/
theorem C2_engines_agree_unit_axes_witness :
    (vnorm [(1 : ℝ), 0] = 1 ∧ vnorm [(0 : ℝ), 1] = 1) ∧
    compute_custom_axes [[0, 0], [(2 : ℝ), 0]] 2
        [⟨"direction", [1, 0]⟩, ⟨"direction", [0, 1]⟩] =
      apply_custom_axes_te2d [[0, 0], [(2 : ℝ), 0]]
        [⟨"direction", [1, 0]⟩, ⟨"direction", [0, 1]⟩] :=
  ⟨⟨vnorm_10, vnorm_01⟩,
    C2_engines_agree_unit_axes [[0, 0], [(2 : ℝ), 0]] [1, 0] [0, 1] vnorm_10 vnorm_01⟩

theorem cent_20 : centerRows [[0, 0], [(2 : ℝ), 0]] = [[-1, 0], [1, 0]] := by
  have hm : meanVec [[0, 0], [(2 : ℝ), 0]] = [1, 0] := by
    norm_num [meanVec, List.foldl, List.replicate_succ]
  unfold centerRows
  rw [hm]
  norm_num

/-- The transform engine's 2D output on the counterexample data. -/
theorem te_eval_20 :
    apply_custom_axes_te2d [[0, 0], [(2 : ℝ), 0]]
        [⟨"direction", [2, 0]⟩, ⟨"direction", [0, 1]⟩] =
      [[-(1 / 2), 0], [1 / 2, 0]] := by
  rw [te2d_two_axes _ _ _ eps_lt_norm_20 eps_lt_norm_01, cent_20]
  norm_num [dotR]

/-- The projection engine's output on the counterexample data. -/
theorem pe_eval_20 :
    compute_custom_axes [[0, 0], [(2 : ℝ), 0]] 2
        [⟨"direction", [2, 0]⟩, ⟨"direction", [0, 1]⟩] =
      [[-1, 0], [1, 0]] := by
  rw [pe2d_two_axes _ _ _ eps_lt_norm_20 eps_lt_norm_01, cent_20]
  simp only [vnorm_20, vnorm_01]
  norm_num [dotR]

/-- C2 counterexample: with the non-unit axis `v1 = (2,0)` (and `v2 = (0,1)`)
the projection engine's custom-axes coordinates differ from the transform
engine's 2D custom-axes coordinates on the same matrix — the projection
engine scales by `‖v1‖ = 2`, the transform engine does not. -/
theorem C2_counterexample :
    compute_custom_axes [[0, 0], [(2 : ℝ), 0]] 2
        [⟨"direction", [2, 0]⟩, ⟨"direction", [0, 1]⟩] ≠
      apply_custom_axes_te2d [[0, 0], [(2 : ℝ), 0]]
        [⟨"direction", [2, 0]⟩, ⟨"direction", [0, 1]⟩] := by
  rw [te_eval_20, pe_eval_20]
  intro hc
  simp only [List.cons.injEq] at hc
  norm_num at hc

/-- C4 counterexample: the transform engine's 2D custom-axes output at a
concrete input differs from the spec-described computation (oblique
coefficients *scaled by the axis magnitudes*): the engine does not rescale,
so a displacement equal to `v1 = (2,0)` maps to `(1, 0)`, not `(‖v1‖, 0)`. -/
theorem C4_counterexample :
    apply_custom_axes_te2d [[0, 0], [(2 : ℝ), 0]]
        [⟨"direction", [2, 0]⟩, ⟨"direction", [0, 1]⟩] ≠
      custom_axes_2d_spec_scaled [[0, 0], [(2 : ℝ), 0]] [2, 0] [0, 1] := by
  have hspec : custom_axes_2d_spec_scaled [[0, 0], [(2 : ℝ), 0]] [2, 0] [0, 1] =
      [[-1, 0], [1, 0]] := by
    unfold custom_axes_2d_spec_scaled
    rw [cent_20]
    simp only [vnorm_20, vnorm_01]
    norm_num [dotR]
  rw [te_eval_20, hspec]
  intro hc
  simp only [List.cons.injEq] at hc
  norm_num at hc

/-- Witness for C4 at a concrete displacement equal to the first axis. -/
theorem C4_te2d_unit_coefficients_witness :
    (vnorm [(2 : ℝ), 0] > epsAxis ∧
      List.zipWith (fun x y => x - y) [(2 : ℝ), 0] [0, 0] = [2, 0]) ∧
    List.zipWith (fun x y => x - y)
        (((apply_custom_axes_te2d [[0, 0], [(2 : ℝ), 0]]
          [⟨"direction", [2, 0]⟩, ⟨"direction", [0, 1]⟩])[1]?).getD [])
        (((apply_custom_axes_te2d [[0, 0], [(2 : ℝ), 0]]
          [⟨"direction", [2, 0]⟩, ⟨"direction", [0, 1]⟩])[0]?).getD [])
      = [1, 0] := by
  have hd : List.zipWith (fun x y => x - y) [(2 : ℝ), 0] [0, 0] = [2, 0] := by norm_num
  refine ⟨⟨eps_lt_norm_20, hd⟩, ?_⟩
  refine (C4_te2d_unit_coefficients [[0, 0], [(2 : ℝ), 0]] [2, 0] [0, 1] [2, 0] [0, 0]
    2 1 0 eps_lt_norm_20 eps_lt_norm_01 rfl rfl ?_ ?_ rfl rfl).1 hd
  · intro r hr
    simp only [List.mem_cons, List.not_mem_nil, or_false] at hr
    rcases hr with rfl | rfl <;> rfl
  · norm_num [dotR]

theorem cent_34 : centerRows [[0, 0], [(3 : ℝ), 4]] = [[-(3 / 2), -2], [3 / 2, 2]] := by
  have hm : meanVec [[0, 0], [(3 : ℝ), 4]] = [3 / 2, 2] := by
    norm_num [meanVec, List.foldl, List.replicate_succ]
  unfold centerRows
  rw [hm]
  norm_num

/-- C3: evaluation of the projection engine's 2D custom-axes computation on a
layer with points `a = (0,0)` and `b = (3,4)`, using the custom axis
`v1 = vector(b) − vector(a) = (3,4)` together with the independent
(orthogonal) second axis `v2 = (−4,3)`: the projected displacement between
the images of `b` and `a` is `(5, 0)` — squared norm `25`, not `1` — because
the engine scales the oblique coefficients by `‖v1‖ = 5`.  The repository's
own test (`test_custom_axes_unit_length`) asserts this displacement has unit
norm, so the code contradicts its own test here. -/
theorem C3_projected_axis_not_unit :
    compute_custom_axes [[0, 0], [(3 : ℝ), 4]] 2
        [⟨"direction", [3, 4]⟩, ⟨"direction", [-4, 3]⟩] =
      [[-(5 / 2), 0], [5 / 2, 0]] ∧
    normSq (List.zipWith (fun x y => x - y)
        (((compute_custom_axes [[0, 0], [(3 : ℝ), 4]] 2
            [⟨"direction", [3, 4]⟩, ⟨"direction", [-4, 3]⟩])[1]?).getD [])
        (((compute_custom_axes [[0, 0], [(3 : ℝ), 4]] 2
            [⟨"direction", [3, 4]⟩, ⟨"direction", [-4, 3]⟩])[0]?).getD []))
      = 25 ∧ (25 : ℝ) ≠ 1 := by
  have heval : compute_custom_axes [[0, 0], [(3 : ℝ), 4]] 2
      [⟨"direction", [3, 4]⟩, ⟨"direction", [-4, 3]⟩] =
      [[-(5 / 2), 0], [5 / 2, 0]] := by
    rw [pe2d_two_axes _ _ _ eps_lt_norm_34 eps_lt_norm_m43, cent_34]
    simp only [vnorm_34, vnorm_m43]
    norm_num [dotR]
  refine ⟨heval, ?_, by norm_num⟩
  rw [heval]
  norm_num [normSq, dotR]

/-! ## Characterization of `_apply_transformation` (claims C5, C1) -/

theorem get_points_none_eq (w : World) (lid : Nat) :
    get_points w lid none = pointsOf w lid := by
  unfold get_points pointsOf
  cases w.points.find? (fun e => e.1 = lid) <;> rfl

theorem mkTargetPoints_cons (p : Point) (ps : List Point) (v : List ℚ)
    (T : List (List ℚ)) :
    mkTargetPoints (p :: ps) (v :: T) =
      { id := p.id, label := p.label, metadata := p.metadata, vector := v
        is_virtual := p.is_virtual } :: mkTargetPoints ps T := rfl

theorem mkTargetPoints_ids (ps : List Point) (T : List (List ℚ)) :
    (mkTargetPoints ps T).map PointData.id = (ps.map Point.id).take T.length := by
  induction ps generalizing T with
  | nil => simp [mkTargetPoints]
  | cons p ps ih =>
    cases T with
    | nil => simp [mkTargetPoints]
    | cons v T =>
      rw [mkTargetPoints_cons, List.map_cons, List.map_cons, List.length_cons,
        List.take_succ_cons, ih]

theorem apply_transformation_spec (K : Kernels) (w : World) (t : Transformation)
    (src : Layer) (pn : Option String)
    (hfL : ∀ l ∈ w.layers, l.id < w.nextId)
    (hfP : ∀ e ∈ w.points, e.1 < w.nextId)
    (hne : pointsOf w src.id ≠ [])
    (hnd : ((pointsOf w src.id).map Point.id).Nodup)
    (haxes : list_custom_axes w src.id = []) :
    apply_transformation K w t src pn = some (applyResult K w t src pn) := by
  have hvec : ¬ ((pointsOf w src.id).map (fun p => p.vector) = []) := by
    simpa using hne
  have haxes' : w.axes.filter (fun a => a.layer_id = src.id) = [] := haxes
  have hfold : (mkTargetPoints (pointsOf w src.id)
        (dispatchTransform K t ((pointsOf w src.id).map (fun p => p.vector))).1).foldl
      (fun acc pd => insertPoint acc (toPoint pd)) [] =
      (mkTargetPoints (pointsOf w src.id)
        (dispatchTransform K t ((pointsOf w src.id).map (fun p => p.vector))).1).map toPoint := by
    refine foldl_insertPoint_fresh _ [] (fun pd _ q hq => absurd hq (List.not_mem_nil q)) ?_
    rw [mkTargetPoints_ids]
    exact (List.take_sublist _ _).nodup hnd
  have hlayfind : ∀ (tgt : Layer), tgt.id = w.nextId →
      (w.layers ++ [tgt]).find? (fun l => l.id = w.nextId) = some tgt := by
    intro tgt hid
    rw [List.find?_append,
      find?_key_eq_none Layer.id w.layers w.nextId (fun l hl => Nat.ne_of_lt (hfL l hl))]
    simp [hid]
  have hmapP : w.points.map (fun e => if e.1 = w.nextId then
      (e.1, List.foldl (fun acc pd => insertPoint acc (toPoint pd)) e.2
        (mkTargetPoints (pointsOf w src.id)
          (dispatchTransform K t ((pointsOf w src.id).map (fun p => p.vector))).1)) else e)
      = w.points :=
    map_ite_id (fun (e : Nat × List Point) => e.1 = w.nextId) _ w.points
      (fun e he => Nat.ne_of_lt (hfP e he))
  have hmapL : ∀ (n : Nat),
      w.layers.map (fun l => if l.id = w.nextId
        then { l with point_count := l.point_count + n } else l) = w.layers :=
    fun n => map_ite_id (fun l => l.id = w.nextId) _ w.layers
      (fun l hl => Nat.ne_of_lt (hfL l hl))
  unfold apply_transformation applyResult
  rw [get_points_none_eq, if_neg hvec]
  simp only [create_layer, add_points_bulk, get_layer, list_custom_axes, setPoints, bumpCount]
  rw [hlayfind _ rfl]
  simp only [Option.isSome_some, if_pos, List.map_append, List.filter_append]
  rw [hmapP, hmapL]
  simp only [List.map_cons, List.map_nil, if_pos rfl, hfold, haxes', List.filter_cons,
    List.filter_nil, List.foldl_nil]
  norm_num

theorem apply_scaling_replicate_two (m : List (List ℚ)) (D : Nat) (hne : m ≠ [])
    (hdim : ∀ r ∈ m, r.length = D) :
    apply_scaling { scale_factors := some (List.replicate D 2) } m =
      m.map (fun r => r.map (fun x => x * 2)) := by
  have hD : (m.head?.getD []).length = D := by
    cases m with
    | nil => exact absurd rfl hne
    | cons r rest => exact hdim r (List.mem_cons_self r rest)
  unfold apply_scaling
  simp only [hD, List.length_replicate, ne_eq, not_true_eq_false, if_false, ite_not]
  refine List.map_congr_left ?_
  intro r hr
  exact zipWith_mul_replicate r D 2 (hdim r hr)

theorem find?_append_key (ps : List (Nat × List Point)) (k : Nat) (v : List Point)
    (h : ∀ e ∈ ps, e.1 ≠ k) :
    (ps ++ [(k, v)]).find? (fun e => e.1 = k) = some (k, v) := by
  rw [List.find?_append, find?_key_eq_none Prod.fst ps k h]
  simp

/-- The stored point list of the layer created by `apply_transformation`
(stated over the normal form; the extra `transformations` rewrite covers the
caller's subsequent bookkeeping, which does not touch points). -/
theorem applyResult_pointsOf (K : Kernels) (w : World) (t : Transformation)
    (src : Layer) (pn : Option String)
    (hfP : ∀ e ∈ w.points, e.1 < w.nextId) (X : List Transformation) :
    pointsOf { (applyResult K w t src pn).2.2 with transformations := X }
      (applyResult K w t src pn).1.id =
      (mkTargetPoints (pointsOf w src.id)
        (dispatchTransform K t ((pointsOf w src.id).map (fun p => p.vector))).1).map
        toPoint := by
  show (match (w.points ++ [(w.nextId,
        (mkTargetPoints (pointsOf w src.id)
          (dispatchTransform K t ((pointsOf w src.id).map (fun p => p.vector))).1).map
          toPoint)]).find? (fun e => e.1 = w.nextId) with
    | some e => e.2
    | none => []) = _
  rw [find?_append_key w.points w.nextId _ (fun e he => Nat.ne_of_lt (hfP e he))]

theorem mkTargetPoints_self_map (ps : List Point) (f : List ℚ → List ℚ) :
    (mkTargetPoints ps (ps.map (fun p => f p.vector))).map toPoint =
      ps.map (fun p => { p with vector := f p.vector }) := by
  induction ps with
  | nil => rfl
  | cons p ps ih =>
    simp only [List.map_cons, mkTargetPoints_cons, ih]
    rfl

/-- C5: applying `create_transformation` of type scaling with a factor of `2`
on every axis to a non-empty source layer produces a target layer whose
stored points are exactly the source points with each vector doubled: same
ids, labels, metadata and virtual flags, vector `2·v`. -/
theorem C5_scaling_preserves_identity (K : Kernels) (w : World) (nm : String)
    (src_lid : Nat) (src : Layer) (D : Nat)
    (hget : get_layer w src_lid = some src)
    (hfL : ∀ l ∈ w.layers, l.id < w.nextId)
    (hfP : ∀ e ∈ w.points, e.1 < w.nextId)
    (hne : pointsOf w src.id ≠ [])
    (hnd : ((pointsOf w src.id).map Point.id).Nodup)
    (haxes : list_custom_axes w src.id = [])
    (hdim : ∀ p ∈ pointsOf w src.id, p.vector.length = D) :
    ∃ t w',
      create_transformation K w nm .scaling src_lid
          { scale_factors := some (List.replicate D 2) } = (some t, w') ∧
      ∃ tid, t.target_layer_id = some tid ∧
        pointsOf w' tid =
          (pointsOf w src.id).map
            (fun p => { p with vector := p.vector.map (fun x => x * 2) }) := by
  have hspec := apply_transformation_spec K { w with nextId := w.nextId + 1 }
    { id := w.nextId, name := nm, type := .scaling, source_layer_id := src_lid
      target_layer_id := none
      parameters := { scale_factors := some (List.replicate D 2) } } src none
    (fun l hl => Nat.lt_succ_of_lt (hfL l hl))
    (fun e he => Nat.lt_succ_of_lt (hfP e he)) hne hnd haxes
  unfold create_transformation
  simp only [hget, hspec]
  refine ⟨_, _, rfl, _, rfl, ?_⟩
  have hdisp : dispatchTransform K
      ({ id := w.nextId, name := nm, type := .scaling, source_layer_id := src_lid
         target_layer_id := none
         parameters := { scale_factors := some (List.replicate D 2) } } : Transformation)
      ((pointsOf w src.id).map (fun p => p.vector)) =
      (apply_scaling { scale_factors := some (List.replicate D 2) }
        ((pointsOf w src.id).map (fun p => p.vector)),
       { scale_factors := some (List.replicate D 2) }) := rfl
  have hscaled : apply_scaling { scale_factors := some (List.replicate D 2) }
      ((pointsOf w src.id).map (fun p => p.vector)) =
      (pointsOf w src.id).map (fun p => p.vector.map (fun x => x * 2)) := by
    rw [apply_scaling_replicate_two _ D (by simpa using hne)]
    · rw [List.map_map]
      rfl
    · intro r hr
      rcases List.mem_map.mp hr with ⟨p, hp, rfl⟩
      exact hdim p hp
  rw [applyResult_pointsOf K { w with nextId := w.nextId + 1 }
    { id := w.nextId, name := nm, type := .scaling, source_layer_id := src_lid
      target_layer_id := none
      parameters := { scale_factors := some (List.replicate D 2) } } src none
    (fun e he => Nat.lt_succ_of_lt (hfP e he)) _]
  show (mkTargetPoints (pointsOf w src.id)
      (dispatchTransform K
        { id := w.nextId, name := nm, type := .scaling, source_layer_id := src_lid
          target_layer_id := none
          parameters := { scale_factors := some (List.replicate D 2) } }
        ((pointsOf w src.id).map (fun p => p.vector))).1).map toPoint = _
  simp only [hdisp, hscaled]
  exact mkTargetPoints_self_map (pointsOf w src.id) (fun v => v.map (fun x => x * 2))

/-- Witness for C5 on a concrete one-point layer. -/
theorem C5_scaling_preserves_identity_witness :
    (get_layer demoW5 0 = some demoLayer0 ∧ pointsOf demoW5 demoLayer0.id ≠ []) ∧
    (∃ t w',
      create_transformation K0 demoW5 "double" .scaling 0
          { scale_factors := some (List.replicate 2 2) } = (some t, w') ∧
      ∃ tid, t.target_layer_id = some tid ∧
        pointsOf w' tid =
          (pointsOf demoW5 demoLayer0.id).map
            (fun p => { p with vector := p.vector.map (fun x => x * 2) })) :=
  ⟨⟨by decide, by decide⟩,
    C5_scaling_preserves_identity K0 demoW5 "double" 0 demoLayer0 2 (by decide)
      (by decide) (by decide) (by decide) (by decide) rfl (by decide)⟩

/-! ## Observation lemmas for the propagation proof (claim C1) -/

theorem get_layer_updRef (w : World) (o n k : Nat) :
    get_layer (update_layer_reference w o n) k = get_layer w k := rfl

theorem pointsOf_updRef (w : World) (o n k : Nat) :
    pointsOf (update_layer_reference w o n) k = pointsOf w k := rfl

theorem get_transformation_updRef (w : World) (o n k : Nat) :
    get_transformation (update_layer_reference w o n) k = get_transformation w k := rfl

theorem get_layer_setT (w : World) (t : Transformation) (k : Nat) :
    get_layer (set_transformation w t) k = get_layer w k := rfl

theorem pointsOf_setT (w : World) (t : Transformation) (k : Nat) :
    pointsOf (set_transformation w t) k = pointsOf w k := rfl

theorem getCached_setT (w : World) (t : Transformation) (k : Nat) :
    getCached (set_transformation w t) k = getCached w k := rfl

theorem get_layer_delete (w : World) (x k : Nat) :
    get_layer (delete_layer w x) k = if k = x then none else get_layer w k := by
  unfold get_layer delete_layer
  by_cases hk : k = x
  · subst hk
    rw [if_pos rfl]
    refine find?_key_eq_none Layer.id _ k ?_
    intro l hl
    have := List.of_mem_filter hl
    simpa using this
  · rw [if_neg hk]
    refine find?_filter_superset _ _ w.layers ?_
    intro l _ hp
    have : l.id = k := by simpa using hp
    simp [this, hk]

theorem pointsOf_delete (w : World) (x k : Nat) :
    pointsOf (delete_layer w x) k = if k = x then [] else pointsOf w k := by
  unfold pointsOf delete_layer
  by_cases hk : k = x
  · subst hk
    rw [if_pos rfl]
    have : (w.points.filter (fun e => e.1 ≠ k)).find? (fun e => e.1 = k) = none := by
      refine find?_key_eq_none Prod.fst _ k ?_
      intro e he
      have := List.of_mem_filter he
      simpa using this
    rw [this]
  · rw [if_neg hk]
    have : (w.points.filter (fun e => e.1 ≠ x)).find? (fun e => e.1 = k) =
        w.points.find? (fun e => e.1 = k) := by
      refine find?_filter_superset _ _ w.points ?_
      intro e _ hp
      have : e.1 = k := by simpa using hp
      simp [this, hk]
    rw [this]

theorem get_transformation_delete (w : World) (x k : Nat) :
    get_transformation (delete_layer w x) k = get_transformation w k := rfl

theorem getCached_delete (w : World) (x k : Nat) :
    getCached (delete_layer w x) k = getCached w k := rfl

theorem getCached_updRef (w : World) (o n k : Nat) :
    getCached (update_layer_reference w o n) k =
      if k ∈ ((w.projections.filter (fun p => p.layer_id = o)).map (fun p => p.id))
      then none else getCached w k := by
  unfold getCached update_layer_reference
  by_cases hk : k ∈ ((w.projections.filter (fun p => p.layer_id = o)).map (fun p => p.id))
  · rw [if_pos hk]
    have : (w.projResults.filter (fun e =>
        ¬ ((w.projections.filter (fun p => p.layer_id = o)).map (fun p => p.id)).contains e.1)).find?
        (fun e => e.1 = k) = none := by
      refine find?_key_eq_none Prod.fst _ k ?_
      intro e he
      have hkeep := List.of_mem_filter he
      intro hc
      rw [hc] at hkeep
      have hkeep' : ¬ (((w.projections.filter (fun p => p.layer_id = o)).map
          (fun p => p.id)).contains k = true) := by simpa using hkeep
      exact hkeep' (by simpa using hk)
    rw [this]
    rfl
  · rw [if_neg hk]
    have : (w.projResults.filter (fun e =>
        ¬ ((w.projections.filter (fun p => p.layer_id = o)).map (fun p => p.id)).contains e.1)).find?
        (fun e => e.1 = k) = w.projResults.find? (fun e => e.1 = k) := by
      refine find?_filter_superset _ _ w.projResults ?_
      intro e _ hp
      have he : e.1 = k := by simpa using hp
      simp only [he]
      simpa using hk
    rw [this]

theorem applyResult_nextId (K : Kernels) (w : World) (t : Transformation)
    (src : Layer) (pn : Option String) :
    (applyResult K w t src pn).2.2.nextId = w.nextId + 1 := rfl

theorem applyResult_transformations (K : Kernels) (w : World) (t : Transformation)
    (src : Layer) (pn : Option String) :
    (applyResult K w t src pn).2.2.transformations = w.transformations := rfl

theorem applyResult_projections (K : Kernels) (w : World) (t : Transformation)
    (src : Layer) (pn : Option String) :
    (applyResult K w t src pn).2.2.projections = w.projections := rfl

theorem applyResult_projResults (K : Kernels) (w : World) (t : Transformation)
    (src : Layer) (pn : Option String) :
    (applyResult K w t src pn).2.2.projResults = w.projResults := rfl

theorem applyResult_axes (K : Kernels) (w : World) (t : Transformation)
    (src : Layer) (pn : Option String) :
    (applyResult K w t src pn).2.2.axes = w.axes := rfl

theorem applyResult_fst (K : Kernels) (w : World) (t : Transformation)
    (src : Layer) (pn : Option String) :
    (applyResult K w t src pn).1 =
      { id := w.nextId, name := pn.getD (src.name ++ "_" ++ t.name)
        description := some ("Result of " ++ t.type.value ++ " transformation")
        dimensionality := ((dispatchTransform K t
          ((pointsOf w src.id).map (fun p => p.vector))).1.head?.getD []).length
        point_count := 0, is_derived := true
        source_transformation_id := some t.id } := rfl

theorem applyResult_snd_fst (K : Kernels) (w : World) (t : Transformation)
    (src : Layer) (pn : Option String) :
    (applyResult K w t src pn).2.1 =
      { t with parameters := (dispatchTransform K t
          ((pointsOf w src.id).map (fun p => p.vector))).2 } := rfl

/-- The layer lookup on the world produced by a successful
`apply_transformation`. -/
theorem applyResult_get_layer (K : Kernels) (w : World) (t : Transformation)
    (src : Layer) (pn : Option String)
    (hfL : ∀ l ∈ w.layers, l.id < w.nextId) (k : Nat) :
    get_layer (applyResult K w t src pn).2.2 k =
      if k = w.nextId
      then some { (applyResult K w t src pn).1 with
        point_count := ((mkTargetPoints (pointsOf w src.id)
          (dispatchTransform K t ((pointsOf w src.id).map (fun p => p.vector))).1).map
            toPoint).length }
      else get_layer w k := by
  show (w.layers ++ [{ (applyResult K w t src pn).1 with
      point_count := ((mkTargetPoints (pointsOf w src.id)
        (dispatchTransform K t ((pointsOf w src.id).map (fun (p : Point) => p.vector))).1).map
          toPoint).length }]).find? (fun (l : Layer) => l.id = k) = _
  rw [List.find?_append]
  by_cases hk : k = w.nextId
  · subst hk
    rw [find?_key_eq_none Layer.id w.layers w.nextId (fun l hl => Nat.ne_of_lt (hfL l hl))]
    simp [applyResult_fst]
  · rw [if_neg hk]
    have : List.find? (fun (l : Layer) => l.id = k) [{ (applyResult K w t src pn).1 with
        point_count := ((mkTargetPoints (pointsOf w src.id)
          (dispatchTransform K t ((pointsOf w src.id).map (fun (p : Point) => p.vector))).1).map
            toPoint).length }] = none := by
      refine find?_key_eq_none Layer.id _ k ?_
      intro l hl
      simp only [List.mem_singleton] at hl
      subst hl
      show w.nextId ≠ k
      exact fun hc => hk (hc.symm)
    rw [this, Option.or_none]
    rfl

/-- The point lookup on the world produced by a successful
`apply_transformation`, for a pre-existing layer. -/
theorem applyResult_pointsOf_other (K : Kernels) (w : World) (t : Transformation)
    (src : Layer) (pn : Option String) (k : Nat) (hk : k ≠ w.nextId) :
    pointsOf (applyResult K w t src pn).2.2 k = pointsOf w k := by
  show (match (w.points ++ [(w.nextId, ((mkTargetPoints (pointsOf w src.id)
      (dispatchTransform K t ((pointsOf w src.id).map (fun (p : Point) => p.vector))).1).map
        toPoint))]).find? (fun (e : Nat × List Point) => e.1 = k) with
    | some e => e.2
    | none => []) = _
  rw [List.find?_append]
  have : List.find? (fun (e : Nat × List Point) => e.1 = k)
      [(w.nextId, ((mkTargetPoints (pointsOf w src.id)
        (dispatchTransform K t ((pointsOf w src.id).map (fun (p : Point) => p.vector))).1).map
          toPoint))] = none := by
    refine find?_key_eq_none Prod.fst _ k ?_
    intro e he
    simp only [List.mem_singleton] at he
    subst he
    exact fun hc => hk hc.symm
  rw [this, Option.or_none]
  rfl

/-- Replacing the transformation with a given id twice keeps only the last
replacement. -/
theorem map_replace_twice (l : List Transformation) (k : Nat) (a b : Transformation)
    (ha : a.id = k) :
    (l.map (fun u => if u.id = k then a else u)).map (fun u => if u.id = k then b else u)
      = l.map (fun u => if u.id = k then b else u) := by
  rw [List.map_map]
  refine List.map_congr_left ?_
  intro u _
  by_cases h : u.id = k
  · simp [Function.comp, h, ha]
  · simp [Function.comp, h]

/-- `set_transformation` with the already-stored value is the identity. -/
theorem set_transformation_self (w : World) (t : Transformation)
    (hnd : (w.transformations.map Transformation.id).Nodup)
    (hmem : t ∈ w.transformations) :
    set_transformation w t = w := by
  have hmap : w.transformations.map (fun u => if u.id = t.id then t else u)
      = w.transformations := by
    conv_rhs => rw [← List.map_id w.transformations]
    refine List.map_congr_left ?_
    intro u hu
    by_cases h : u.id = t.id
    · rw [if_pos h]
      exact (eq_of_key_eq Transformation.id w.transformations u t hnd hu hmem h).symm
    · rw [if_neg h]
      rfl
  show ({ w with transformations := _ } : World) = w
  rw [hmap]

/-- With a unique (by id) transformation sourced at a layer, the
propagation's downstream filter finds exactly that transformation. -/
theorem filter_source_unique (l : List Transformation) (t : Transformation) (b : Nat)
    (hnd : (l.map Transformation.id).Nodup) (hmem : t ∈ l)
    (hsrc : t.source_layer_id = b)
    (huniq : ∀ u ∈ l, u.source_layer_id = b → u.id = t.id) :
    l.filter (fun u => u.source_layer_id = b) = [t] := by
  induction l with
  | nil => cases hmem
  | cons a as ih =>
    simp only [List.map_cons, List.nodup_cons] at hnd
    rcases List.mem_cons.mp hmem with rfl | hmem'
    · rw [List.filter_cons, if_pos (by simpa using hsrc)]
      have : as.filter (fun u => u.source_layer_id = b) = [] := by
        refine List.filter_eq_nil_iff.mpr ?_
        intro u hu hc
        have : u.id = t.id := huniq u (List.mem_cons_of_mem t hu) (by simpa using hc)
        exact hnd.1 (this ▸ List.mem_map_of_mem Transformation.id hu)
      rw [this]
    · have ha : ¬ (a.source_layer_id = b) := by
        intro hc
        have : a.id = t.id := huniq a (List.mem_cons_self a as) hc
        exact hnd.1 (this ▸ List.mem_map_of_mem Transformation.id hmem')
      rw [List.filter_cons, if_neg (by simpa using ha)]
      exact ih hnd.2 hmem' (fun u hu hb => huniq u (List.mem_cons_of_mem a hu) hb)

theorem apply_scaling_length (p : Params) (m : List (List ℚ)) :
    (apply_scaling p m).length = m.length := by
  unfold apply_scaling
  cases p.scale_factors with
  | none => simp
  | some s => simp

theorem dispatchTransform_length (K : Kernels) (hK : RowPreserving K)
    (t : Transformation) (m : List (List ℚ)) :
    (dispatchTransform K t m).1.length = m.length := by
  unfold dispatchTransform
  cases t.type with
  | scaling => exact apply_scaling_length t.parameters m
  | rotation => exact hK.1 t.parameters m
  | pca => exact hK.2.1 t.parameters m
  | custom_axes => exact hK.2.2 t.parameters m
  | custom_affine => exact hK.2.2 _ m

theorem three_distinct_length_le (l : List Nat) (a b c : Nat)
    (ha : a ∈ l) (hb : b ∈ l) (hc : c ∈ l)
    (hab : a ≠ b) (hac : a ≠ c) (hbc : b ≠ c) : 3 ≤ l.length := by
  have hsub : ({a, b, c} : Finset Nat) ⊆ l.toFinset := by
    intro x hx
    simp only [Finset.mem_insert, Finset.mem_singleton] at hx
    rcases hx with rfl | rfl | rfl <;> simpa [List.mem_toFinset]
  have hcard : ({a, b, c} : Finset Nat).card = 3 := by
    rw [Finset.card_insert_of_not_mem (by simp [hab, hac]),
      Finset.card_insert_of_not_mem (by simp [hbc]), Finset.card_singleton]
  calc 3 = ({a, b, c} : Finset Nat).card := hcard.symm
    _ ≤ l.toFinset.card := Finset.card_le_card hsub
    _ ≤ l.length := l.toFinset_card_le

theorem get_transformation_set_ne (w : World) (t : Transformation) (k : Nat)
    (h : t.id ≠ k) :
    get_transformation (set_transformation w t) k = get_transformation w k := by
  unfold get_transformation set_transformation
  refine find?_map_untouched _ _ _ ?_ ?_
  · intro u _ hp
    have hu : u.id = k := by simpa using hp
    have hne : u.id ≠ t.id := fun hc => h (by rw [← hc]; exact hu)
    rw [if_neg hne]
  · intro u _
    by_cases hc : u.id = t.id
    · rw [if_pos hc]
      have : (t.id = k) = (u.id = k) := by rw [hc]
      simp [this]
    · rw [if_neg hc]

theorem transformations_map_ids (l : List Transformation) (t : Transformation) :
    ((l.map (fun u => if u.id = t.id then t else u)).map Transformation.id) =
      l.map Transformation.id := by
  rw [List.map_map]
  refine List.map_congr_left ?_
  intro u _
  by_cases h : u.id = t.id
  · simp [Function.comp, h]
  · simp [Function.comp, h]

theorem mkTargetPoints_length (ps : List Point) (T : List (List ℚ)) :
    (mkTargetPoints ps T).length = min ps.length T.length := by
  unfold mkTargetPoints
  rw [List.length_zipWith]

theorem mkTargetPoints_vectors (ps : List Point) (T : List (List ℚ))
    (h : T.length = ps.length) :
    ((mkTargetPoints ps T).map toPoint).map (fun p => p.vector) = T := by
  induction ps generalizing T with
  | nil =>
    cases T with
    | nil => rfl
    | cons v T => simp at h
  | cons p ps ih =>
    cases T with
    | nil => simp [mkTargetPoints]
    | cons v T =>
      rw [mkTargetPoints_cons, List.map_cons, List.map_cons, ih T (by simpa using h)]
      rfl

theorem map_toPoint_ids (l : List PointData) :
    (l.map toPoint).map Point.id = l.map PointData.id := by
  rw [List.map_map]
  rfl

theorem find?_map_replace_ne (l : List Transformation) (k : Nat) (a : Transformation)
    (u : Nat) (ha : a.id = k) (hu : u ≠ k) :
    (l.map (fun v => if v.id = k then a else v)).find? (fun v => v.id = u) =
      l.find? (fun v => v.id = u) := by
  refine find?_map_untouched _ _ _ ?_ ?_
  · intro v _ hp
    have hv : v.id = u := by simpa using hp
    have : v.id ≠ k := fun hc => hu (by rw [← hv]; exact hc)
    rw [if_neg this]
  · intro v _
    by_cases hc : v.id = k
    · rw [if_pos hc]
      have : (a.id = u) = (v.id = u) := by rw [ha, hc]
      simp [this]
    · rw [if_neg hc]

theorem transformations_map_ids_keyed (l : List Transformation) (k : Nat)
    (t : Transformation) (ht : t.id = k) :
    ((l.map (fun u => if u.id = k then t else u)).map Transformation.id) =
      l.map Transformation.id := by
  rw [List.map_map]
  refine List.map_congr_left ?_
  intro u _
  by_cases h : u.id = k
  · simp [Function.comp, h, ht]
  · simp [Function.comp, h]

theorem projections_map_ids (l : List Projection) (o n : Nat) :
    ((l.map (fun p => if p.layer_id = o then { p with layer_id := n } else p)).map
      Projection.id) = l.map Projection.id := by
  rw [List.map_map]
  refine List.map_congr_left ?_
  intro p _
  by_cases h : p.layer_id = o
  · simp [Function.comp, h]
  · simp [Function.comp, h]

theorem getCached_applyResult (K : Kernels) (w : World) (t : Transformation)
    (src : Layer) (pn : Option String) (k : Nat) :
    getCached (applyResult K w t src pn).2.2 k = getCached w k := rfl

/-! ### Observation lemmas for one reapply step -/

theorem applyReplace_nextId (K : Kernels) (w : World) (t2 : Transformation)
    (src : Layer) (zid : Nat) (zname : String) :
    (applyReplaceWorld K w t2 src zid zname).nextId = w.nextId + 1 := rfl

theorem applyReplace_axes (K : Kernels) (w : World) (t2 : Transformation)
    (src : Layer) (zid : Nat) (zname : String) :
    (applyReplaceWorld K w t2 src zid zname).axes = w.axes := rfl

theorem applyReplace_projections (K : Kernels) (w : World) (t2 : Transformation)
    (src : Layer) (zid : Nat) (zname : String) :
    (applyReplaceWorld K w t2 src zid zname).projections = w.projections := rfl

theorem getCached_applyReplace (K : Kernels) (w : World) (t2 : Transformation)
    (src : Layer) (zid : Nat) (zname : String) (k : Nat) :
    getCached (applyReplaceWorld K w t2 src zid zname) k = getCached w k := rfl

theorem applyReplace_transformations (K : Kernels) (w : World) (t2 : Transformation)
    (src : Layer) (zid : Nat) (zname : String) :
    (applyReplaceWorld K w t2 src zid zname).transformations =
      w.transformations.map
        (fun u => if u.id = t2.id then applyReplaceT K w t2 src zid zname else u) := by
  show ((w.transformations.map (fun u => if u.id = t2.id then t2 else u)).map
      (fun u => if u.id = t2.id then applyReplaceT K w t2 src zid zname else u)) = _
  exact map_replace_twice w.transformations t2.id t2 (applyReplaceT K w t2 src zid zname) rfl

theorem applyReplace_hfL (K : Kernels) (w : World) (t2 : Transformation)
    (src : Layer) (zid : Nat) (zname : String)
    (hfLw : ∀ l ∈ w.layers, l.id < w.nextId) :
    ∀ l ∈ (applyReplaceWorld K w t2 src zid zname).layers,
      l.id < (applyReplaceWorld K w t2 src zid zname).nextId := by
  intro l hl
  show l.id < w.nextId + 1
  have hl2 : l ∈ (delete_layer (set_transformation w t2) zid).layers ++
      [{ (applyResult K (delete_layer (set_transformation w t2) zid) t2 src (some zname)).1 with
        point_count := ((mkTargetPoints
          (pointsOf (delete_layer (set_transformation w t2) zid) src.id)
          (dispatchTransform K t2
            ((pointsOf (delete_layer (set_transformation w t2) zid) src.id).map
              (fun p => p.vector))).1).map toPoint).length }] := hl
  rcases List.mem_append.mp hl2 with h | h
  · have := List.mem_filter.mp (show l ∈ w.layers.filter (fun l => l.id ≠ zid) from h)
    exact Nat.lt_trans (hfLw l this.1) (Nat.lt_succ_self w.nextId)
  · rw [List.mem_singleton] at h
    subst h
    exact Nat.lt_succ_self w.nextId

theorem applyReplace_hfP (K : Kernels) (w : World) (t2 : Transformation)
    (src : Layer) (zid : Nat) (zname : String)
    (hfPw : ∀ e ∈ w.points, e.1 < w.nextId) :
    ∀ e ∈ (applyReplaceWorld K w t2 src zid zname).points,
      e.1 < (applyReplaceWorld K w t2 src zid zname).nextId := by
  intro e he
  show e.1 < w.nextId + 1
  have he2 : e ∈ (delete_layer (set_transformation w t2) zid).points ++
      [((delete_layer (set_transformation w t2) zid).nextId,
        (mkTargetPoints (pointsOf (delete_layer (set_transformation w t2) zid) src.id)
          (dispatchTransform K t2
            ((pointsOf (delete_layer (set_transformation w t2) zid) src.id).map
              (fun p => p.vector))).1).map toPoint)] := he
  rcases List.mem_append.mp he2 with h | h
  · have := List.mem_filter.mp (show e ∈ w.points.filter (fun e => e.1 ≠ zid) from h)
    exact Nat.lt_trans (hfPw e this.1) (Nat.lt_succ_self w.nextId)
  · rw [List.mem_singleton] at h
    subst h
    exact Nat.lt_succ_self w.nextId

theorem get_layer_applyReplace (K : Kernels) (w : World) (t2 : Transformation)
    (src : Layer) (zid : Nat) (zname : String)
    (hfLw : ∀ l ∈ w.layers, l.id < w.nextId) (hsrcz : src.id ≠ zid) (k : Nat) :
    get_layer (applyReplaceWorld K w t2 src zid zname) k =
      if k = w.nextId then some (applyReplaceLayer K w t2 src zname)
      else if k = zid then none
      else get_layer w k := by
  have hdel : pointsOf (delete_layer (set_transformation w t2) zid) src.id =
      pointsOf w src.id := by
    rw [pointsOf_delete, if_neg hsrcz, pointsOf_setT]
  have hfL' : ∀ l ∈ (delete_layer (set_transformation w t2) zid).layers,
      l.id < (delete_layer (set_transformation w t2) zid).nextId := by
    intro l hl
    show l.id < w.nextId
    have := List.mem_filter.mp (show l ∈ w.layers.filter (fun l => l.id ≠ zid) from hl)
    exact hfLw l this.1
  show get_layer (applyResult K (delete_layer (set_transformation w t2) zid) t2 src
    (some zname)).2.2 k = _
  rw [applyResult_get_layer K (delete_layer (set_transformation w t2) zid) t2 src
    (some zname) hfL' k]
  by_cases hk : k = w.nextId
  · rw [if_pos (show k = (delete_layer (set_transformation w t2) zid).nextId from hk),
      if_pos hk, applyResult_fst, hdel]
    rfl
  · rw [if_neg (show ¬ (k = (delete_layer (set_transformation w t2) zid).nextId) from hk),
      if_neg hk, get_layer_delete, get_layer_setT]

theorem pointsOf_applyReplace (K : Kernels) (w : World) (t2 : Transformation)
    (src : Layer) (zid : Nat) (zname : String)
    (hfPw : ∀ e ∈ w.points, e.1 < w.nextId) (hsrcz : src.id ≠ zid) (k : Nat) :
    pointsOf (applyReplaceWorld K w t2 src zid zname) k =
      if k = w.nextId then stepPts K t2 (pointsOf w src.id)
      else if k = zid then []
      else pointsOf w k := by
  have hdel : pointsOf (delete_layer (set_transformation w t2) zid) src.id =
      pointsOf w src.id := by
    rw [pointsOf_delete, if_neg hsrcz, pointsOf_setT]
  have hfP' : ∀ e ∈ (delete_layer (set_transformation w t2) zid).points,
      e.1 < (delete_layer (set_transformation w t2) zid).nextId := by
    intro e he
    show e.1 < w.nextId
    have := List.mem_filter.mp (show e ∈ w.points.filter (fun e => e.1 ≠ zid) from he)
    exact hfPw e this.1
  by_cases hk : k = w.nextId
  · rw [if_pos hk]
    subst hk
    have h0 := applyResult_pointsOf K (delete_layer (set_transformation w t2) zid) t2 src
      (some zname) hfP'
      (((applyResult K (delete_layer (set_transformation w t2) zid) t2 src
        (some zname)).2.2.transformations).map
        (fun u => if u.id = (applyReplaceT K w t2 src zid zname).id
          then applyReplaceT K w t2 src zid zname else u))
    rw [hdel] at h0
    exact h0
  · rw [if_neg hk]
    have h1 : pointsOf (applyReplaceWorld K w t2 src zid zname) k =
        pointsOf (delete_layer (set_transformation w t2) zid) k := by
      show pointsOf (applyResult K (delete_layer (set_transformation w t2) zid) t2 src
        (some zname)).2.2 k = _
      exact applyResult_pointsOf_other K (delete_layer (set_transformation w t2) zid) t2 src
        (some zname) k (fun hc => hk hc)
    rw [h1, pointsOf_delete, pointsOf_setT]

theorem applyReplaceT_eq (K : Kernels) (w : World) (t2 : Transformation)
    (src : Layer) (zid : Nat) (zname : String) (hsrcz : src.id ≠ zid) :
    applyReplaceT K w t2 src zid zname =
      { id := t2.id, name := t2.name, type := t2.type
        source_layer_id := t2.source_layer_id, target_layer_id := some w.nextId
        parameters := (dispatchTransform K t2
          ((pointsOf w src.id).map (fun p => p.vector))).2 } := by
  have hdel : pointsOf (delete_layer (set_transformation w t2) zid) src.id =
      pointsOf w src.id := by
    rw [pointsOf_delete, if_neg hsrcz, pointsOf_setT]
  show ({ (applyResult K (delete_layer (set_transformation w t2) zid) t2 src
      (some zname)).2.1 with target_layer_id := some w.nextId } : Transformation) = _
  rw [applyResult_snd_fst, hdel]

theorem stepPts_ids (K : Kernels) (t : Transformation) (ps : List Point) :
    (stepPts K t ps).map Point.id =
      (ps.map Point.id).take (dispatchTransform K t (ps.map (fun p => p.vector))).1.length := by
  show ((mkTargetPoints ps (dispatchTransform K t (ps.map (fun p => p.vector))).1).map
    toPoint).map Point.id = _
  rw [map_toPoint_ids, mkTargetPoints_ids]

theorem stepPts_nodup (K : Kernels) (t : Transformation) (ps : List Point)
    (h : (ps.map Point.id).Nodup) : ((stepPts K t ps).map Point.id).Nodup := by
  rw [stepPts_ids]
  exact (List.take_sublist _ _).nodup h

theorem stepPts_length (K : Kernels) (hK : RowPreserving K) (t : Transformation)
    (ps : List Point) : (stepPts K t ps).length = ps.length := by
  show ((mkTargetPoints ps (dispatchTransform K t (ps.map (fun p => p.vector))).1).map
    toPoint).length = _
  rw [List.length_map, mkTargetPoints_length, dispatchTransform_length K hK,
    List.length_map, Nat.min_self]

theorem stepPts_vectors (K : Kernels) (hK : RowPreserving K) (t : Transformation)
    (ps : List Point) :
    (stepPts K t ps).map (fun p => p.vector) =
      (dispatchTransform K t (ps.map (fun p => p.vector))).1 :=
  mkTargetPoints_vectors ps _ (by rw [dispatchTransform_length K hK, List.length_map])

/-- One level of `_propagate_downstream` along a chain link: with a unique
downstream transformation `Tc : x → z` and the replacement layer `ly` (id
`y`) present, the level rebinds the projections of `x`, rewrites `Tc`'s
source to `y`, deletes the stale target `z` (keeping its name), reapplies
`Tc` and recurses on `(z → new target id)`. -/
theorem propagate_chain_step (K : Kernels) (f x y z : Nat) (W : World)
    (Tc : Transformation) (ly lz : Layer)
    (hndT : (W.transformations.map Transformation.id).Nodup)
    (hmem : Tc ∈ W.transformations)
    (hsrc : Tc.source_layer_id = x)
    (htgt : Tc.target_layer_id = some z)
    (huniq : ∀ u ∈ W.transformations, u.source_layer_id = x → u.id = Tc.id)
    (hly : get_layer W y = some ly)
    (hlz : get_layer W z = some lz)
    (hlyz : ly.id ≠ z)
    (hfL : ∀ l ∈ W.layers, l.id < W.nextId)
    (hfP : ∀ e ∈ W.points, e.1 < W.nextId)
    (hne : pointsOf W ly.id ≠ [])
    (hnd : ((pointsOf W ly.id).map Point.id).Nodup)
    (haxes : W.axes = []) :
    propagate_downstream K (f + 1) x y W =
      propagate_downstream K f z W.nextId
        (applyReplaceWorld K (update_layer_reference W x y)
          { Tc with source_layer_id := y, target_layer_id := some z } ly z lz.name) := by
  have hfilter : (update_layer_reference W x y).transformations.filter
      (fun t => t.source_layer_id = x) = [Tc] := by
    show W.transformations.filter (fun t => t.source_layer_id = x) = [Tc]
    exact filter_source_unique W.transformations Tc x hndT hmem hsrc huniq
  have hget : get_transformation (update_layer_reference W x y) Tc.id = some Tc := by
    rw [get_transformation_updRef]
    exact find?_key_eq Transformation.id W.transformations Tc hndT hmem
  have hgly : get_layer (set_transformation (update_layer_reference W x y)
      { Tc with source_layer_id := y, target_layer_id := some z }) y = some ly := by
    rw [get_layer_setT, get_layer_updRef]
    exact hly
  have hglz : get_layer (set_transformation (update_layer_reference W x y)
      { Tc with source_layer_id := y, target_layer_id := some z }) z = some lz := by
    rw [get_layer_setT, get_layer_updRef]
    exact hlz
  have happly : apply_transformation K
      (delete_layer (set_transformation (update_layer_reference W x y)
        { Tc with source_layer_id := y, target_layer_id := some z }) z)
      { Tc with source_layer_id := y, target_layer_id := some z } ly (some lz.name) =
      some (applyResult K
        (delete_layer (set_transformation (update_layer_reference W x y)
          { Tc with source_layer_id := y, target_layer_id := some z }) z)
        { Tc with source_layer_id := y, target_layer_id := some z } ly (some lz.name)) := by
    refine apply_transformation_spec K _ _ ly (some lz.name) ?_ ?_ ?_ ?_ ?_
    · intro l hl
      show l.id < W.nextId
      have := List.mem_filter.mp (show l ∈ W.layers.filter (fun l => l.id ≠ z) from hl)
      exact hfL l this.1
    · intro e he
      show e.1 < W.nextId
      have := List.mem_filter.mp (show e ∈ W.points.filter (fun e => e.1 ≠ z) from he)
      exact hfP e this.1
    · rw [show pointsOf (delete_layer (set_transformation (update_layer_reference W x y)
          { Tc with source_layer_id := y, target_layer_id := some z }) z) ly.id
          = pointsOf (set_transformation (update_layer_reference W x y)
            { Tc with source_layer_id := y, target_layer_id := some z }) ly.id
            from by rw [pointsOf_delete, if_neg hlyz]]
      rw [pointsOf_setT, pointsOf_updRef]
      exact hne
    · rw [show pointsOf (delete_layer (set_transformation (update_layer_reference W x y)
          { Tc with source_layer_id := y, target_layer_id := some z }) z) ly.id
          = pointsOf (set_transformation (update_layer_reference W x y)
            { Tc with source_layer_id := y, target_layer_id := some z }) ly.id
            from by rw [pointsOf_delete, if_neg hlyz]]
      rw [pointsOf_setT, pointsOf_updRef]
      exact hnd
    · show ((delete_layer (set_transformation (update_layer_reference W x y)
        { Tc with source_layer_id := y, target_layer_id := some z }) z).axes).filter (fun a => a.layer_id = ly.id) = []
      show W.axes.filter (fun a => a.layer_id = ly.id) = []
      rw [haxes]
      rfl
  rw [propagate_downstream]
  simp only [hfilter, List.map_cons, List.map_nil, List.foldl_cons, List.foldl_nil,
    hget, htgt, hgly, hglz, Option.map_some', happly]
  rfl

/-- The terminal level of `_propagate_downstream`: no transformation is
sourced at the replaced layer, so the level only rebinds projections. -/
theorem propagate_empty_level (K : Kernels) (f x y : Nat) (W : World)
    (hempty : W.transformations.filter (fun t => t.source_layer_id = x) = []) :
    propagate_downstream K (f + 1) x y W = update_layer_reference W x y := by
  have hfilter : (update_layer_reference W x y).transformations.filter
      (fun t => t.source_layer_id = x) = [] := hempty
  rw [propagate_downstream]
  simp only [hfilter, List.map_nil, List.foldl_nil]


/-- `update_transformation` with a new type or parameters on a stored chain
head `T1 : A → B`, evaluated up to (and including the arguments of) the
`_propagate_downstream` call: the stored copy is rewritten, the stale target
`B` deleted (its name remembered), `T1` reapplied on `A`, and propagation
starts at `(B → fresh id)`. -/
theorem update_transformation_chain_start (K : Kernels) (w : World)
    (T1 : Transformation) (lA lB : Layer)
    (oty : Option TransformationType) (opar : Option Params)
    (hndT : (w.transformations.map Transformation.id).Nodup)
    (hT1 : T1 ∈ w.transformations)
    (hreq : ¬ (oty.isNone ∧ opar.isNone))
    (hT1s : T1.source_layer_id = lA.id)
    (hT1t : T1.target_layer_id = some lB.id)
    (hglA : get_layer w lA.id = some lA)
    (hglB : get_layer w lB.id = some lB)
    (hAB : lA.id ≠ lB.id)
    (hfL : ∀ l ∈ w.layers, l.id < w.nextId)
    (hfP : ∀ e ∈ w.points, e.1 < w.nextId)
    (hne : pointsOf w lA.id ≠ [])
    (hndA : ((pointsOf w lA.id).map Point.id).Nodup)
    (haxes : w.axes = []) :
    update_transformation K w T1.id none oty opar =
      (some (applyReplaceT K w { id := T1.id, name := T1.name, type := oty.getD T1.type, source_layer_id := lA.id, target_layer_id := some lB.id, parameters := opar.getD T1.parameters } lA lB.id lB.name),
       propagate_downstream K
         (applyReplaceWorld K w { id := T1.id, name := T1.name, type := oty.getD T1.type, source_layer_id := lA.id, target_layer_id := some lB.id, parameters := opar.getD T1.parameters } lA lB.id lB.name).transformations.length
         lB.id w.nextId
         (applyReplaceWorld K w { id := T1.id, name := T1.name, type := oty.getD T1.type, source_layer_id := lA.id, target_layer_id := some lB.id, parameters := opar.getD T1.parameters } lA lB.id lB.name)) := by
  have hgT1 : get_transformation w T1.id = some T1 :=
    find?_key_eq Transformation.id w.transformations T1 hndT hT1
  have hw1 : set_transformation w T1 = w := set_transformation_self w T1 hndT hT1
  have happ : apply_transformation K (delete_layer (set_transformation w { id := T1.id, name := T1.name, type := oty.getD T1.type, source_layer_id := lA.id, target_layer_id := some lB.id, parameters := opar.getD T1.parameters }) lB.id) { id := T1.id, name := T1.name, type := oty.getD T1.type, source_layer_id := lA.id, target_layer_id := some lB.id, parameters := opar.getD T1.parameters } lA (some lB.name) = some (applyResult K (delete_layer (set_transformation w { id := T1.id, name := T1.name, type := oty.getD T1.type, source_layer_id := lA.id, target_layer_id := some lB.id, parameters := opar.getD T1.parameters }) lB.id) { id := T1.id, name := T1.name, type := oty.getD T1.type, source_layer_id := lA.id, target_layer_id := some lB.id, parameters := opar.getD T1.parameters } lA (some lB.name)) := by
    refine apply_transformation_spec K _ _ lA (some lB.name) ?_ ?_ ?_ ?_ ?_
    · intro l hl
      show l.id < w.nextId
      have := List.mem_filter.mp (show l ∈ w.layers.filter (fun l => l.id ≠ lB.id) from hl)
      exact hfL l this.1
    · intro e he
      show e.1 < w.nextId
      have := List.mem_filter.mp (show e ∈ w.points.filter (fun e => e.1 ≠ lB.id) from he)
      exact hfP e this.1
    · rw [pointsOf_delete, if_neg hAB, pointsOf_setT]
      exact hne
    · rw [pointsOf_delete, if_neg hAB, pointsOf_setT]
      exact hndA
    · show w.axes.filter (fun a => a.layer_id = lA.id) = []
      rw [haxes]
      rfl
  unfold update_transformation
  simp only [hgT1, hw1]
  rw [if_neg hreq]
  simp only [get_layer_setT, hT1s, hT1t, hglA, hglB, Option.map_some', happ]
  rfl


-- C1GEN BEGIN
/-- C1: in a stored chain of transformations `T1 : A → B`, `T2 : B → C`,
`T3 : C → D` (with `T2`/`T3` the unique transformations sourced at `B`/`C`
and nothing sourced at `D`), calling `update_transformation` on `T1` with a
new type or parameters (a) returns the rewritten `T1` retargeted at a fresh
layer id, (b) rewrites `T1`, `T2`, `T3` in the store exactly once each, every
other transformation byte-for-byte unchanged, (c) creates new `B`, `C`, `D`
layers under the three fresh ids, each keeping the old target's name and
holding the source points pushed through the updated transform composed
along the chain, (d) deletes the old `B`, `C`, `D` layers, (e) leaves every
other layer — `A` included — and its points untouched, (f) rebinds each
projection of the old `B`/`C`/`D` to the corresponding new layer exactly
once, dropping its cached result, and leaves every other projection and its
cache unchanged, and (g) the new layers' vectors are exactly the kernel
outputs composed through the chain. -/
theorem C1_propagation_chain (K : Kernels) (w : World)
    (T1 T2 T3 : Transformation) (lA lB lC lD : Layer)
    (oty : Option TransformationType) (opar : Option Params)
    (hK : RowPreserving K)
    (hreq : ¬ (oty.isNone ∧ opar.isNone))
    (hndL : (w.layers.map Layer.id).Nodup)
    (hndT : (w.transformations.map Transformation.id).Nodup)
    (hndPj : (w.projections.map Projection.id).Nodup)
    (hfL : ∀ l ∈ w.layers, l.id < w.nextId)
    (hfP : ∀ e ∈ w.points, e.1 < w.nextId)
    (haxes : w.axes = [])
    (hA : lA ∈ w.layers) (hB : lB ∈ w.layers) (hC : lC ∈ w.layers) (hD : lD ∈ w.layers)
    (hAB : lA.id ≠ lB.id) (hAC : lA.id ≠ lC.id) (hAD : lA.id ≠ lD.id)
    (hBC : lB.id ≠ lC.id) (hBD : lB.id ≠ lD.id) (hCD : lC.id ≠ lD.id)
    (hT1 : T1 ∈ w.transformations) (hT2 : T2 ∈ w.transformations) (hT3 : T3 ∈ w.transformations)
    (hT1s : T1.source_layer_id = lA.id) (hT1t : T1.target_layer_id = some lB.id)
    (hT2s : T2.source_layer_id = lB.id) (hT2t : T2.target_layer_id = some lC.id)
    (hT3s : T3.source_layer_id = lC.id) (hT3t : T3.target_layer_id = some lD.id)
    (hT12 : T1.id ≠ T2.id) (hT13 : T1.id ≠ T3.id) (hT23 : T2.id ≠ T3.id)
    (huB : ∀ u ∈ w.transformations, u.source_layer_id = lB.id → u.id = T2.id)
    (huC : ∀ u ∈ w.transformations, u.source_layer_id = lC.id → u.id = T3.id)
    (huD : ∀ u ∈ w.transformations, u.source_layer_id ≠ lD.id)
    (hne : pointsOf w lA.id ≠ [])
    (hndA : ((pointsOf w lA.id).map Point.id).Nodup) :
    (update_transformation K w T1.id none oty opar).1 = some ({ id := T1.id, name := T1.name, type := oty.getD T1.type, source_layer_id := lA.id, target_layer_id := some w.nextId, parameters := (dispatchTransform K { id := T1.id, name := T1.name, type := oty.getD T1.type, source_layer_id := lA.id, target_layer_id := some lB.id, parameters := opar.getD T1.parameters } ((pointsOf w lA.id).map (fun p => p.vector))).2 }) ∧
    (update_transformation K w T1.id none oty opar).2.transformations = w.transformations.map (fun u => if u.id = T1.id then ({ id := T1.id, name := T1.name, type := oty.getD T1.type, source_layer_id := lA.id, target_layer_id := some w.nextId, parameters := (dispatchTransform K { id := T1.id, name := T1.name, type := oty.getD T1.type, source_layer_id := lA.id, target_layer_id := some lB.id, parameters := opar.getD T1.parameters } ((pointsOf w lA.id).map (fun p => p.vector))).2 }) else if u.id = T2.id then ({ id := T2.id, name := T2.name, type := T2.type, source_layer_id := w.nextId, target_layer_id := some (w.nextId + 1), parameters := (dispatchTransform K { id := T2.id, name := T2.name, type := T2.type, source_layer_id := w.nextId, target_layer_id := some lC.id, parameters := T2.parameters } ((stepPts K { id := T1.id, name := T1.name, type := oty.getD T1.type, source_layer_id := lA.id, target_layer_id := some lB.id, parameters := opar.getD T1.parameters } (pointsOf w lA.id)).map (fun p => p.vector))).2 }) else if u.id = T3.id then ({ id := T3.id, name := T3.name, type := T3.type, source_layer_id := w.nextId + 1, target_layer_id := some (w.nextId + 2), parameters := (dispatchTransform K { id := T3.id, name := T3.name, type := T3.type, source_layer_id := w.nextId + 1, target_layer_id := some lD.id, parameters := T3.parameters } ((stepPts K { id := T2.id, name := T2.name, type := T2.type, source_layer_id := w.nextId, target_layer_id := some lC.id, parameters := T2.parameters } (stepPts K { id := T1.id, name := T1.name, type := oty.getD T1.type, source_layer_id := lA.id, target_layer_id := some lB.id, parameters := opar.getD T1.parameters } (pointsOf w lA.id))).map (fun p => p.vector))).2 }) else u) ∧
    (get_layer (update_transformation K w T1.id none oty opar).2 w.nextId = some ({ id := w.nextId, name := lB.name, description := some ("Result of " ++ (oty.getD T1.type).value ++ " transformation"), dimensionality := ((dispatchTransform K { id := T1.id, name := T1.name, type := oty.getD T1.type, source_layer_id := lA.id, target_layer_id := some lB.id, parameters := opar.getD T1.parameters } ((pointsOf w lA.id).map (fun p => p.vector))).1.head?.getD []).length, point_count := (stepPts K { id := T1.id, name := T1.name, type := oty.getD T1.type, source_layer_id := lA.id, target_layer_id := some lB.id, parameters := opar.getD T1.parameters } (pointsOf w lA.id)).length, is_derived := true, source_transformation_id := some T1.id }) ∧ pointsOf (update_transformation K w T1.id none oty opar).2 w.nextId = (stepPts K { id := T1.id, name := T1.name, type := oty.getD T1.type, source_layer_id := lA.id, target_layer_id := some lB.id, parameters := opar.getD T1.parameters } (pointsOf w lA.id))) ∧
    (get_layer (update_transformation K w T1.id none oty opar).2 (w.nextId + 1) = some ({ id := w.nextId + 1, name := lC.name, description := some ("Result of " ++ T2.type.value ++ " transformation"), dimensionality := ((dispatchTransform K { id := T2.id, name := T2.name, type := T2.type, source_layer_id := w.nextId, target_layer_id := some lC.id, parameters := T2.parameters } ((stepPts K { id := T1.id, name := T1.name, type := oty.getD T1.type, source_layer_id := lA.id, target_layer_id := some lB.id, parameters := opar.getD T1.parameters } (pointsOf w lA.id)).map (fun p => p.vector))).1.head?.getD []).length, point_count := (stepPts K { id := T2.id, name := T2.name, type := T2.type, source_layer_id := w.nextId, target_layer_id := some lC.id, parameters := T2.parameters } (stepPts K { id := T1.id, name := T1.name, type := oty.getD T1.type, source_layer_id := lA.id, target_layer_id := some lB.id, parameters := opar.getD T1.parameters } (pointsOf w lA.id))).length, is_derived := true, source_transformation_id := some T2.id }) ∧ pointsOf (update_transformation K w T1.id none oty opar).2 (w.nextId + 1) = (stepPts K { id := T2.id, name := T2.name, type := T2.type, source_layer_id := w.nextId, target_layer_id := some lC.id, parameters := T2.parameters } (stepPts K { id := T1.id, name := T1.name, type := oty.getD T1.type, source_layer_id := lA.id, target_layer_id := some lB.id, parameters := opar.getD T1.parameters } (pointsOf w lA.id)))) ∧
    (get_layer (update_transformation K w T1.id none oty opar).2 (w.nextId + 2) = some ({ id := w.nextId + 2, name := lD.name, description := some ("Result of " ++ T3.type.value ++ " transformation"), dimensionality := ((dispatchTransform K { id := T3.id, name := T3.name, type := T3.type, source_layer_id := w.nextId + 1, target_layer_id := some lD.id, parameters := T3.parameters } ((stepPts K { id := T2.id, name := T2.name, type := T2.type, source_layer_id := w.nextId, target_layer_id := some lC.id, parameters := T2.parameters } (stepPts K { id := T1.id, name := T1.name, type := oty.getD T1.type, source_layer_id := lA.id, target_layer_id := some lB.id, parameters := opar.getD T1.parameters } (pointsOf w lA.id))).map (fun p => p.vector))).1.head?.getD []).length, point_count := (stepPts K { id := T3.id, name := T3.name, type := T3.type, source_layer_id := w.nextId + 1, target_layer_id := some lD.id, parameters := T3.parameters } (stepPts K { id := T2.id, name := T2.name, type := T2.type, source_layer_id := w.nextId, target_layer_id := some lC.id, parameters := T2.parameters } (stepPts K { id := T1.id, name := T1.name, type := oty.getD T1.type, source_layer_id := lA.id, target_layer_id := some lB.id, parameters := opar.getD T1.parameters } (pointsOf w lA.id)))).length, is_derived := true, source_transformation_id := some T3.id }) ∧ pointsOf (update_transformation K w T1.id none oty opar).2 (w.nextId + 2) = (stepPts K { id := T3.id, name := T3.name, type := T3.type, source_layer_id := w.nextId + 1, target_layer_id := some lD.id, parameters := T3.parameters } (stepPts K { id := T2.id, name := T2.name, type := T2.type, source_layer_id := w.nextId, target_layer_id := some lC.id, parameters := T2.parameters } (stepPts K { id := T1.id, name := T1.name, type := oty.getD T1.type, source_layer_id := lA.id, target_layer_id := some lB.id, parameters := opar.getD T1.parameters } (pointsOf w lA.id))))) ∧
    (get_layer (update_transformation K w T1.id none oty opar).2 lB.id = none ∧ get_layer (update_transformation K w T1.id none oty opar).2 lC.id = none ∧ get_layer (update_transformation K w T1.id none oty opar).2 lD.id = none) ∧
    (∀ l ∈ w.layers, l.id ≠ lB.id → l.id ≠ lC.id → l.id ≠ lD.id → get_layer (update_transformation K w T1.id none oty opar).2 l.id = some l ∧ pointsOf (update_transformation K w T1.id none oty opar).2 l.id = pointsOf w l.id) ∧
    (update_transformation K w T1.id none oty opar).2.projections = w.projections.map (fun p => if p.layer_id = lB.id then { p with layer_id := w.nextId } else if p.layer_id = lC.id then { p with layer_id := w.nextId + 1 } else if p.layer_id = lD.id then { p with layer_id := w.nextId + 2 } else p) ∧
    (∀ p ∈ w.projections, ((p.layer_id = lB.id ∨ p.layer_id = lC.id ∨ p.layer_id = lD.id) → getCached (update_transformation K w T1.id none oty opar).2 p.id = none) ∧ (p.layer_id ≠ lB.id → p.layer_id ≠ lC.id → p.layer_id ≠ lD.id → getCached (update_transformation K w T1.id none oty opar).2 p.id = getCached w p.id)) ∧
    ((stepPts K { id := T1.id, name := T1.name, type := oty.getD T1.type, source_layer_id := lA.id, target_layer_id := some lB.id, parameters := opar.getD T1.parameters } (pointsOf w lA.id)).map (fun p => p.vector) = (dispatchTransform K { id := T1.id, name := T1.name, type := oty.getD T1.type, source_layer_id := lA.id, target_layer_id := some lB.id, parameters := opar.getD T1.parameters } ((pointsOf w lA.id).map (fun p => p.vector))).1 ∧ (stepPts K { id := T2.id, name := T2.name, type := T2.type, source_layer_id := w.nextId, target_layer_id := some lC.id, parameters := T2.parameters } (stepPts K { id := T1.id, name := T1.name, type := oty.getD T1.type, source_layer_id := lA.id, target_layer_id := some lB.id, parameters := opar.getD T1.parameters } (pointsOf w lA.id))).map (fun p => p.vector) = (dispatchTransform K { id := T2.id, name := T2.name, type := T2.type, source_layer_id := w.nextId, target_layer_id := some lC.id, parameters := T2.parameters } ((stepPts K { id := T1.id, name := T1.name, type := oty.getD T1.type, source_layer_id := lA.id, target_layer_id := some lB.id, parameters := opar.getD T1.parameters } (pointsOf w lA.id)).map (fun p => p.vector))).1 ∧ (stepPts K { id := T3.id, name := T3.name, type := T3.type, source_layer_id := w.nextId + 1, target_layer_id := some lD.id, parameters := T3.parameters } (stepPts K { id := T2.id, name := T2.name, type := T2.type, source_layer_id := w.nextId, target_layer_id := some lC.id, parameters := T2.parameters } (stepPts K { id := T1.id, name := T1.name, type := oty.getD T1.type, source_layer_id := lA.id, target_layer_id := some lB.id, parameters := opar.getD T1.parameters } (pointsOf w lA.id)))).map (fun p => p.vector) = (dispatchTransform K { id := T3.id, name := T3.name, type := T3.type, source_layer_id := w.nextId + 1, target_layer_id := some lD.id, parameters := T3.parameters } ((stepPts K { id := T2.id, name := T2.name, type := T2.type, source_layer_id := w.nextId, target_layer_id := some lC.id, parameters := T2.parameters } (stepPts K { id := T1.id, name := T1.name, type := oty.getD T1.type, source_layer_id := lA.id, target_layer_id := some lB.id, parameters := opar.getD T1.parameters } (pointsOf w lA.id))).map (fun p => p.vector))).1) := by
  have hglA : get_layer w lA.id = some lA := find?_key_eq Layer.id w.layers lA hndL hA
  have hglB : get_layer w lB.id = some lB := find?_key_eq Layer.id w.layers lB hndL hB
  have hglC : get_layer w lC.id = some lC := find?_key_eq Layer.id w.layers lC hndL hC
  have hglD : get_layer w lD.id = some lD := find?_key_eq Layer.id w.layers lD hndL hD
  have hBlt : lB.id < w.nextId := hfL lB hB
  have hClt : lC.id < w.nextId := hfL lC hC
  have hDlt : lD.id < w.nextId := hfL lD hD
  have hnB : w.nextId ≠ lB.id := fun hc => Nat.ne_of_lt hBlt hc.symm
  have hnC : w.nextId ≠ lC.id := fun hc => Nat.ne_of_lt hClt hc.symm
  have hnD : w.nextId ≠ lD.id := fun hc => Nat.ne_of_lt hDlt hc.symm
  have hn1D : w.nextId + 1 ≠ lD.id := by omega
  have hn01 : w.nextId ≠ w.nextId + 1 := by omega
  have hn02 : w.nextId ≠ w.nextId + 2 := by omega
  have hn12 : w.nextId + 1 ≠ w.nextId + 2 := by omega
  have hlB0 : lB.id ≠ w.nextId := Nat.ne_of_lt hBlt
  have hlB1 : lB.id ≠ w.nextId + 1 := by omega
  have hlB2 : lB.id ≠ w.nextId + 2 := by omega
  have hlC1 : lC.id ≠ w.nextId + 1 := by omega
  have hlC2 : lC.id ≠ w.nextId + 2 := by omega
  have hlD1 : lD.id ≠ w.nextId + 1 := by omega
  have hlD2 : lD.id ≠ w.nextId + 2 := by omega
  have hupd := update_transformation_chain_start K w T1 lA lB oty opar hndT hT1 hreq hT1s hT1t hglA hglB hAB hfL hfP hne hndA haxes
  have hfL5 : ∀ l ∈ (applyReplaceWorld K w { id := T1.id, name := T1.name, type := oty.getD T1.type, source_layer_id := lA.id, target_layer_id := some lB.id, parameters := opar.getD T1.parameters } lA lB.id lB.name).layers, l.id < (applyReplaceWorld K w { id := T1.id, name := T1.name, type := oty.getD T1.type, source_layer_id := lA.id, target_layer_id := some lB.id, parameters := opar.getD T1.parameters } lA lB.id lB.name).nextId :=
    applyReplace_hfL K w { id := T1.id, name := T1.name, type := oty.getD T1.type, source_layer_id := lA.id, target_layer_id := some lB.id, parameters := opar.getD T1.parameters } lA lB.id lB.name hfL
  have hfP5 : ∀ e ∈ (applyReplaceWorld K w { id := T1.id, name := T1.name, type := oty.getD T1.type, source_layer_id := lA.id, target_layer_id := some lB.id, parameters := opar.getD T1.parameters } lA lB.id lB.name).points, e.1 < (applyReplaceWorld K w { id := T1.id, name := T1.name, type := oty.getD T1.type, source_layer_id := lA.id, target_layer_id := some lB.id, parameters := opar.getD T1.parameters } lA lB.id lB.name).nextId :=
    applyReplace_hfP K w { id := T1.id, name := T1.name, type := oty.getD T1.type, source_layer_id := lA.id, target_layer_id := some lB.id, parameters := opar.getD T1.parameters } lA lB.id lB.name hfP
  have hW5trans : (applyReplaceWorld K w { id := T1.id, name := T1.name, type := oty.getD T1.type, source_layer_id := lA.id, target_layer_id := some lB.id, parameters := opar.getD T1.parameters } lA lB.id lB.name).transformations = w.transformations.map (fun u => if u.id = T1.id then (applyReplaceT K w { id := T1.id, name := T1.name, type := oty.getD T1.type, source_layer_id := lA.id, target_layer_id := some lB.id, parameters := opar.getD T1.parameters } lA lB.id lB.name) else u) :=
    applyReplace_transformations K w { id := T1.id, name := T1.name, type := oty.getD T1.type, source_layer_id := lA.id, target_layer_id := some lB.id, parameters := opar.getD T1.parameters } lA lB.id lB.name
  have hndT5 : ((applyReplaceWorld K w { id := T1.id, name := T1.name, type := oty.getD T1.type, source_layer_id := lA.id, target_layer_id := some lB.id, parameters := opar.getD T1.parameters } lA lB.id lB.name).transformations.map Transformation.id).Nodup := by
    rw [hW5trans, transformations_map_ids_keyed w.transformations T1.id (applyReplaceT K w { id := T1.id, name := T1.name, type := oty.getD T1.type, source_layer_id := lA.id, target_layer_id := some lB.id, parameters := opar.getD T1.parameters } lA lB.id lB.name) rfl]
    exact hndT
  have hmemT2 : T2 ∈ (applyReplaceWorld K w { id := T1.id, name := T1.name, type := oty.getD T1.type, source_layer_id := lA.id, target_layer_id := some lB.id, parameters := opar.getD T1.parameters } lA lB.id lB.name).transformations := by
    rw [hW5trans]
    exact List.mem_map.mpr ⟨T2, hT2, if_neg (fun hc => hT12 hc.symm)⟩
  have huniq5 : ∀ u ∈ (applyReplaceWorld K w { id := T1.id, name := T1.name, type := oty.getD T1.type, source_layer_id := lA.id, target_layer_id := some lB.id, parameters := opar.getD T1.parameters } lA lB.id lB.name).transformations, u.source_layer_id = lB.id → u.id = T2.id := by
    rw [hW5trans]
    intro u hu hsu
    obtain ⟨u0, hu0, rfl⟩ := List.mem_map.mp hu
    by_cases h0 : u0.id = T1.id
    · rw [if_pos h0] at hsu
      exact absurd (show lA.id = lB.id from hsu) hAB
    · rw [if_neg h0] at hsu ⊢
      exact huB u0 hu0 hsu
  have hglB5 : get_layer (applyReplaceWorld K w { id := T1.id, name := T1.name, type := oty.getD T1.type, source_layer_id := lA.id, target_layer_id := some lB.id, parameters := opar.getD T1.parameters } lA lB.id lB.name) w.nextId = some (applyReplaceLayer K w { id := T1.id, name := T1.name, type := oty.getD T1.type, source_layer_id := lA.id, target_layer_id := some lB.id, parameters := opar.getD T1.parameters } lA lB.name) := by
    rw [get_layer_applyReplace K w { id := T1.id, name := T1.name, type := oty.getD T1.type, source_layer_id := lA.id, target_layer_id := some lB.id, parameters := opar.getD T1.parameters } lA lB.id lB.name hfL hAB w.nextId, if_pos rfl]
  have hgl5 : ∀ k, k ≠ w.nextId → k ≠ lB.id → get_layer (applyReplaceWorld K w { id := T1.id, name := T1.name, type := oty.getD T1.type, source_layer_id := lA.id, target_layer_id := some lB.id, parameters := opar.getD T1.parameters } lA lB.id lB.name) k = get_layer w k := by
    intro k h1 h2
    rw [get_layer_applyReplace K w { id := T1.id, name := T1.name, type := oty.getD T1.type, source_layer_id := lA.id, target_layer_id := some lB.id, parameters := opar.getD T1.parameters } lA lB.id lB.name hfL hAB k, if_neg h1, if_neg h2]
  have hpt5 : ∀ k, k ≠ w.nextId → k ≠ lB.id → pointsOf (applyReplaceWorld K w { id := T1.id, name := T1.name, type := oty.getD T1.type, source_layer_id := lA.id, target_layer_id := some lB.id, parameters := opar.getD T1.parameters } lA lB.id lB.name) k = pointsOf w k := by
    intro k h1 h2
    rw [pointsOf_applyReplace K w { id := T1.id, name := T1.name, type := oty.getD T1.type, source_layer_id := lA.id, target_layer_id := some lB.id, parameters := opar.getD T1.parameters } lA lB.id lB.name hfP hAB k, if_neg h1, if_neg h2]
  have hpts5 : pointsOf (applyReplaceWorld K w { id := T1.id, name := T1.name, type := oty.getD T1.type, source_layer_id := lA.id, target_layer_id := some lB.id, parameters := opar.getD T1.parameters } lA lB.id lB.name) w.nextId = (stepPts K { id := T1.id, name := T1.name, type := oty.getD T1.type, source_layer_id := lA.id, target_layer_id := some lB.id, parameters := opar.getD T1.parameters } (pointsOf w lA.id)) := by
    rw [pointsOf_applyReplace K w { id := T1.id, name := T1.name, type := oty.getD T1.type, source_layer_id := lA.id, target_layer_id := some lB.id, parameters := opar.getD T1.parameters } lA lB.id lB.name hfP hAB w.nextId, if_pos rfl]
  have hglC5 : get_layer (applyReplaceWorld K w { id := T1.id, name := T1.name, type := oty.getD T1.type, source_layer_id := lA.id, target_layer_id := some lB.id, parameters := opar.getD T1.parameters } lA lB.id lB.name) lC.id = some lC := by
    rw [hgl5 lC.id (Nat.ne_of_lt hClt) (fun hc => hBC hc.symm)]
    exact hglC
  have hglD5 : get_layer (applyReplaceWorld K w { id := T1.id, name := T1.name, type := oty.getD T1.type, source_layer_id := lA.id, target_layer_id := some lB.id, parameters := opar.getD T1.parameters } lA lB.id lB.name) lD.id = some lD := by
    rw [hgl5 lD.id (Nat.ne_of_lt hDlt) (fun hc => hBD hc.symm)]
    exact hglD
  have hLBne : (applyReplaceLayer K w { id := T1.id, name := T1.name, type := oty.getD T1.type, source_layer_id := lA.id, target_layer_id := some lB.id, parameters := opar.getD T1.parameters } lA lB.name).id ≠ lC.id := fun hc => Nat.ne_of_lt hClt (show lC.id = w.nextId from hc.symm)
  have hBlen : (stepPts K { id := T1.id, name := T1.name, type := oty.getD T1.type, source_layer_id := lA.id, target_layer_id := some lB.id, parameters := opar.getD T1.parameters } (pointsOf w lA.id)).length = (pointsOf w lA.id).length := stepPts_length K hK { id := T1.id, name := T1.name, type := oty.getD T1.type, source_layer_id := lA.id, target_layer_id := some lB.id, parameters := opar.getD T1.parameters } (pointsOf w lA.id)
  have hne5 : pointsOf (applyReplaceWorld K w { id := T1.id, name := T1.name, type := oty.getD T1.type, source_layer_id := lA.id, target_layer_id := some lB.id, parameters := opar.getD T1.parameters } lA lB.id lB.name) w.nextId ≠ [] := by
    rw [hpts5]
    intro hc
    exact hne (List.length_eq_zero.mp (by rw [← hBlen, hc]; rfl))
  have hndB : ((stepPts K { id := T1.id, name := T1.name, type := oty.getD T1.type, source_layer_id := lA.id, target_layer_id := some lB.id, parameters := opar.getD T1.parameters } (pointsOf w lA.id)).map Point.id).Nodup := stepPts_nodup K { id := T1.id, name := T1.name, type := oty.getD T1.type, source_layer_id := lA.id, target_layer_id := some lB.id, parameters := opar.getD T1.parameters } (pointsOf w lA.id) hndA
  have hnd5 : ((pointsOf (applyReplaceWorld K w { id := T1.id, name := T1.name, type := oty.getD T1.type, source_layer_id := lA.id, target_layer_id := some lB.id, parameters := opar.getD T1.parameters } lA lB.id lB.name) w.nextId).map Point.id).Nodup := by
    rw [hpts5]
    exact hndB
  have haxes5 : (applyReplaceWorld K w { id := T1.id, name := T1.name, type := oty.getD T1.type, source_layer_id := lA.id, target_layer_id := some lB.id, parameters := opar.getD T1.parameters } lA lB.id lB.name).axes = [] := (applyReplace_axes K w { id := T1.id, name := T1.name, type := oty.getD T1.type, source_layer_id := lA.id, target_layer_id := some lB.id, parameters := opar.getD T1.parameters } lA lB.id lB.name).trans haxes
  have hlen5 : (applyReplaceWorld K w { id := T1.id, name := T1.name, type := oty.getD T1.type, source_layer_id := lA.id, target_layer_id := some lB.id, parameters := opar.getD T1.parameters } lA lB.id lB.name).transformations.length = w.transformations.length := by
    rw [hW5trans, List.length_map]
  have h3le : 3 ≤ w.transformations.length := by
    have := three_distinct_length_le (w.transformations.map Transformation.id) T1.id T2.id T3.id (List.mem_map_of_mem Transformation.id hT1) (List.mem_map_of_mem Transformation.id hT2) (List.mem_map_of_mem Transformation.id hT3) hT12 hT13 hT23
    rwa [List.length_map] at this
  obtain ⟨m, hm⟩ : ∃ m, w.transformations.length = m + 3 := ⟨w.transformations.length - 3, by omega⟩
  have hstep1 : propagate_downstream K (m + 3) lB.id w.nextId (applyReplaceWorld K w { id := T1.id, name := T1.name, type := oty.getD T1.type, source_layer_id := lA.id, target_layer_id := some lB.id, parameters := opar.getD T1.parameters } lA lB.id lB.name) = propagate_downstream K (m + 2) lC.id (w.nextId + 1) (applyReplaceWorld K (update_layer_reference (applyReplaceWorld K w { id := T1.id, name := T1.name, type := oty.getD T1.type, source_layer_id := lA.id, target_layer_id := some lB.id, parameters := opar.getD T1.parameters } lA lB.id lB.name) lB.id w.nextId) { id := T2.id, name := T2.name, type := T2.type, source_layer_id := w.nextId, target_layer_id := some lC.id, parameters := T2.parameters } (applyReplaceLayer K w { id := T1.id, name := T1.name, type := oty.getD T1.type, source_layer_id := lA.id, target_layer_id := some lB.id, parameters := opar.getD T1.parameters } lA lB.name) lC.id lC.name) :=
    propagate_chain_step K (m + 2) lB.id w.nextId lC.id (applyReplaceWorld K w { id := T1.id, name := T1.name, type := oty.getD T1.type, source_layer_id := lA.id, target_layer_id := some lB.id, parameters := opar.getD T1.parameters } lA lB.id lB.name) T2 (applyReplaceLayer K w { id := T1.id, name := T1.name, type := oty.getD T1.type, source_layer_id := lA.id, target_layer_id := some lB.id, parameters := opar.getD T1.parameters } lA lB.name) lC hndT5 hmemT2 hT2s hT2t huniq5 hglB5 hglC5 hLBne hfL5 hfP5 hne5 hnd5 haxes5
  have hfLU5 : ∀ l ∈ (update_layer_reference (applyReplaceWorld K w { id := T1.id, name := T1.name, type := oty.getD T1.type, source_layer_id := lA.id, target_layer_id := some lB.id, parameters := opar.getD T1.parameters } lA lB.id lB.name) lB.id w.nextId).layers, l.id < (update_layer_reference (applyReplaceWorld K w { id := T1.id, name := T1.name, type := oty.getD T1.type, source_layer_id := lA.id, target_layer_id := some lB.id, parameters := opar.getD T1.parameters } lA lB.id lB.name) lB.id w.nextId).nextId := hfL5
  have hfPU5 : ∀ e ∈ (update_layer_reference (applyReplaceWorld K w { id := T1.id, name := T1.name, type := oty.getD T1.type, source_layer_id := lA.id, target_layer_id := some lB.id, parameters := opar.getD T1.parameters } lA lB.id lB.name) lB.id w.nextId).points, e.1 < (update_layer_reference (applyReplaceWorld K w { id := T1.id, name := T1.name, type := oty.getD T1.type, source_layer_id := lA.id, target_layer_id := some lB.id, parameters := opar.getD T1.parameters } lA lB.id lB.name) lB.id w.nextId).nextId := hfP5
  have hptsU5B : pointsOf (update_layer_reference (applyReplaceWorld K w { id := T1.id, name := T1.name, type := oty.getD T1.type, source_layer_id := lA.id, target_layer_id := some lB.id, parameters := opar.getD T1.parameters } lA lB.id lB.name) lB.id w.nextId) ((applyReplaceLayer K w { id := T1.id, name := T1.name, type := oty.getD T1.type, source_layer_id := lA.id, target_layer_id := some lB.id, parameters := opar.getD T1.parameters } lA lB.name).id) = (stepPts K { id := T1.id, name := T1.name, type := oty.getD T1.type, source_layer_id := lA.id, target_layer_id := some lB.id, parameters := opar.getD T1.parameters } (pointsOf w lA.id)) := by
    rw [pointsOf_updRef]
    exact hpts5
  have hW9trans : (applyReplaceWorld K (update_layer_reference (applyReplaceWorld K w { id := T1.id, name := T1.name, type := oty.getD T1.type, source_layer_id := lA.id, target_layer_id := some lB.id, parameters := opar.getD T1.parameters } lA lB.id lB.name) lB.id w.nextId) { id := T2.id, name := T2.name, type := T2.type, source_layer_id := w.nextId, target_layer_id := some lC.id, parameters := T2.parameters } (applyReplaceLayer K w { id := T1.id, name := T1.name, type := oty.getD T1.type, source_layer_id := lA.id, target_layer_id := some lB.id, parameters := opar.getD T1.parameters } lA lB.name) lC.id lC.name).transformations = (applyReplaceWorld K w { id := T1.id, name := T1.name, type := oty.getD T1.type, source_layer_id := lA.id, target_layer_id := some lB.id, parameters := opar.getD T1.parameters } lA lB.id lB.name).transformations.map (fun u => if u.id = T2.id then (applyReplaceT K (update_layer_reference (applyReplaceWorld K w { id := T1.id, name := T1.name, type := oty.getD T1.type, source_layer_id := lA.id, target_layer_id := some lB.id, parameters := opar.getD T1.parameters } lA lB.id lB.name) lB.id w.nextId) { id := T2.id, name := T2.name, type := T2.type, source_layer_id := w.nextId, target_layer_id := some lC.id, parameters := T2.parameters } (applyReplaceLayer K w { id := T1.id, name := T1.name, type := oty.getD T1.type, source_layer_id := lA.id, target_layer_id := some lB.id, parameters := opar.getD T1.parameters } lA lB.name) lC.id lC.name) else u) :=
    applyReplace_transformations K (update_layer_reference (applyReplaceWorld K w { id := T1.id, name := T1.name, type := oty.getD T1.type, source_layer_id := lA.id, target_layer_id := some lB.id, parameters := opar.getD T1.parameters } lA lB.id lB.name) lB.id w.nextId) { id := T2.id, name := T2.name, type := T2.type, source_layer_id := w.nextId, target_layer_id := some lC.id, parameters := T2.parameters } (applyReplaceLayer K w { id := T1.id, name := T1.name, type := oty.getD T1.type, source_layer_id := lA.id, target_layer_id := some lB.id, parameters := opar.getD T1.parameters } lA lB.name) lC.id lC.name
  have hW9T : (applyReplaceWorld K (update_layer_reference (applyReplaceWorld K w { id := T1.id, name := T1.name, type := oty.getD T1.type, source_layer_id := lA.id, target_layer_id := some lB.id, parameters := opar.getD T1.parameters } lA lB.id lB.name) lB.id w.nextId) { id := T2.id, name := T2.name, type := T2.type, source_layer_id := w.nextId, target_layer_id := some lC.id, parameters := T2.parameters } (applyReplaceLayer K w { id := T1.id, name := T1.name, type := oty.getD T1.type, source_layer_id := lA.id, target_layer_id := some lB.id, parameters := opar.getD T1.parameters } lA lB.name) lC.id lC.name).transformations = (w.transformations.map (fun u => if u.id = T1.id then (applyReplaceT K w { id := T1.id, name := T1.name, type := oty.getD T1.type, source_layer_id := lA.id, target_layer_id := some lB.id, parameters := opar.getD T1.parameters } lA lB.id lB.name) else u)).map (fun u => if u.id = T2.id then (applyReplaceT K (update_layer_reference (applyReplaceWorld K w { id := T1.id, name := T1.name, type := oty.getD T1.type, source_layer_id := lA.id, target_layer_id := some lB.id, parameters := opar.getD T1.parameters } lA lB.id lB.name) lB.id w.nextId) { id := T2.id, name := T2.name, type := T2.type, source_layer_id := w.nextId, target_layer_id := some lC.id, parameters := T2.parameters } (applyReplaceLayer K w { id := T1.id, name := T1.name, type := oty.getD T1.type, source_layer_id := lA.id, target_layer_id := some lB.id, parameters := opar.getD T1.parameters } lA lB.name) lC.id lC.name) else u) := by
    rw [hW9trans, hW5trans]
  have hndT9 : ((applyReplaceWorld K (update_layer_reference (applyReplaceWorld K w { id := T1.id, name := T1.name, type := oty.getD T1.type, source_layer_id := lA.id, target_layer_id := some lB.id, parameters := opar.getD T1.parameters } lA lB.id lB.name) lB.id w.nextId) { id := T2.id, name := T2.name, type := T2.type, source_layer_id := w.nextId, target_layer_id := some lC.id, parameters := T2.parameters } (applyReplaceLayer K w { id := T1.id, name := T1.name, type := oty.getD T1.type, source_layer_id := lA.id, target_layer_id := some lB.id, parameters := opar.getD T1.parameters } lA lB.name) lC.id lC.name).transformations.map Transformation.id).Nodup := by
    rw [hW9T, transformations_map_ids_keyed _ T2.id (applyReplaceT K (update_layer_reference (applyReplaceWorld K w { id := T1.id, name := T1.name, type := oty.getD T1.type, source_layer_id := lA.id, target_layer_id := some lB.id, parameters := opar.getD T1.parameters } lA lB.id lB.name) lB.id w.nextId) { id := T2.id, name := T2.name, type := T2.type, source_layer_id := w.nextId, target_layer_id := some lC.id, parameters := T2.parameters } (applyReplaceLayer K w { id := T1.id, name := T1.name, type := oty.getD T1.type, source_layer_id := lA.id, target_layer_id := some lB.id, parameters := opar.getD T1.parameters } lA lB.name) lC.id lC.name) rfl, transformations_map_ids_keyed _ T1.id (applyReplaceT K w { id := T1.id, name := T1.name, type := oty.getD T1.type, source_layer_id := lA.id, target_layer_id := some lB.id, parameters := opar.getD T1.parameters } lA lB.id lB.name) rfl]
    exact hndT
  have hmemT3 : T3 ∈ (applyReplaceWorld K (update_layer_reference (applyReplaceWorld K w { id := T1.id, name := T1.name, type := oty.getD T1.type, source_layer_id := lA.id, target_layer_id := some lB.id, parameters := opar.getD T1.parameters } lA lB.id lB.name) lB.id w.nextId) { id := T2.id, name := T2.name, type := T2.type, source_layer_id := w.nextId, target_layer_id := some lC.id, parameters := T2.parameters } (applyReplaceLayer K w { id := T1.id, name := T1.name, type := oty.getD T1.type, source_layer_id := lA.id, target_layer_id := some lB.id, parameters := opar.getD T1.parameters } lA lB.name) lC.id lC.name).transformations := by
    rw [hW9T]
    exact List.mem_map.mpr ⟨T3, List.mem_map.mpr ⟨T3, hT3, if_neg (fun hc => hT13 hc.symm)⟩, if_neg (fun hc => hT23 hc.symm)⟩
  have huniq9 : ∀ u ∈ (applyReplaceWorld K (update_layer_reference (applyReplaceWorld K w { id := T1.id, name := T1.name, type := oty.getD T1.type, source_layer_id := lA.id, target_layer_id := some lB.id, parameters := opar.getD T1.parameters } lA lB.id lB.name) lB.id w.nextId) { id := T2.id, name := T2.name, type := T2.type, source_layer_id := w.nextId, target_layer_id := some lC.id, parameters := T2.parameters } (applyReplaceLayer K w { id := T1.id, name := T1.name, type := oty.getD T1.type, source_layer_id := lA.id, target_layer_id := some lB.id, parameters := opar.getD T1.parameters } lA lB.name) lC.id lC.name).transformations, u.source_layer_id = lC.id → u.id = T3.id := by
    rw [hW9T]
    intro u hu hsu
    obtain ⟨u1, hu1, rfl⟩ := List.mem_map.mp hu
    obtain ⟨u0, hu0, rfl⟩ := List.mem_map.mp hu1
    by_cases h0 : u0.id = T1.id
    · rw [if_pos h0] at hsu
      rw [if_neg (show ¬ ((applyReplaceT K w { id := T1.id, name := T1.name, type := oty.getD T1.type, source_layer_id := lA.id, target_layer_id := some lB.id, parameters := opar.getD T1.parameters } lA lB.id lB.name).id = T2.id) from hT12)] at hsu
      exact absurd (show lA.id = lC.id from hsu) hAC
    · rw [if_neg h0] at hsu
      by_cases h2 : u0.id = T2.id
      · rw [if_pos h2] at hsu
        exact absurd (show lC.id = w.nextId from (show w.nextId = lC.id from hsu).symm) (Nat.ne_of_lt hClt)
      · rw [if_neg h2] at hsu
        rw [if_neg h0, if_neg h2]
        exact huC u0 hu0 hsu
  have hglC9new : get_layer (applyReplaceWorld K (update_layer_reference (applyReplaceWorld K w { id := T1.id, name := T1.name, type := oty.getD T1.type, source_layer_id := lA.id, target_layer_id := some lB.id, parameters := opar.getD T1.parameters } lA lB.id lB.name) lB.id w.nextId) { id := T2.id, name := T2.name, type := T2.type, source_layer_id := w.nextId, target_layer_id := some lC.id, parameters := T2.parameters } (applyReplaceLayer K w { id := T1.id, name := T1.name, type := oty.getD T1.type, source_layer_id := lA.id, target_layer_id := some lB.id, parameters := opar.getD T1.parameters } lA lB.name) lC.id lC.name) (w.nextId + 1) = some (applyReplaceLayer K (update_layer_reference (applyReplaceWorld K w { id := T1.id, name := T1.name, type := oty.getD T1.type, source_layer_id := lA.id, target_layer_id := some lB.id, parameters := opar.getD T1.parameters } lA lB.id lB.name) lB.id w.nextId) { id := T2.id, name := T2.name, type := T2.type, source_layer_id := w.nextId, target_layer_id := some lC.id, parameters := T2.parameters } (applyReplaceLayer K w { id := T1.id, name := T1.name, type := oty.getD T1.type, source_layer_id := lA.id, target_layer_id := some lB.id, parameters := opar.getD T1.parameters } lA lB.name) lC.name) := by
    rw [get_layer_applyReplace K (update_layer_reference (applyReplaceWorld K w { id := T1.id, name := T1.name, type := oty.getD T1.type, source_layer_id := lA.id, target_layer_id := some lB.id, parameters := opar.getD T1.parameters } lA lB.id lB.name) lB.id w.nextId) { id := T2.id, name := T2.name, type := T2.type, source_layer_id := w.nextId, target_layer_id := some lC.id, parameters := T2.parameters } (applyReplaceLayer K w { id := T1.id, name := T1.name, type := oty.getD T1.type, source_layer_id := lA.id, target_layer_id := some lB.id, parameters := opar.getD T1.parameters } lA lB.name) lC.id lC.name hfLU5 hLBne (w.nextId + 1)]
    rw [if_pos (show w.nextId + 1 = (update_layer_reference (applyReplaceWorld K w { id := T1.id, name := T1.name, type := oty.getD T1.type, source_layer_id := lA.id, target_layer_id := some lB.id, parameters := opar.getD T1.parameters } lA lB.id lB.name) lB.id w.nextId).nextId from rfl)]
  have hgl9 : ∀ k, k ≠ w.nextId + 1 → k ≠ lC.id → get_layer (applyReplaceWorld K (update_layer_reference (applyReplaceWorld K w { id := T1.id, name := T1.name, type := oty.getD T1.type, source_layer_id := lA.id, target_layer_id := some lB.id, parameters := opar.getD T1.parameters } lA lB.id lB.name) lB.id w.nextId) { id := T2.id, name := T2.name, type := T2.type, source_layer_id := w.nextId, target_layer_id := some lC.id, parameters := T2.parameters } (applyReplaceLayer K w { id := T1.id, name := T1.name, type := oty.getD T1.type, source_layer_id := lA.id, target_layer_id := some lB.id, parameters := opar.getD T1.parameters } lA lB.name) lC.id lC.name) k = get_layer (update_layer_reference (applyReplaceWorld K w { id := T1.id, name := T1.name, type := oty.getD T1.type, source_layer_id := lA.id, target_layer_id := some lB.id, parameters := opar.getD T1.parameters } lA lB.id lB.name) lB.id w.nextId) k := by
    intro k h1 h2
    rw [get_layer_applyReplace K (update_layer_reference (applyReplaceWorld K w { id := T1.id, name := T1.name, type := oty.getD T1.type, source_layer_id := lA.id, target_layer_id := some lB.id, parameters := opar.getD T1.parameters } lA lB.id lB.name) lB.id w.nextId) { id := T2.id, name := T2.name, type := T2.type, source_layer_id := w.nextId, target_layer_id := some lC.id, parameters := T2.parameters } (applyReplaceLayer K w { id := T1.id, name := T1.name, type := oty.getD T1.type, source_layer_id := lA.id, target_layer_id := some lB.id, parameters := opar.getD T1.parameters } lA lB.name) lC.id lC.name hfLU5 hLBne k]
    rw [if_neg (show ¬ (k = (update_layer_reference (applyReplaceWorld K w { id := T1.id, name := T1.name, type := oty.getD T1.type, source_layer_id := lA.id, target_layer_id := some lB.id, parameters := opar.getD T1.parameters } lA lB.id lB.name) lB.id w.nextId).nextId) from h1), if_neg h2]
  have hpt9 : ∀ k, k ≠ w.nextId + 1 → k ≠ lC.id → pointsOf (applyReplaceWorld K (update_layer_reference (applyReplaceWorld K w { id := T1.id, name := T1.name, type := oty.getD T1.type, source_layer_id := lA.id, target_layer_id := some lB.id, parameters := opar.getD T1.parameters } lA lB.id lB.name) lB.id w.nextId) { id := T2.id, name := T2.name, type := T2.type, source_layer_id := w.nextId, target_layer_id := some lC.id, parameters := T2.parameters } (applyReplaceLayer K w { id := T1.id, name := T1.name, type := oty.getD T1.type, source_layer_id := lA.id, target_layer_id := some lB.id, parameters := opar.getD T1.parameters } lA lB.name) lC.id lC.name) k = pointsOf (update_layer_reference (applyReplaceWorld K w { id := T1.id, name := T1.name, type := oty.getD T1.type, source_layer_id := lA.id, target_layer_id := some lB.id, parameters := opar.getD T1.parameters } lA lB.id lB.name) lB.id w.nextId) k := by
    intro k h1 h2
    rw [pointsOf_applyReplace K (update_layer_reference (applyReplaceWorld K w { id := T1.id, name := T1.name, type := oty.getD T1.type, source_layer_id := lA.id, target_layer_id := some lB.id, parameters := opar.getD T1.parameters } lA lB.id lB.name) lB.id w.nextId) { id := T2.id, name := T2.name, type := T2.type, source_layer_id := w.nextId, target_layer_id := some lC.id, parameters := T2.parameters } (applyReplaceLayer K w { id := T1.id, name := T1.name, type := oty.getD T1.type, source_layer_id := lA.id, target_layer_id := some lB.id, parameters := opar.getD T1.parameters } lA lB.name) lC.id lC.name hfPU5 hLBne k]
    rw [if_neg (show ¬ (k = (update_layer_reference (applyReplaceWorld K w { id := T1.id, name := T1.name, type := oty.getD T1.type, source_layer_id := lA.id, target_layer_id := some lB.id, parameters := opar.getD T1.parameters } lA lB.id lB.name) lB.id w.nextId).nextId) from h1), if_neg h2]
  have hpts9 : pointsOf (applyReplaceWorld K (update_layer_reference (applyReplaceWorld K w { id := T1.id, name := T1.name, type := oty.getD T1.type, source_layer_id := lA.id, target_layer_id := some lB.id, parameters := opar.getD T1.parameters } lA lB.id lB.name) lB.id w.nextId) { id := T2.id, name := T2.name, type := T2.type, source_layer_id := w.nextId, target_layer_id := some lC.id, parameters := T2.parameters } (applyReplaceLayer K w { id := T1.id, name := T1.name, type := oty.getD T1.type, source_layer_id := lA.id, target_layer_id := some lB.id, parameters := opar.getD T1.parameters } lA lB.name) lC.id lC.name) (w.nextId + 1) = (stepPts K { id := T2.id, name := T2.name, type := T2.type, source_layer_id := w.nextId, target_layer_id := some lC.id, parameters := T2.parameters } (stepPts K { id := T1.id, name := T1.name, type := oty.getD T1.type, source_layer_id := lA.id, target_layer_id := some lB.id, parameters := opar.getD T1.parameters } (pointsOf w lA.id))) := by
    rw [pointsOf_applyReplace K (update_layer_reference (applyReplaceWorld K w { id := T1.id, name := T1.name, type := oty.getD T1.type, source_layer_id := lA.id, target_layer_id := some lB.id, parameters := opar.getD T1.parameters } lA lB.id lB.name) lB.id w.nextId) { id := T2.id, name := T2.name, type := T2.type, source_layer_id := w.nextId, target_layer_id := some lC.id, parameters := T2.parameters } (applyReplaceLayer K w { id := T1.id, name := T1.name, type := oty.getD T1.type, source_layer_id := lA.id, target_layer_id := some lB.id, parameters := opar.getD T1.parameters } lA lB.name) lC.id lC.name hfPU5 hLBne (w.nextId + 1)]
    rw [if_pos (show w.nextId + 1 = (update_layer_reference (applyReplaceWorld K w { id := T1.id, name := T1.name, type := oty.getD T1.type, source_layer_id := lA.id, target_layer_id := some lB.id, parameters := opar.getD T1.parameters } lA lB.id lB.name) lB.id w.nextId).nextId from rfl), hptsU5B]
  have hglD9 : get_layer (applyReplaceWorld K (update_layer_reference (applyReplaceWorld K w { id := T1.id, name := T1.name, type := oty.getD T1.type, source_layer_id := lA.id, target_layer_id := some lB.id, parameters := opar.getD T1.parameters } lA lB.id lB.name) lB.id w.nextId) { id := T2.id, name := T2.name, type := T2.type, source_layer_id := w.nextId, target_layer_id := some lC.id, parameters := T2.parameters } (applyReplaceLayer K w { id := T1.id, name := T1.name, type := oty.getD T1.type, source_layer_id := lA.id, target_layer_id := some lB.id, parameters := opar.getD T1.parameters } lA lB.name) lC.id lC.name) lD.id = some lD := by
    rw [hgl9 lD.id hlD1 (fun hc => hCD hc.symm), get_layer_updRef]
    exact hglD5
  have hLCne : (applyReplaceLayer K (update_layer_reference (applyReplaceWorld K w { id := T1.id, name := T1.name, type := oty.getD T1.type, source_layer_id := lA.id, target_layer_id := some lB.id, parameters := opar.getD T1.parameters } lA lB.id lB.name) lB.id w.nextId) { id := T2.id, name := T2.name, type := T2.type, source_layer_id := w.nextId, target_layer_id := some lC.id, parameters := T2.parameters } (applyReplaceLayer K w { id := T1.id, name := T1.name, type := oty.getD T1.type, source_layer_id := lA.id, target_layer_id := some lB.id, parameters := opar.getD T1.parameters } lA lB.name) lC.name).id ≠ lD.id := fun hc => absurd (show w.nextId + 1 = lD.id from hc) hn1D
  have hfL9 : ∀ l ∈ (applyReplaceWorld K (update_layer_reference (applyReplaceWorld K w { id := T1.id, name := T1.name, type := oty.getD T1.type, source_layer_id := lA.id, target_layer_id := some lB.id, parameters := opar.getD T1.parameters } lA lB.id lB.name) lB.id w.nextId) { id := T2.id, name := T2.name, type := T2.type, source_layer_id := w.nextId, target_layer_id := some lC.id, parameters := T2.parameters } (applyReplaceLayer K w { id := T1.id, name := T1.name, type := oty.getD T1.type, source_layer_id := lA.id, target_layer_id := some lB.id, parameters := opar.getD T1.parameters } lA lB.name) lC.id lC.name).layers, l.id < (applyReplaceWorld K (update_layer_reference (applyReplaceWorld K w { id := T1.id, name := T1.name, type := oty.getD T1.type, source_layer_id := lA.id, target_layer_id := some lB.id, parameters := opar.getD T1.parameters } lA lB.id lB.name) lB.id w.nextId) { id := T2.id, name := T2.name, type := T2.type, source_layer_id := w.nextId, target_layer_id := some lC.id, parameters := T2.parameters } (applyReplaceLayer K w { id := T1.id, name := T1.name, type := oty.getD T1.type, source_layer_id := lA.id, target_layer_id := some lB.id, parameters := opar.getD T1.parameters } lA lB.name) lC.id lC.name).nextId :=
    applyReplace_hfL K (update_layer_reference (applyReplaceWorld K w { id := T1.id, name := T1.name, type := oty.getD T1.type, source_layer_id := lA.id, target_layer_id := some lB.id, parameters := opar.getD T1.parameters } lA lB.id lB.name) lB.id w.nextId) { id := T2.id, name := T2.name, type := T2.type, source_layer_id := w.nextId, target_layer_id := some lC.id, parameters := T2.parameters } (applyReplaceLayer K w { id := T1.id, name := T1.name, type := oty.getD T1.type, source_layer_id := lA.id, target_layer_id := some lB.id, parameters := opar.getD T1.parameters } lA lB.name) lC.id lC.name hfLU5
  have hfP9 : ∀ e ∈ (applyReplaceWorld K (update_layer_reference (applyReplaceWorld K w { id := T1.id, name := T1.name, type := oty.getD T1.type, source_layer_id := lA.id, target_layer_id := some lB.id, parameters := opar.getD T1.parameters } lA lB.id lB.name) lB.id w.nextId) { id := T2.id, name := T2.name, type := T2.type, source_layer_id := w.nextId, target_layer_id := some lC.id, parameters := T2.parameters } (applyReplaceLayer K w { id := T1.id, name := T1.name, type := oty.getD T1.type, source_layer_id := lA.id, target_layer_id := some lB.id, parameters := opar.getD T1.parameters } lA lB.name) lC.id lC.name).points, e.1 < (applyReplaceWorld K (update_layer_reference (applyReplaceWorld K w { id := T1.id, name := T1.name, type := oty.getD T1.type, source_layer_id := lA.id, target_layer_id := some lB.id, parameters := opar.getD T1.parameters } lA lB.id lB.name) lB.id w.nextId) { id := T2.id, name := T2.name, type := T2.type, source_layer_id := w.nextId, target_layer_id := some lC.id, parameters := T2.parameters } (applyReplaceLayer K w { id := T1.id, name := T1.name, type := oty.getD T1.type, source_layer_id := lA.id, target_layer_id := some lB.id, parameters := opar.getD T1.parameters } lA lB.name) lC.id lC.name).nextId :=
    applyReplace_hfP K (update_layer_reference (applyReplaceWorld K w { id := T1.id, name := T1.name, type := oty.getD T1.type, source_layer_id := lA.id, target_layer_id := some lB.id, parameters := opar.getD T1.parameters } lA lB.id lB.name) lB.id w.nextId) { id := T2.id, name := T2.name, type := T2.type, source_layer_id := w.nextId, target_layer_id := some lC.id, parameters := T2.parameters } (applyReplaceLayer K w { id := T1.id, name := T1.name, type := oty.getD T1.type, source_layer_id := lA.id, target_layer_id := some lB.id, parameters := opar.getD T1.parameters } lA lB.name) lC.id lC.name hfPU5
  have hClen : (stepPts K { id := T2.id, name := T2.name, type := T2.type, source_layer_id := w.nextId, target_layer_id := some lC.id, parameters := T2.parameters } (stepPts K { id := T1.id, name := T1.name, type := oty.getD T1.type, source_layer_id := lA.id, target_layer_id := some lB.id, parameters := opar.getD T1.parameters } (pointsOf w lA.id))).length = (stepPts K { id := T1.id, name := T1.name, type := oty.getD T1.type, source_layer_id := lA.id, target_layer_id := some lB.id, parameters := opar.getD T1.parameters } (pointsOf w lA.id)).length := stepPts_length K hK { id := T2.id, name := T2.name, type := T2.type, source_layer_id := w.nextId, target_layer_id := some lC.id, parameters := T2.parameters } (stepPts K { id := T1.id, name := T1.name, type := oty.getD T1.type, source_layer_id := lA.id, target_layer_id := some lB.id, parameters := opar.getD T1.parameters } (pointsOf w lA.id))
  have hne9 : pointsOf (applyReplaceWorld K (update_layer_reference (applyReplaceWorld K w { id := T1.id, name := T1.name, type := oty.getD T1.type, source_layer_id := lA.id, target_layer_id := some lB.id, parameters := opar.getD T1.parameters } lA lB.id lB.name) lB.id w.nextId) { id := T2.id, name := T2.name, type := T2.type, source_layer_id := w.nextId, target_layer_id := some lC.id, parameters := T2.parameters } (applyReplaceLayer K w { id := T1.id, name := T1.name, type := oty.getD T1.type, source_layer_id := lA.id, target_layer_id := some lB.id, parameters := opar.getD T1.parameters } lA lB.name) lC.id lC.name) (w.nextId + 1) ≠ [] := by
    rw [hpts9]
    intro hc
    exact hne (List.length_eq_zero.mp (by rw [← hBlen, ← hClen, hc]; rfl))
  have hndC : ((stepPts K { id := T2.id, name := T2.name, type := T2.type, source_layer_id := w.nextId, target_layer_id := some lC.id, parameters := T2.parameters } (stepPts K { id := T1.id, name := T1.name, type := oty.getD T1.type, source_layer_id := lA.id, target_layer_id := some lB.id, parameters := opar.getD T1.parameters } (pointsOf w lA.id))).map Point.id).Nodup := stepPts_nodup K { id := T2.id, name := T2.name, type := T2.type, source_layer_id := w.nextId, target_layer_id := some lC.id, parameters := T2.parameters } (stepPts K { id := T1.id, name := T1.name, type := oty.getD T1.type, source_layer_id := lA.id, target_layer_id := some lB.id, parameters := opar.getD T1.parameters } (pointsOf w lA.id)) hndB
  have hnd9 : ((pointsOf (applyReplaceWorld K (update_layer_reference (applyReplaceWorld K w { id := T1.id, name := T1.name, type := oty.getD T1.type, source_layer_id := lA.id, target_layer_id := some lB.id, parameters := opar.getD T1.parameters } lA lB.id lB.name) lB.id w.nextId) { id := T2.id, name := T2.name, type := T2.type, source_layer_id := w.nextId, target_layer_id := some lC.id, parameters := T2.parameters } (applyReplaceLayer K w { id := T1.id, name := T1.name, type := oty.getD T1.type, source_layer_id := lA.id, target_layer_id := some lB.id, parameters := opar.getD T1.parameters } lA lB.name) lC.id lC.name) (w.nextId + 1)).map Point.id).Nodup := by
    rw [hpts9]
    exact hndC
  have haxes9 : (applyReplaceWorld K (update_layer_reference (applyReplaceWorld K w { id := T1.id, name := T1.name, type := oty.getD T1.type, source_layer_id := lA.id, target_layer_id := some lB.id, parameters := opar.getD T1.parameters } lA lB.id lB.name) lB.id w.nextId) { id := T2.id, name := T2.name, type := T2.type, source_layer_id := w.nextId, target_layer_id := some lC.id, parameters := T2.parameters } (applyReplaceLayer K w { id := T1.id, name := T1.name, type := oty.getD T1.type, source_layer_id := lA.id, target_layer_id := some lB.id, parameters := opar.getD T1.parameters } lA lB.name) lC.id lC.name).axes = [] := (applyReplace_axes K (update_layer_reference (applyReplaceWorld K w { id := T1.id, name := T1.name, type := oty.getD T1.type, source_layer_id := lA.id, target_layer_id := some lB.id, parameters := opar.getD T1.parameters } lA lB.id lB.name) lB.id w.nextId) { id := T2.id, name := T2.name, type := T2.type, source_layer_id := w.nextId, target_layer_id := some lC.id, parameters := T2.parameters } (applyReplaceLayer K w { id := T1.id, name := T1.name, type := oty.getD T1.type, source_layer_id := lA.id, target_layer_id := some lB.id, parameters := opar.getD T1.parameters } lA lB.name) lC.id lC.name).trans ((applyReplace_axes K w { id := T1.id, name := T1.name, type := oty.getD T1.type, source_layer_id := lA.id, target_layer_id := some lB.id, parameters := opar.getD T1.parameters } lA lB.id lB.name).trans haxes)
  have hstep2 : propagate_downstream K (m + 2) lC.id (w.nextId + 1) (applyReplaceWorld K (update_layer_reference (applyReplaceWorld K w { id := T1.id, name := T1.name, type := oty.getD T1.type, source_layer_id := lA.id, target_layer_id := some lB.id, parameters := opar.getD T1.parameters } lA lB.id lB.name) lB.id w.nextId) { id := T2.id, name := T2.name, type := T2.type, source_layer_id := w.nextId, target_layer_id := some lC.id, parameters := T2.parameters } (applyReplaceLayer K w { id := T1.id, name := T1.name, type := oty.getD T1.type, source_layer_id := lA.id, target_layer_id := some lB.id, parameters := opar.getD T1.parameters } lA lB.name) lC.id lC.name) = propagate_downstream K (m + 1) lD.id (w.nextId + 2) (applyReplaceWorld K (update_layer_reference (applyReplaceWorld K (update_layer_reference (applyReplaceWorld K w { id := T1.id, name := T1.name, type := oty.getD T1.type, source_layer_id := lA.id, target_layer_id := some lB.id, parameters := opar.getD T1.parameters } lA lB.id lB.name) lB.id w.nextId) { id := T2.id, name := T2.name, type := T2.type, source_layer_id := w.nextId, target_layer_id := some lC.id, parameters := T2.parameters } (applyReplaceLayer K w { id := T1.id, name := T1.name, type := oty.getD T1.type, source_layer_id := lA.id, target_layer_id := some lB.id, parameters := opar.getD T1.parameters } lA lB.name) lC.id lC.name) lC.id (w.nextId + 1)) { id := T3.id, name := T3.name, type := T3.type, source_layer_id := w.nextId + 1, target_layer_id := some lD.id, parameters := T3.parameters } (applyReplaceLayer K (update_layer_reference (applyReplaceWorld K w { id := T1.id, name := T1.name, type := oty.getD T1.type, source_layer_id := lA.id, target_layer_id := some lB.id, parameters := opar.getD T1.parameters } lA lB.id lB.name) lB.id w.nextId) { id := T2.id, name := T2.name, type := T2.type, source_layer_id := w.nextId, target_layer_id := some lC.id, parameters := T2.parameters } (applyReplaceLayer K w { id := T1.id, name := T1.name, type := oty.getD T1.type, source_layer_id := lA.id, target_layer_id := some lB.id, parameters := opar.getD T1.parameters } lA lB.name) lC.name) lD.id lD.name) :=
    propagate_chain_step K (m + 1) lC.id (w.nextId + 1) lD.id (applyReplaceWorld K (update_layer_reference (applyReplaceWorld K w { id := T1.id, name := T1.name, type := oty.getD T1.type, source_layer_id := lA.id, target_layer_id := some lB.id, parameters := opar.getD T1.parameters } lA lB.id lB.name) lB.id w.nextId) { id := T2.id, name := T2.name, type := T2.type, source_layer_id := w.nextId, target_layer_id := some lC.id, parameters := T2.parameters } (applyReplaceLayer K w { id := T1.id, name := T1.name, type := oty.getD T1.type, source_layer_id := lA.id, target_layer_id := some lB.id, parameters := opar.getD T1.parameters } lA lB.name) lC.id lC.name) T3 (applyReplaceLayer K (update_layer_reference (applyReplaceWorld K w { id := T1.id, name := T1.name, type := oty.getD T1.type, source_layer_id := lA.id, target_layer_id := some lB.id, parameters := opar.getD T1.parameters } lA lB.id lB.name) lB.id w.nextId) { id := T2.id, name := T2.name, type := T2.type, source_layer_id := w.nextId, target_layer_id := some lC.id, parameters := T2.parameters } (applyReplaceLayer K w { id := T1.id, name := T1.name, type := oty.getD T1.type, source_layer_id := lA.id, target_layer_id := some lB.id, parameters := opar.getD T1.parameters } lA lB.name) lC.name) lD hndT9 hmemT3 hT3s hT3t huniq9 hglC9new hglD9 hLCne hfL9 hfP9 hne9 hnd9 haxes9
  have hfLU9 : ∀ l ∈ (update_layer_reference (applyReplaceWorld K (update_layer_reference (applyReplaceWorld K w { id := T1.id, name := T1.name, type := oty.getD T1.type, source_layer_id := lA.id, target_layer_id := some lB.id, parameters := opar.getD T1.parameters } lA lB.id lB.name) lB.id w.nextId) { id := T2.id, name := T2.name, type := T2.type, source_layer_id := w.nextId, target_layer_id := some lC.id, parameters := T2.parameters } (applyReplaceLayer K w { id := T1.id, name := T1.name, type := oty.getD T1.type, source_layer_id := lA.id, target_layer_id := some lB.id, parameters := opar.getD T1.parameters } lA lB.name) lC.id lC.name) lC.id (w.nextId + 1)).layers, l.id < (update_layer_reference (applyReplaceWorld K (update_layer_reference (applyReplaceWorld K w { id := T1.id, name := T1.name, type := oty.getD T1.type, source_layer_id := lA.id, target_layer_id := some lB.id, parameters := opar.getD T1.parameters } lA lB.id lB.name) lB.id w.nextId) { id := T2.id, name := T2.name, type := T2.type, source_layer_id := w.nextId, target_layer_id := some lC.id, parameters := T2.parameters } (applyReplaceLayer K w { id := T1.id, name := T1.name, type := oty.getD T1.type, source_layer_id := lA.id, target_layer_id := some lB.id, parameters := opar.getD T1.parameters } lA lB.name) lC.id lC.name) lC.id (w.nextId + 1)).nextId := hfL9
  have hfPU9 : ∀ e ∈ (update_layer_reference (applyReplaceWorld K (update_layer_reference (applyReplaceWorld K w { id := T1.id, name := T1.name, type := oty.getD T1.type, source_layer_id := lA.id, target_layer_id := some lB.id, parameters := opar.getD T1.parameters } lA lB.id lB.name) lB.id w.nextId) { id := T2.id, name := T2.name, type := T2.type, source_layer_id := w.nextId, target_layer_id := some lC.id, parameters := T2.parameters } (applyReplaceLayer K w { id := T1.id, name := T1.name, type := oty.getD T1.type, source_layer_id := lA.id, target_layer_id := some lB.id, parameters := opar.getD T1.parameters } lA lB.name) lC.id lC.name) lC.id (w.nextId + 1)).points, e.1 < (update_layer_reference (applyReplaceWorld K (update_layer_reference (applyReplaceWorld K w { id := T1.id, name := T1.name, type := oty.getD T1.type, source_layer_id := lA.id, target_layer_id := some lB.id, parameters := opar.getD T1.parameters } lA lB.id lB.name) lB.id w.nextId) { id := T2.id, name := T2.name, type := T2.type, source_layer_id := w.nextId, target_layer_id := some lC.id, parameters := T2.parameters } (applyReplaceLayer K w { id := T1.id, name := T1.name, type := oty.getD T1.type, source_layer_id := lA.id, target_layer_id := some lB.id, parameters := opar.getD T1.parameters } lA lB.name) lC.id lC.name) lC.id (w.nextId + 1)).nextId := hfP9
  have hptsU9C : pointsOf (update_layer_reference (applyReplaceWorld K (update_layer_reference (applyReplaceWorld K w { id := T1.id, name := T1.name, type := oty.getD T1.type, source_layer_id := lA.id, target_layer_id := some lB.id, parameters := opar.getD T1.parameters } lA lB.id lB.name) lB.id w.nextId) { id := T2.id, name := T2.name, type := T2.type, source_layer_id := w.nextId, target_layer_id := some lC.id, parameters := T2.parameters } (applyReplaceLayer K w { id := T1.id, name := T1.name, type := oty.getD T1.type, source_layer_id := lA.id, target_layer_id := some lB.id, parameters := opar.getD T1.parameters } lA lB.name) lC.id lC.name) lC.id (w.nextId + 1)) ((applyReplaceLayer K (update_layer_reference (applyReplaceWorld K w { id := T1.id, name := T1.name, type := oty.getD T1.type, source_layer_id := lA.id, target_layer_id := some lB.id, parameters := opar.getD T1.parameters } lA lB.id lB.name) lB.id w.nextId) { id := T2.id, name := T2.name, type := T2.type, source_layer_id := w.nextId, target_layer_id := some lC.id, parameters := T2.parameters } (applyReplaceLayer K w { id := T1.id, name := T1.name, type := oty.getD T1.type, source_layer_id := lA.id, target_layer_id := some lB.id, parameters := opar.getD T1.parameters } lA lB.name) lC.name).id) = (stepPts K { id := T2.id, name := T2.name, type := T2.type, source_layer_id := w.nextId, target_layer_id := some lC.id, parameters := T2.parameters } (stepPts K { id := T1.id, name := T1.name, type := oty.getD T1.type, source_layer_id := lA.id, target_layer_id := some lB.id, parameters := opar.getD T1.parameters } (pointsOf w lA.id))) := by
    rw [pointsOf_updRef]
    exact hpts9
  have hW13trans : (applyReplaceWorld K (update_layer_reference (applyReplaceWorld K (update_layer_reference (applyReplaceWorld K w { id := T1.id, name := T1.name, type := oty.getD T1.type, source_layer_id := lA.id, target_layer_id := some lB.id, parameters := opar.getD T1.parameters } lA lB.id lB.name) lB.id w.nextId) { id := T2.id, name := T2.name, type := T2.type, source_layer_id := w.nextId, target_layer_id := some lC.id, parameters := T2.parameters } (applyReplaceLayer K w { id := T1.id, name := T1.name, type := oty.getD T1.type, source_layer_id := lA.id, target_layer_id := some lB.id, parameters := opar.getD T1.parameters } lA lB.name) lC.id lC.name) lC.id (w.nextId + 1)) { id := T3.id, name := T3.name, type := T3.type, source_layer_id := w.nextId + 1, target_layer_id := some lD.id, parameters := T3.parameters } (applyReplaceLayer K (update_layer_reference (applyReplaceWorld K w { id := T1.id, name := T1.name, type := oty.getD T1.type, source_layer_id := lA.id, target_layer_id := some lB.id, parameters := opar.getD T1.parameters } lA lB.id lB.name) lB.id w.nextId) { id := T2.id, name := T2.name, type := T2.type, source_layer_id := w.nextId, target_layer_id := some lC.id, parameters := T2.parameters } (applyReplaceLayer K w { id := T1.id, name := T1.name, type := oty.getD T1.type, source_layer_id := lA.id, target_layer_id := some lB.id, parameters := opar.getD T1.parameters } lA lB.name) lC.name) lD.id lD.name).transformations = (applyReplaceWorld K (update_layer_reference (applyReplaceWorld K w { id := T1.id, name := T1.name, type := oty.getD T1.type, source_layer_id := lA.id, target_layer_id := some lB.id, parameters := opar.getD T1.parameters } lA lB.id lB.name) lB.id w.nextId) { id := T2.id, name := T2.name, type := T2.type, source_layer_id := w.nextId, target_layer_id := some lC.id, parameters := T2.parameters } (applyReplaceLayer K w { id := T1.id, name := T1.name, type := oty.getD T1.type, source_layer_id := lA.id, target_layer_id := some lB.id, parameters := opar.getD T1.parameters } lA lB.name) lC.id lC.name).transformations.map (fun u => if u.id = T3.id then (applyReplaceT K (update_layer_reference (applyReplaceWorld K (update_layer_reference (applyReplaceWorld K w { id := T1.id, name := T1.name, type := oty.getD T1.type, source_layer_id := lA.id, target_layer_id := some lB.id, parameters := opar.getD T1.parameters } lA lB.id lB.name) lB.id w.nextId) { id := T2.id, name := T2.name, type := T2.type, source_layer_id := w.nextId, target_layer_id := some lC.id, parameters := T2.parameters } (applyReplaceLayer K w { id := T1.id, name := T1.name, type := oty.getD T1.type, source_layer_id := lA.id, target_layer_id := some lB.id, parameters := opar.getD T1.parameters } lA lB.name) lC.id lC.name) lC.id (w.nextId + 1)) { id := T3.id, name := T3.name, type := T3.type, source_layer_id := w.nextId + 1, target_layer_id := some lD.id, parameters := T3.parameters } (applyReplaceLayer K (update_layer_reference (applyReplaceWorld K w { id := T1.id, name := T1.name, type := oty.getD T1.type, source_layer_id := lA.id, target_layer_id := some lB.id, parameters := opar.getD T1.parameters } lA lB.id lB.name) lB.id w.nextId) { id := T2.id, name := T2.name, type := T2.type, source_layer_id := w.nextId, target_layer_id := some lC.id, parameters := T2.parameters } (applyReplaceLayer K w { id := T1.id, name := T1.name, type := oty.getD T1.type, source_layer_id := lA.id, target_layer_id := some lB.id, parameters := opar.getD T1.parameters } lA lB.name) lC.name) lD.id lD.name) else u) :=
    applyReplace_transformations K (update_layer_reference (applyReplaceWorld K (update_layer_reference (applyReplaceWorld K w { id := T1.id, name := T1.name, type := oty.getD T1.type, source_layer_id := lA.id, target_layer_id := some lB.id, parameters := opar.getD T1.parameters } lA lB.id lB.name) lB.id w.nextId) { id := T2.id, name := T2.name, type := T2.type, source_layer_id := w.nextId, target_layer_id := some lC.id, parameters := T2.parameters } (applyReplaceLayer K w { id := T1.id, name := T1.name, type := oty.getD T1.type, source_layer_id := lA.id, target_layer_id := some lB.id, parameters := opar.getD T1.parameters } lA lB.name) lC.id lC.name) lC.id (w.nextId + 1)) { id := T3.id, name := T3.name, type := T3.type, source_layer_id := w.nextId + 1, target_layer_id := some lD.id, parameters := T3.parameters } (applyReplaceLayer K (update_layer_reference (applyReplaceWorld K w { id := T1.id, name := T1.name, type := oty.getD T1.type, source_layer_id := lA.id, target_layer_id := some lB.id, parameters := opar.getD T1.parameters } lA lB.id lB.name) lB.id w.nextId) { id := T2.id, name := T2.name, type := T2.type, source_layer_id := w.nextId, target_layer_id := some lC.id, parameters := T2.parameters } (applyReplaceLayer K w { id := T1.id, name := T1.name, type := oty.getD T1.type, source_layer_id := lA.id, target_layer_id := some lB.id, parameters := opar.getD T1.parameters } lA lB.name) lC.name) lD.id lD.name
  have hW13T : (applyReplaceWorld K (update_layer_reference (applyReplaceWorld K (update_layer_reference (applyReplaceWorld K w { id := T1.id, name := T1.name, type := oty.getD T1.type, source_layer_id := lA.id, target_layer_id := some lB.id, parameters := opar.getD T1.parameters } lA lB.id lB.name) lB.id w.nextId) { id := T2.id, name := T2.name, type := T2.type, source_layer_id := w.nextId, target_layer_id := some lC.id, parameters := T2.parameters } (applyReplaceLayer K w { id := T1.id, name := T1.name, type := oty.getD T1.type, source_layer_id := lA.id, target_layer_id := some lB.id, parameters := opar.getD T1.parameters } lA lB.name) lC.id lC.name) lC.id (w.nextId + 1)) { id := T3.id, name := T3.name, type := T3.type, source_layer_id := w.nextId + 1, target_layer_id := some lD.id, parameters := T3.parameters } (applyReplaceLayer K (update_layer_reference (applyReplaceWorld K w { id := T1.id, name := T1.name, type := oty.getD T1.type, source_layer_id := lA.id, target_layer_id := some lB.id, parameters := opar.getD T1.parameters } lA lB.id lB.name) lB.id w.nextId) { id := T2.id, name := T2.name, type := T2.type, source_layer_id := w.nextId, target_layer_id := some lC.id, parameters := T2.parameters } (applyReplaceLayer K w { id := T1.id, name := T1.name, type := oty.getD T1.type, source_layer_id := lA.id, target_layer_id := some lB.id, parameters := opar.getD T1.parameters } lA lB.name) lC.name) lD.id lD.name).transformations = ((w.transformations.map (fun u => if u.id = T1.id then (applyReplaceT K w { id := T1.id, name := T1.name, type := oty.getD T1.type, source_layer_id := lA.id, target_layer_id := some lB.id, parameters := opar.getD T1.parameters } lA lB.id lB.name) else u)).map (fun u => if u.id = T2.id then (applyReplaceT K (update_layer_reference (applyReplaceWorld K w { id := T1.id, name := T1.name, type := oty.getD T1.type, source_layer_id := lA.id, target_layer_id := some lB.id, parameters := opar.getD T1.parameters } lA lB.id lB.name) lB.id w.nextId) { id := T2.id, name := T2.name, type := T2.type, source_layer_id := w.nextId, target_layer_id := some lC.id, parameters := T2.parameters } (applyReplaceLayer K w { id := T1.id, name := T1.name, type := oty.getD T1.type, source_layer_id := lA.id, target_layer_id := some lB.id, parameters := opar.getD T1.parameters } lA lB.name) lC.id lC.name) else u)).map (fun u => if u.id = T3.id then (applyReplaceT K (update_layer_reference (applyReplaceWorld K (update_layer_reference (applyReplaceWorld K w { id := T1.id, name := T1.name, type := oty.getD T1.type, source_layer_id := lA.id, target_layer_id := some lB.id, parameters := opar.getD T1.parameters } lA lB.id lB.name) lB.id w.nextId) { id := T2.id, name := T2.name, type := T2.type, source_layer_id := w.nextId, target_layer_id := some lC.id, parameters := T2.parameters } (applyReplaceLayer K w { id := T1.id, name := T1.name, type := oty.getD T1.type, source_layer_id := lA.id, target_layer_id := some lB.id, parameters := opar.getD T1.parameters } lA lB.name) lC.id lC.name) lC.id (w.nextId + 1)) { id := T3.id, name := T3.name, type := T3.type, source_layer_id := w.nextId + 1, target_layer_id := some lD.id, parameters := T3.parameters } (applyReplaceLayer K (update_layer_reference (applyReplaceWorld K w { id := T1.id, name := T1.name, type := oty.getD T1.type, source_layer_id := lA.id, target_layer_id := some lB.id, parameters := opar.getD T1.parameters } lA lB.id lB.name) lB.id w.nextId) { id := T2.id, name := T2.name, type := T2.type, source_layer_id := w.nextId, target_layer_id := some lC.id, parameters := T2.parameters } (applyReplaceLayer K w { id := T1.id, name := T1.name, type := oty.getD T1.type, source_layer_id := lA.id, target_layer_id := some lB.id, parameters := opar.getD T1.parameters } lA lB.name) lC.name) lD.id lD.name) else u) := by
    rw [hW13trans, hW9T]
  have hempty13 : (applyReplaceWorld K (update_layer_reference (applyReplaceWorld K (update_layer_reference (applyReplaceWorld K w { id := T1.id, name := T1.name, type := oty.getD T1.type, source_layer_id := lA.id, target_layer_id := some lB.id, parameters := opar.getD T1.parameters } lA lB.id lB.name) lB.id w.nextId) { id := T2.id, name := T2.name, type := T2.type, source_layer_id := w.nextId, target_layer_id := some lC.id, parameters := T2.parameters } (applyReplaceLayer K w { id := T1.id, name := T1.name, type := oty.getD T1.type, source_layer_id := lA.id, target_layer_id := some lB.id, parameters := opar.getD T1.parameters } lA lB.name) lC.id lC.name) lC.id (w.nextId + 1)) { id := T3.id, name := T3.name, type := T3.type, source_layer_id := w.nextId + 1, target_layer_id := some lD.id, parameters := T3.parameters } (applyReplaceLayer K (update_layer_reference (applyReplaceWorld K w { id := T1.id, name := T1.name, type := oty.getD T1.type, source_layer_id := lA.id, target_layer_id := some lB.id, parameters := opar.getD T1.parameters } lA lB.id lB.name) lB.id w.nextId) { id := T2.id, name := T2.name, type := T2.type, source_layer_id := w.nextId, target_layer_id := some lC.id, parameters := T2.parameters } (applyReplaceLayer K w { id := T1.id, name := T1.name, type := oty.getD T1.type, source_layer_id := lA.id, target_layer_id := some lB.id, parameters := opar.getD T1.parameters } lA lB.name) lC.name) lD.id lD.name).transformations.filter (fun t => t.source_layer_id = lD.id) = [] := by
    rw [hW13T]
    refine List.filter_eq_nil_iff.mpr ?_
    intro u hu hc
    rw [decide_eq_true_eq] at hc
    obtain ⟨u2, hu2, rfl⟩ := List.mem_map.mp hu
    obtain ⟨u1, hu1, rfl⟩ := List.mem_map.mp hu2
    obtain ⟨u0, hu0, rfl⟩ := List.mem_map.mp hu1
    by_cases h0 : u0.id = T1.id
    · rw [if_pos h0] at hc
      rw [if_neg (show ¬ ((applyReplaceT K w { id := T1.id, name := T1.name, type := oty.getD T1.type, source_layer_id := lA.id, target_layer_id := some lB.id, parameters := opar.getD T1.parameters } lA lB.id lB.name).id = T2.id) from hT12)] at hc
      rw [if_neg (show ¬ ((applyReplaceT K w { id := T1.id, name := T1.name, type := oty.getD T1.type, source_layer_id := lA.id, target_layer_id := some lB.id, parameters := opar.getD T1.parameters } lA lB.id lB.name).id = T3.id) from hT13)] at hc
      exact absurd (show lA.id = lD.id from hc) hAD
    · rw [if_neg h0] at hc
      by_cases h2 : u0.id = T2.id
      · rw [if_pos h2] at hc
        rw [if_neg (show ¬ ((applyReplaceT K (update_layer_reference (applyReplaceWorld K w { id := T1.id, name := T1.name, type := oty.getD T1.type, source_layer_id := lA.id, target_layer_id := some lB.id, parameters := opar.getD T1.parameters } lA lB.id lB.name) lB.id w.nextId) { id := T2.id, name := T2.name, type := T2.type, source_layer_id := w.nextId, target_layer_id := some lC.id, parameters := T2.parameters } (applyReplaceLayer K w { id := T1.id, name := T1.name, type := oty.getD T1.type, source_layer_id := lA.id, target_layer_id := some lB.id, parameters := opar.getD T1.parameters } lA lB.name) lC.id lC.name).id = T3.id) from hT23)] at hc
        exact absurd (show lD.id = w.nextId from (show w.nextId = lD.id from hc).symm) (Nat.ne_of_lt hDlt)
      · rw [if_neg h2] at hc
        by_cases h3 : u0.id = T3.id
        · rw [if_pos h3] at hc
          exact absurd (show w.nextId + 1 = lD.id from hc) hn1D
        · rw [if_neg h3] at hc
          exact huD u0 hu0 hc
  have hstep3 : propagate_downstream K (m + 1) lD.id (w.nextId + 2) (applyReplaceWorld K (update_layer_reference (applyReplaceWorld K (update_layer_reference (applyReplaceWorld K w { id := T1.id, name := T1.name, type := oty.getD T1.type, source_layer_id := lA.id, target_layer_id := some lB.id, parameters := opar.getD T1.parameters } lA lB.id lB.name) lB.id w.nextId) { id := T2.id, name := T2.name, type := T2.type, source_layer_id := w.nextId, target_layer_id := some lC.id, parameters := T2.parameters } (applyReplaceLayer K w { id := T1.id, name := T1.name, type := oty.getD T1.type, source_layer_id := lA.id, target_layer_id := some lB.id, parameters := opar.getD T1.parameters } lA lB.name) lC.id lC.name) lC.id (w.nextId + 1)) { id := T3.id, name := T3.name, type := T3.type, source_layer_id := w.nextId + 1, target_layer_id := some lD.id, parameters := T3.parameters } (applyReplaceLayer K (update_layer_reference (applyReplaceWorld K w { id := T1.id, name := T1.name, type := oty.getD T1.type, source_layer_id := lA.id, target_layer_id := some lB.id, parameters := opar.getD T1.parameters } lA lB.id lB.name) lB.id w.nextId) { id := T2.id, name := T2.name, type := T2.type, source_layer_id := w.nextId, target_layer_id := some lC.id, parameters := T2.parameters } (applyReplaceLayer K w { id := T1.id, name := T1.name, type := oty.getD T1.type, source_layer_id := lA.id, target_layer_id := some lB.id, parameters := opar.getD T1.parameters } lA lB.name) lC.name) lD.id lD.name) = (update_layer_reference (applyReplaceWorld K (update_layer_reference (applyReplaceWorld K (update_layer_reference (applyReplaceWorld K w { id := T1.id, name := T1.name, type := oty.getD T1.type, source_layer_id := lA.id, target_layer_id := some lB.id, parameters := opar.getD T1.parameters } lA lB.id lB.name) lB.id w.nextId) { id := T2.id, name := T2.name, type := T2.type, source_layer_id := w.nextId, target_layer_id := some lC.id, parameters := T2.parameters } (applyReplaceLayer K w { id := T1.id, name := T1.name, type := oty.getD T1.type, source_layer_id := lA.id, target_layer_id := some lB.id, parameters := opar.getD T1.parameters } lA lB.name) lC.id lC.name) lC.id (w.nextId + 1)) { id := T3.id, name := T3.name, type := T3.type, source_layer_id := w.nextId + 1, target_layer_id := some lD.id, parameters := T3.parameters } (applyReplaceLayer K (update_layer_reference (applyReplaceWorld K w { id := T1.id, name := T1.name, type := oty.getD T1.type, source_layer_id := lA.id, target_layer_id := some lB.id, parameters := opar.getD T1.parameters } lA lB.id lB.name) lB.id w.nextId) { id := T2.id, name := T2.name, type := T2.type, source_layer_id := w.nextId, target_layer_id := some lC.id, parameters := T2.parameters } (applyReplaceLayer K w { id := T1.id, name := T1.name, type := oty.getD T1.type, source_layer_id := lA.id, target_layer_id := some lB.id, parameters := opar.getD T1.parameters } lA lB.name) lC.name) lD.id lD.name) lD.id (w.nextId + 2)) :=
    propagate_empty_level K m lD.id (w.nextId + 2) (applyReplaceWorld K (update_layer_reference (applyReplaceWorld K (update_layer_reference (applyReplaceWorld K w { id := T1.id, name := T1.name, type := oty.getD T1.type, source_layer_id := lA.id, target_layer_id := some lB.id, parameters := opar.getD T1.parameters } lA lB.id lB.name) lB.id w.nextId) { id := T2.id, name := T2.name, type := T2.type, source_layer_id := w.nextId, target_layer_id := some lC.id, parameters := T2.parameters } (applyReplaceLayer K w { id := T1.id, name := T1.name, type := oty.getD T1.type, source_layer_id := lA.id, target_layer_id := some lB.id, parameters := opar.getD T1.parameters } lA lB.name) lC.id lC.name) lC.id (w.nextId + 1)) { id := T3.id, name := T3.name, type := T3.type, source_layer_id := w.nextId + 1, target_layer_id := some lD.id, parameters := T3.parameters } (applyReplaceLayer K (update_layer_reference (applyReplaceWorld K w { id := T1.id, name := T1.name, type := oty.getD T1.type, source_layer_id := lA.id, target_layer_id := some lB.id, parameters := opar.getD T1.parameters } lA lB.id lB.name) lB.id w.nextId) { id := T2.id, name := T2.name, type := T2.type, source_layer_id := w.nextId, target_layer_id := some lC.id, parameters := T2.parameters } (applyReplaceLayer K w { id := T1.id, name := T1.name, type := oty.getD T1.type, source_layer_id := lA.id, target_layer_id := some lB.id, parameters := opar.getD T1.parameters } lA lB.name) lC.name) lD.id lD.name) hempty13
  have hfin : update_transformation K w T1.id none oty opar = (some (applyReplaceT K w { id := T1.id, name := T1.name, type := oty.getD T1.type, source_layer_id := lA.id, target_layer_id := some lB.id, parameters := opar.getD T1.parameters } lA lB.id lB.name), (update_layer_reference (applyReplaceWorld K (update_layer_reference (applyReplaceWorld K (update_layer_reference (applyReplaceWorld K w { id := T1.id, name := T1.name, type := oty.getD T1.type, source_layer_id := lA.id, target_layer_id := some lB.id, parameters := opar.getD T1.parameters } lA lB.id lB.name) lB.id w.nextId) { id := T2.id, name := T2.name, type := T2.type, source_layer_id := w.nextId, target_layer_id := some lC.id, parameters := T2.parameters } (applyReplaceLayer K w { id := T1.id, name := T1.name, type := oty.getD T1.type, source_layer_id := lA.id, target_layer_id := some lB.id, parameters := opar.getD T1.parameters } lA lB.name) lC.id lC.name) lC.id (w.nextId + 1)) { id := T3.id, name := T3.name, type := T3.type, source_layer_id := w.nextId + 1, target_layer_id := some lD.id, parameters := T3.parameters } (applyReplaceLayer K (update_layer_reference (applyReplaceWorld K w { id := T1.id, name := T1.name, type := oty.getD T1.type, source_layer_id := lA.id, target_layer_id := some lB.id, parameters := opar.getD T1.parameters } lA lB.id lB.name) lB.id w.nextId) { id := T2.id, name := T2.name, type := T2.type, source_layer_id := w.nextId, target_layer_id := some lC.id, parameters := T2.parameters } (applyReplaceLayer K w { id := T1.id, name := T1.name, type := oty.getD T1.type, source_layer_id := lA.id, target_layer_id := some lB.id, parameters := opar.getD T1.parameters } lA lB.name) lC.name) lD.id lD.name) lD.id (w.nextId + 2))) := by
    rw [hupd, hlen5, hm, hstep1, hstep2, hstep3]
  have hT4e : (applyReplaceT K w { id := T1.id, name := T1.name, type := oty.getD T1.type, source_layer_id := lA.id, target_layer_id := some lB.id, parameters := opar.getD T1.parameters } lA lB.id lB.name) = ({ id := T1.id, name := T1.name, type := oty.getD T1.type, source_layer_id := lA.id, target_layer_id := some w.nextId, parameters := (dispatchTransform K { id := T1.id, name := T1.name, type := oty.getD T1.type, source_layer_id := lA.id, target_layer_id := some lB.id, parameters := opar.getD T1.parameters } ((pointsOf w lA.id).map (fun p => p.vector))).2 }) := applyReplaceT_eq K w { id := T1.id, name := T1.name, type := oty.getD T1.type, source_layer_id := lA.id, target_layer_id := some lB.id, parameters := opar.getD T1.parameters } lA lB.id lB.name hAB
  have hT2Fe : (applyReplaceT K (update_layer_reference (applyReplaceWorld K w { id := T1.id, name := T1.name, type := oty.getD T1.type, source_layer_id := lA.id, target_layer_id := some lB.id, parameters := opar.getD T1.parameters } lA lB.id lB.name) lB.id w.nextId) { id := T2.id, name := T2.name, type := T2.type, source_layer_id := w.nextId, target_layer_id := some lC.id, parameters := T2.parameters } (applyReplaceLayer K w { id := T1.id, name := T1.name, type := oty.getD T1.type, source_layer_id := lA.id, target_layer_id := some lB.id, parameters := opar.getD T1.parameters } lA lB.name) lC.id lC.name) = ({ id := T2.id, name := T2.name, type := T2.type, source_layer_id := w.nextId, target_layer_id := some (w.nextId + 1), parameters := (dispatchTransform K { id := T2.id, name := T2.name, type := T2.type, source_layer_id := w.nextId, target_layer_id := some lC.id, parameters := T2.parameters } ((stepPts K { id := T1.id, name := T1.name, type := oty.getD T1.type, source_layer_id := lA.id, target_layer_id := some lB.id, parameters := opar.getD T1.parameters } (pointsOf w lA.id)).map (fun p => p.vector))).2 }) := by
    have h := applyReplaceT_eq K (update_layer_reference (applyReplaceWorld K w { id := T1.id, name := T1.name, type := oty.getD T1.type, source_layer_id := lA.id, target_layer_id := some lB.id, parameters := opar.getD T1.parameters } lA lB.id lB.name) lB.id w.nextId) { id := T2.id, name := T2.name, type := T2.type, source_layer_id := w.nextId, target_layer_id := some lC.id, parameters := T2.parameters } (applyReplaceLayer K w { id := T1.id, name := T1.name, type := oty.getD T1.type, source_layer_id := lA.id, target_layer_id := some lB.id, parameters := opar.getD T1.parameters } lA lB.name) lC.id lC.name hLBne
    rw [hptsU5B] at h
    exact h
  have hT3Fe : (applyReplaceT K (update_layer_reference (applyReplaceWorld K (update_layer_reference (applyReplaceWorld K w { id := T1.id, name := T1.name, type := oty.getD T1.type, source_layer_id := lA.id, target_layer_id := some lB.id, parameters := opar.getD T1.parameters } lA lB.id lB.name) lB.id w.nextId) { id := T2.id, name := T2.name, type := T2.type, source_layer_id := w.nextId, target_layer_id := some lC.id, parameters := T2.parameters } (applyReplaceLayer K w { id := T1.id, name := T1.name, type := oty.getD T1.type, source_layer_id := lA.id, target_layer_id := some lB.id, parameters := opar.getD T1.parameters } lA lB.name) lC.id lC.name) lC.id (w.nextId + 1)) { id := T3.id, name := T3.name, type := T3.type, source_layer_id := w.nextId + 1, target_layer_id := some lD.id, parameters := T3.parameters } (applyReplaceLayer K (update_layer_reference (applyReplaceWorld K w { id := T1.id, name := T1.name, type := oty.getD T1.type, source_layer_id := lA.id, target_layer_id := some lB.id, parameters := opar.getD T1.parameters } lA lB.id lB.name) lB.id w.nextId) { id := T2.id, name := T2.name, type := T2.type, source_layer_id := w.nextId, target_layer_id := some lC.id, parameters := T2.parameters } (applyReplaceLayer K w { id := T1.id, name := T1.name, type := oty.getD T1.type, source_layer_id := lA.id, target_layer_id := some lB.id, parameters := opar.getD T1.parameters } lA lB.name) lC.name) lD.id lD.name) = ({ id := T3.id, name := T3.name, type := T3.type, source_layer_id := w.nextId + 1, target_layer_id := some (w.nextId + 2), parameters := (dispatchTransform K { id := T3.id, name := T3.name, type := T3.type, source_layer_id := w.nextId + 1, target_layer_id := some lD.id, parameters := T3.parameters } ((stepPts K { id := T2.id, name := T2.name, type := T2.type, source_layer_id := w.nextId, target_layer_id := some lC.id, parameters := T2.parameters } (stepPts K { id := T1.id, name := T1.name, type := oty.getD T1.type, source_layer_id := lA.id, target_layer_id := some lB.id, parameters := opar.getD T1.parameters } (pointsOf w lA.id))).map (fun p => p.vector))).2 }) := by
    have h := applyReplaceT_eq K (update_layer_reference (applyReplaceWorld K (update_layer_reference (applyReplaceWorld K w { id := T1.id, name := T1.name, type := oty.getD T1.type, source_layer_id := lA.id, target_layer_id := some lB.id, parameters := opar.getD T1.parameters } lA lB.id lB.name) lB.id w.nextId) { id := T2.id, name := T2.name, type := T2.type, source_layer_id := w.nextId, target_layer_id := some lC.id, parameters := T2.parameters } (applyReplaceLayer K w { id := T1.id, name := T1.name, type := oty.getD T1.type, source_layer_id := lA.id, target_layer_id := some lB.id, parameters := opar.getD T1.parameters } lA lB.name) lC.id lC.name) lC.id (w.nextId + 1)) { id := T3.id, name := T3.name, type := T3.type, source_layer_id := w.nextId + 1, target_layer_id := some lD.id, parameters := T3.parameters } (applyReplaceLayer K (update_layer_reference (applyReplaceWorld K w { id := T1.id, name := T1.name, type := oty.getD T1.type, source_layer_id := lA.id, target_layer_id := some lB.id, parameters := opar.getD T1.parameters } lA lB.id lB.name) lB.id w.nextId) { id := T2.id, name := T2.name, type := T2.type, source_layer_id := w.nextId, target_layer_id := some lC.id, parameters := T2.parameters } (applyReplaceLayer K w { id := T1.id, name := T1.name, type := oty.getD T1.type, source_layer_id := lA.id, target_layer_id := some lB.id, parameters := opar.getD T1.parameters } lA lB.name) lC.name) lD.id lD.name hLCne
    rw [hptsU9C] at h
    exact h
  have hLB1e : (applyReplaceLayer K w { id := T1.id, name := T1.name, type := oty.getD T1.type, source_layer_id := lA.id, target_layer_id := some lB.id, parameters := opar.getD T1.parameters } lA lB.name) = ({ id := w.nextId, name := lB.name, description := some ("Result of " ++ (oty.getD T1.type).value ++ " transformation"), dimensionality := ((dispatchTransform K { id := T1.id, name := T1.name, type := oty.getD T1.type, source_layer_id := lA.id, target_layer_id := some lB.id, parameters := opar.getD T1.parameters } ((pointsOf w lA.id).map (fun p => p.vector))).1.head?.getD []).length, point_count := (stepPts K { id := T1.id, name := T1.name, type := oty.getD T1.type, source_layer_id := lA.id, target_layer_id := some lB.id, parameters := opar.getD T1.parameters } (pointsOf w lA.id)).length, is_derived := true, source_transformation_id := some T1.id }) := rfl
  have hLC1e : (applyReplaceLayer K (update_layer_reference (applyReplaceWorld K w { id := T1.id, name := T1.name, type := oty.getD T1.type, source_layer_id := lA.id, target_layer_id := some lB.id, parameters := opar.getD T1.parameters } lA lB.id lB.name) lB.id w.nextId) { id := T2.id, name := T2.name, type := T2.type, source_layer_id := w.nextId, target_layer_id := some lC.id, parameters := T2.parameters } (applyReplaceLayer K w { id := T1.id, name := T1.name, type := oty.getD T1.type, source_layer_id := lA.id, target_layer_id := some lB.id, parameters := opar.getD T1.parameters } lA lB.name) lC.name) = ({ id := w.nextId + 1, name := lC.name, description := some ("Result of " ++ T2.type.value ++ " transformation"), dimensionality := ((dispatchTransform K { id := T2.id, name := T2.name, type := T2.type, source_layer_id := w.nextId, target_layer_id := some lC.id, parameters := T2.parameters } ((stepPts K { id := T1.id, name := T1.name, type := oty.getD T1.type, source_layer_id := lA.id, target_layer_id := some lB.id, parameters := opar.getD T1.parameters } (pointsOf w lA.id)).map (fun p => p.vector))).1.head?.getD []).length, point_count := (stepPts K { id := T2.id, name := T2.name, type := T2.type, source_layer_id := w.nextId, target_layer_id := some lC.id, parameters := T2.parameters } (stepPts K { id := T1.id, name := T1.name, type := oty.getD T1.type, source_layer_id := lA.id, target_layer_id := some lB.id, parameters := opar.getD T1.parameters } (pointsOf w lA.id))).length, is_derived := true, source_transformation_id := some T2.id }) := by
    show ({ id := (update_layer_reference (applyReplaceWorld K w { id := T1.id, name := T1.name, type := oty.getD T1.type, source_layer_id := lA.id, target_layer_id := some lB.id, parameters := opar.getD T1.parameters } lA lB.id lB.name) lB.id w.nextId).nextId, name := lC.name, description := some ("Result of " ++ ({ id := T2.id, name := T2.name, type := T2.type, source_layer_id := w.nextId, target_layer_id := some lC.id, parameters := T2.parameters } : Transformation).type.value ++ " transformation"), dimensionality := ((dispatchTransform K { id := T2.id, name := T2.name, type := T2.type, source_layer_id := w.nextId, target_layer_id := some lC.id, parameters := T2.parameters } ((pointsOf (update_layer_reference (applyReplaceWorld K w { id := T1.id, name := T1.name, type := oty.getD T1.type, source_layer_id := lA.id, target_layer_id := some lB.id, parameters := opar.getD T1.parameters } lA lB.id lB.name) lB.id w.nextId) (applyReplaceLayer K w { id := T1.id, name := T1.name, type := oty.getD T1.type, source_layer_id := lA.id, target_layer_id := some lB.id, parameters := opar.getD T1.parameters } lA lB.name).id).map (fun p => p.vector))).1.head?.getD []).length, point_count := (stepPts K { id := T2.id, name := T2.name, type := T2.type, source_layer_id := w.nextId, target_layer_id := some lC.id, parameters := T2.parameters } (pointsOf (update_layer_reference (applyReplaceWorld K w { id := T1.id, name := T1.name, type := oty.getD T1.type, source_layer_id := lA.id, target_layer_id := some lB.id, parameters := opar.getD T1.parameters } lA lB.id lB.name) lB.id w.nextId) (applyReplaceLayer K w { id := T1.id, name := T1.name, type := oty.getD T1.type, source_layer_id := lA.id, target_layer_id := some lB.id, parameters := opar.getD T1.parameters } lA lB.name).id)).length, is_derived := true, source_transformation_id := some ({ id := T2.id, name := T2.name, type := T2.type, source_layer_id := w.nextId, target_layer_id := some lC.id, parameters := T2.parameters } : Transformation).id } : Layer) = ({ id := w.nextId + 1, name := lC.name, description := some ("Result of " ++ T2.type.value ++ " transformation"), dimensionality := ((dispatchTransform K { id := T2.id, name := T2.name, type := T2.type, source_layer_id := w.nextId, target_layer_id := some lC.id, parameters := T2.parameters } ((stepPts K { id := T1.id, name := T1.name, type := oty.getD T1.type, source_layer_id := lA.id, target_layer_id := some lB.id, parameters := opar.getD T1.parameters } (pointsOf w lA.id)).map (fun p => p.vector))).1.head?.getD []).length, point_count := (stepPts K { id := T2.id, name := T2.name, type := T2.type, source_layer_id := w.nextId, target_layer_id := some lC.id, parameters := T2.parameters } (stepPts K { id := T1.id, name := T1.name, type := oty.getD T1.type, source_layer_id := lA.id, target_layer_id := some lB.id, parameters := opar.getD T1.parameters } (pointsOf w lA.id))).length, is_derived := true, source_transformation_id := some T2.id })
    rw [hptsU5B]
    rfl
  have hLD1e : (applyReplaceLayer K (update_layer_reference (applyReplaceWorld K (update_layer_reference (applyReplaceWorld K w { id := T1.id, name := T1.name, type := oty.getD T1.type, source_layer_id := lA.id, target_layer_id := some lB.id, parameters := opar.getD T1.parameters } lA lB.id lB.name) lB.id w.nextId) { id := T2.id, name := T2.name, type := T2.type, source_layer_id := w.nextId, target_layer_id := some lC.id, parameters := T2.parameters } (applyReplaceLayer K w { id := T1.id, name := T1.name, type := oty.getD T1.type, source_layer_id := lA.id, target_layer_id := some lB.id, parameters := opar.getD T1.parameters } lA lB.name) lC.id lC.name) lC.id (w.nextId + 1)) { id := T3.id, name := T3.name, type := T3.type, source_layer_id := w.nextId + 1, target_layer_id := some lD.id, parameters := T3.parameters } (applyReplaceLayer K (update_layer_reference (applyReplaceWorld K w { id := T1.id, name := T1.name, type := oty.getD T1.type, source_layer_id := lA.id, target_layer_id := some lB.id, parameters := opar.getD T1.parameters } lA lB.id lB.name) lB.id w.nextId) { id := T2.id, name := T2.name, type := T2.type, source_layer_id := w.nextId, target_layer_id := some lC.id, parameters := T2.parameters } (applyReplaceLayer K w { id := T1.id, name := T1.name, type := oty.getD T1.type, source_layer_id := lA.id, target_layer_id := some lB.id, parameters := opar.getD T1.parameters } lA lB.name) lC.name) lD.name) = ({ id := w.nextId + 2, name := lD.name, description := some ("Result of " ++ T3.type.value ++ " transformation"), dimensionality := ((dispatchTransform K { id := T3.id, name := T3.name, type := T3.type, source_layer_id := w.nextId + 1, target_layer_id := some lD.id, parameters := T3.parameters } ((stepPts K { id := T2.id, name := T2.name, type := T2.type, source_layer_id := w.nextId, target_layer_id := some lC.id, parameters := T2.parameters } (stepPts K { id := T1.id, name := T1.name, type := oty.getD T1.type, source_layer_id := lA.id, target_layer_id := some lB.id, parameters := opar.getD T1.parameters } (pointsOf w lA.id))).map (fun p => p.vector))).1.head?.getD []).length, point_count := (stepPts K { id := T3.id, name := T3.name, type := T3.type, source_layer_id := w.nextId + 1, target_layer_id := some lD.id, parameters := T3.parameters } (stepPts K { id := T2.id, name := T2.name, type := T2.type, source_layer_id := w.nextId, target_layer_id := some lC.id, parameters := T2.parameters } (stepPts K { id := T1.id, name := T1.name, type := oty.getD T1.type, source_layer_id := lA.id, target_layer_id := some lB.id, parameters := opar.getD T1.parameters } (pointsOf w lA.id)))).length, is_derived := true, source_transformation_id := some T3.id }) := by
    show ({ id := (update_layer_reference (applyReplaceWorld K (update_layer_reference (applyReplaceWorld K w { id := T1.id, name := T1.name, type := oty.getD T1.type, source_layer_id := lA.id, target_layer_id := some lB.id, parameters := opar.getD T1.parameters } lA lB.id lB.name) lB.id w.nextId) { id := T2.id, name := T2.name, type := T2.type, source_layer_id := w.nextId, target_layer_id := some lC.id, parameters := T2.parameters } (applyReplaceLayer K w { id := T1.id, name := T1.name, type := oty.getD T1.type, source_layer_id := lA.id, target_layer_id := some lB.id, parameters := opar.getD T1.parameters } lA lB.name) lC.id lC.name) lC.id (w.nextId + 1)).nextId, name := lD.name, description := some ("Result of " ++ ({ id := T3.id, name := T3.name, type := T3.type, source_layer_id := w.nextId + 1, target_layer_id := some lD.id, parameters := T3.parameters } : Transformation).type.value ++ " transformation"), dimensionality := ((dispatchTransform K { id := T3.id, name := T3.name, type := T3.type, source_layer_id := w.nextId + 1, target_layer_id := some lD.id, parameters := T3.parameters } ((pointsOf (update_layer_reference (applyReplaceWorld K (update_layer_reference (applyReplaceWorld K w { id := T1.id, name := T1.name, type := oty.getD T1.type, source_layer_id := lA.id, target_layer_id := some lB.id, parameters := opar.getD T1.parameters } lA lB.id lB.name) lB.id w.nextId) { id := T2.id, name := T2.name, type := T2.type, source_layer_id := w.nextId, target_layer_id := some lC.id, parameters := T2.parameters } (applyReplaceLayer K w { id := T1.id, name := T1.name, type := oty.getD T1.type, source_layer_id := lA.id, target_layer_id := some lB.id, parameters := opar.getD T1.parameters } lA lB.name) lC.id lC.name) lC.id (w.nextId + 1)) (applyReplaceLayer K (update_layer_reference (applyReplaceWorld K w { id := T1.id, name := T1.name, type := oty.getD T1.type, source_layer_id := lA.id, target_layer_id := some lB.id, parameters := opar.getD T1.parameters } lA lB.id lB.name) lB.id w.nextId) { id := T2.id, name := T2.name, type := T2.type, source_layer_id := w.nextId, target_layer_id := some lC.id, parameters := T2.parameters } (applyReplaceLayer K w { id := T1.id, name := T1.name, type := oty.getD T1.type, source_layer_id := lA.id, target_layer_id := some lB.id, parameters := opar.getD T1.parameters } lA lB.name) lC.name).id).map (fun p => p.vector))).1.head?.getD []).length, point_count := (stepPts K { id := T3.id, name := T3.name, type := T3.type, source_layer_id := w.nextId + 1, target_layer_id := some lD.id, parameters := T3.parameters } (pointsOf (update_layer_reference (applyReplaceWorld K (update_layer_reference (applyReplaceWorld K w { id := T1.id, name := T1.name, type := oty.getD T1.type, source_layer_id := lA.id, target_layer_id := some lB.id, parameters := opar.getD T1.parameters } lA lB.id lB.name) lB.id w.nextId) { id := T2.id, name := T2.name, type := T2.type, source_layer_id := w.nextId, target_layer_id := some lC.id, parameters := T2.parameters } (applyReplaceLayer K w { id := T1.id, name := T1.name, type := oty.getD T1.type, source_layer_id := lA.id, target_layer_id := some lB.id, parameters := opar.getD T1.parameters } lA lB.name) lC.id lC.name) lC.id (w.nextId + 1)) (applyReplaceLayer K (update_layer_reference (applyReplaceWorld K w { id := T1.id, name := T1.name, type := oty.getD T1.type, source_layer_id := lA.id, target_layer_id := some lB.id, parameters := opar.getD T1.parameters } lA lB.id lB.name) lB.id w.nextId) { id := T2.id, name := T2.name, type := T2.type, source_layer_id := w.nextId, target_layer_id := some lC.id, parameters := T2.parameters } (applyReplaceLayer K w { id := T1.id, name := T1.name, type := oty.getD T1.type, source_layer_id := lA.id, target_layer_id := some lB.id, parameters := opar.getD T1.parameters } lA lB.name) lC.name).id)).length, is_derived := true, source_transformation_id := some ({ id := T3.id, name := T3.name, type := T3.type, source_layer_id := w.nextId + 1, target_layer_id := some lD.id, parameters := T3.parameters } : Transformation).id } : Layer) = ({ id := w.nextId + 2, name := lD.name, description := some ("Result of " ++ T3.type.value ++ " transformation"), dimensionality := ((dispatchTransform K { id := T3.id, name := T3.name, type := T3.type, source_layer_id := w.nextId + 1, target_layer_id := some lD.id, parameters := T3.parameters } ((stepPts K { id := T2.id, name := T2.name, type := T2.type, source_layer_id := w.nextId, target_layer_id := some lC.id, parameters := T2.parameters } (stepPts K { id := T1.id, name := T1.name, type := oty.getD T1.type, source_layer_id := lA.id, target_layer_id := some lB.id, parameters := opar.getD T1.parameters } (pointsOf w lA.id))).map (fun p => p.vector))).1.head?.getD []).length, point_count := (stepPts K { id := T3.id, name := T3.name, type := T3.type, source_layer_id := w.nextId + 1, target_layer_id := some lD.id, parameters := T3.parameters } (stepPts K { id := T2.id, name := T2.name, type := T2.type, source_layer_id := w.nextId, target_layer_id := some lC.id, parameters := T2.parameters } (stepPts K { id := T1.id, name := T1.name, type := oty.getD T1.type, source_layer_id := lA.id, target_layer_id := some lB.id, parameters := opar.getD T1.parameters } (pointsOf w lA.id)))).length, is_derived := true, source_transformation_id := some T3.id })
    rw [hptsU9C]
    rfl
  have hglFIN : ∀ k, k ≠ w.nextId + 2 → k ≠ lD.id → get_layer (update_layer_reference (applyReplaceWorld K (update_layer_reference (applyReplaceWorld K (update_layer_reference (applyReplaceWorld K w { id := T1.id, name := T1.name, type := oty.getD T1.type, source_layer_id := lA.id, target_layer_id := some lB.id, parameters := opar.getD T1.parameters } lA lB.id lB.name) lB.id w.nextId) { id := T2.id, name := T2.name, type := T2.type, source_layer_id := w.nextId, target_layer_id := some lC.id, parameters := T2.parameters } (applyReplaceLayer K w { id := T1.id, name := T1.name, type := oty.getD T1.type, source_layer_id := lA.id, target_layer_id := some lB.id, parameters := opar.getD T1.parameters } lA lB.name) lC.id lC.name) lC.id (w.nextId + 1)) { id := T3.id, name := T3.name, type := T3.type, source_layer_id := w.nextId + 1, target_layer_id := some lD.id, parameters := T3.parameters } (applyReplaceLayer K (update_layer_reference (applyReplaceWorld K w { id := T1.id, name := T1.name, type := oty.getD T1.type, source_layer_id := lA.id, target_layer_id := some lB.id, parameters := opar.getD T1.parameters } lA lB.id lB.name) lB.id w.nextId) { id := T2.id, name := T2.name, type := T2.type, source_layer_id := w.nextId, target_layer_id := some lC.id, parameters := T2.parameters } (applyReplaceLayer K w { id := T1.id, name := T1.name, type := oty.getD T1.type, source_layer_id := lA.id, target_layer_id := some lB.id, parameters := opar.getD T1.parameters } lA lB.name) lC.name) lD.id lD.name) lD.id (w.nextId + 2)) k = get_layer (update_layer_reference (applyReplaceWorld K (update_layer_reference (applyReplaceWorld K w { id := T1.id, name := T1.name, type := oty.getD T1.type, source_layer_id := lA.id, target_layer_id := some lB.id, parameters := opar.getD T1.parameters } lA lB.id lB.name) lB.id w.nextId) { id := T2.id, name := T2.name, type := T2.type, source_layer_id := w.nextId, target_layer_id := some lC.id, parameters := T2.parameters } (applyReplaceLayer K w { id := T1.id, name := T1.name, type := oty.getD T1.type, source_layer_id := lA.id, target_layer_id := some lB.id, parameters := opar.getD T1.parameters } lA lB.name) lC.id lC.name) lC.id (w.nextId + 1)) k := by
    intro k h1 h2
    rw [get_layer_updRef, get_layer_applyReplace K (update_layer_reference (applyReplaceWorld K (update_layer_reference (applyReplaceWorld K w { id := T1.id, name := T1.name, type := oty.getD T1.type, source_layer_id := lA.id, target_layer_id := some lB.id, parameters := opar.getD T1.parameters } lA lB.id lB.name) lB.id w.nextId) { id := T2.id, name := T2.name, type := T2.type, source_layer_id := w.nextId, target_layer_id := some lC.id, parameters := T2.parameters } (applyReplaceLayer K w { id := T1.id, name := T1.name, type := oty.getD T1.type, source_layer_id := lA.id, target_layer_id := some lB.id, parameters := opar.getD T1.parameters } lA lB.name) lC.id lC.name) lC.id (w.nextId + 1)) { id := T3.id, name := T3.name, type := T3.type, source_layer_id := w.nextId + 1, target_layer_id := some lD.id, parameters := T3.parameters } (applyReplaceLayer K (update_layer_reference (applyReplaceWorld K w { id := T1.id, name := T1.name, type := oty.getD T1.type, source_layer_id := lA.id, target_layer_id := some lB.id, parameters := opar.getD T1.parameters } lA lB.id lB.name) lB.id w.nextId) { id := T2.id, name := T2.name, type := T2.type, source_layer_id := w.nextId, target_layer_id := some lC.id, parameters := T2.parameters } (applyReplaceLayer K w { id := T1.id, name := T1.name, type := oty.getD T1.type, source_layer_id := lA.id, target_layer_id := some lB.id, parameters := opar.getD T1.parameters } lA lB.name) lC.name) lD.id lD.name hfLU9 hLCne k]
    rw [if_neg (show ¬ (k = (update_layer_reference (applyReplaceWorld K (update_layer_reference (applyReplaceWorld K w { id := T1.id, name := T1.name, type := oty.getD T1.type, source_layer_id := lA.id, target_layer_id := some lB.id, parameters := opar.getD T1.parameters } lA lB.id lB.name) lB.id w.nextId) { id := T2.id, name := T2.name, type := T2.type, source_layer_id := w.nextId, target_layer_id := some lC.id, parameters := T2.parameters } (applyReplaceLayer K w { id := T1.id, name := T1.name, type := oty.getD T1.type, source_layer_id := lA.id, target_layer_id := some lB.id, parameters := opar.getD T1.parameters } lA lB.name) lC.id lC.name) lC.id (w.nextId + 1)).nextId) from h1), if_neg h2]
  have hptFIN : ∀ k, k ≠ w.nextId + 2 → k ≠ lD.id → pointsOf (update_layer_reference (applyReplaceWorld K (update_layer_reference (applyReplaceWorld K (update_layer_reference (applyReplaceWorld K w { id := T1.id, name := T1.name, type := oty.getD T1.type, source_layer_id := lA.id, target_layer_id := some lB.id, parameters := opar.getD T1.parameters } lA lB.id lB.name) lB.id w.nextId) { id := T2.id, name := T2.name, type := T2.type, source_layer_id := w.nextId, target_layer_id := some lC.id, parameters := T2.parameters } (applyReplaceLayer K w { id := T1.id, name := T1.name, type := oty.getD T1.type, source_layer_id := lA.id, target_layer_id := some lB.id, parameters := opar.getD T1.parameters } lA lB.name) lC.id lC.name) lC.id (w.nextId + 1)) { id := T3.id, name := T3.name, type := T3.type, source_layer_id := w.nextId + 1, target_layer_id := some lD.id, parameters := T3.parameters } (applyReplaceLayer K (update_layer_reference (applyReplaceWorld K w { id := T1.id, name := T1.name, type := oty.getD T1.type, source_layer_id := lA.id, target_layer_id := some lB.id, parameters := opar.getD T1.parameters } lA lB.id lB.name) lB.id w.nextId) { id := T2.id, name := T2.name, type := T2.type, source_layer_id := w.nextId, target_layer_id := some lC.id, parameters := T2.parameters } (applyReplaceLayer K w { id := T1.id, name := T1.name, type := oty.getD T1.type, source_layer_id := lA.id, target_layer_id := some lB.id, parameters := opar.getD T1.parameters } lA lB.name) lC.name) lD.id lD.name) lD.id (w.nextId + 2)) k = pointsOf (update_layer_reference (applyReplaceWorld K (update_layer_reference (applyReplaceWorld K w { id := T1.id, name := T1.name, type := oty.getD T1.type, source_layer_id := lA.id, target_layer_id := some lB.id, parameters := opar.getD T1.parameters } lA lB.id lB.name) lB.id w.nextId) { id := T2.id, name := T2.name, type := T2.type, source_layer_id := w.nextId, target_layer_id := some lC.id, parameters := T2.parameters } (applyReplaceLayer K w { id := T1.id, name := T1.name, type := oty.getD T1.type, source_layer_id := lA.id, target_layer_id := some lB.id, parameters := opar.getD T1.parameters } lA lB.name) lC.id lC.name) lC.id (w.nextId + 1)) k := by
    intro k h1 h2
    rw [pointsOf_updRef, pointsOf_applyReplace K (update_layer_reference (applyReplaceWorld K (update_layer_reference (applyReplaceWorld K w { id := T1.id, name := T1.name, type := oty.getD T1.type, source_layer_id := lA.id, target_layer_id := some lB.id, parameters := opar.getD T1.parameters } lA lB.id lB.name) lB.id w.nextId) { id := T2.id, name := T2.name, type := T2.type, source_layer_id := w.nextId, target_layer_id := some lC.id, parameters := T2.parameters } (applyReplaceLayer K w { id := T1.id, name := T1.name, type := oty.getD T1.type, source_layer_id := lA.id, target_layer_id := some lB.id, parameters := opar.getD T1.parameters } lA lB.name) lC.id lC.name) lC.id (w.nextId + 1)) { id := T3.id, name := T3.name, type := T3.type, source_layer_id := w.nextId + 1, target_layer_id := some lD.id, parameters := T3.parameters } (applyReplaceLayer K (update_layer_reference (applyReplaceWorld K w { id := T1.id, name := T1.name, type := oty.getD T1.type, source_layer_id := lA.id, target_layer_id := some lB.id, parameters := opar.getD T1.parameters } lA lB.id lB.name) lB.id w.nextId) { id := T2.id, name := T2.name, type := T2.type, source_layer_id := w.nextId, target_layer_id := some lC.id, parameters := T2.parameters } (applyReplaceLayer K w { id := T1.id, name := T1.name, type := oty.getD T1.type, source_layer_id := lA.id, target_layer_id := some lB.id, parameters := opar.getD T1.parameters } lA lB.name) lC.name) lD.id lD.name hfPU9 hLCne k]
    rw [if_neg (show ¬ (k = (update_layer_reference (applyReplaceWorld K (update_layer_reference (applyReplaceWorld K w { id := T1.id, name := T1.name, type := oty.getD T1.type, source_layer_id := lA.id, target_layer_id := some lB.id, parameters := opar.getD T1.parameters } lA lB.id lB.name) lB.id w.nextId) { id := T2.id, name := T2.name, type := T2.type, source_layer_id := w.nextId, target_layer_id := some lC.id, parameters := T2.parameters } (applyReplaceLayer K w { id := T1.id, name := T1.name, type := oty.getD T1.type, source_layer_id := lA.id, target_layer_id := some lB.id, parameters := opar.getD T1.parameters } lA lB.name) lC.id lC.name) lC.id (w.nextId + 1)).nextId) from h1), if_neg h2]
  have hglD13 : get_layer (update_layer_reference (applyReplaceWorld K (update_layer_reference (applyReplaceWorld K (update_layer_reference (applyReplaceWorld K w { id := T1.id, name := T1.name, type := oty.getD T1.type, source_layer_id := lA.id, target_layer_id := some lB.id, parameters := opar.getD T1.parameters } lA lB.id lB.name) lB.id w.nextId) { id := T2.id, name := T2.name, type := T2.type, source_layer_id := w.nextId, target_layer_id := some lC.id, parameters := T2.parameters } (applyReplaceLayer K w { id := T1.id, name := T1.name, type := oty.getD T1.type, source_layer_id := lA.id, target_layer_id := some lB.id, parameters := opar.getD T1.parameters } lA lB.name) lC.id lC.name) lC.id (w.nextId + 1)) { id := T3.id, name := T3.name, type := T3.type, source_layer_id := w.nextId + 1, target_layer_id := some lD.id, parameters := T3.parameters } (applyReplaceLayer K (update_layer_reference (applyReplaceWorld K w { id := T1.id, name := T1.name, type := oty.getD T1.type, source_layer_id := lA.id, target_layer_id := some lB.id, parameters := opar.getD T1.parameters } lA lB.id lB.name) lB.id w.nextId) { id := T2.id, name := T2.name, type := T2.type, source_layer_id := w.nextId, target_layer_id := some lC.id, parameters := T2.parameters } (applyReplaceLayer K w { id := T1.id, name := T1.name, type := oty.getD T1.type, source_layer_id := lA.id, target_layer_id := some lB.id, parameters := opar.getD T1.parameters } lA lB.name) lC.name) lD.id lD.name) lD.id (w.nextId + 2)) (w.nextId + 2) = some (applyReplaceLayer K (update_layer_reference (applyReplaceWorld K (update_layer_reference (applyReplaceWorld K w { id := T1.id, name := T1.name, type := oty.getD T1.type, source_layer_id := lA.id, target_layer_id := some lB.id, parameters := opar.getD T1.parameters } lA lB.id lB.name) lB.id w.nextId) { id := T2.id, name := T2.name, type := T2.type, source_layer_id := w.nextId, target_layer_id := some lC.id, parameters := T2.parameters } (applyReplaceLayer K w { id := T1.id, name := T1.name, type := oty.getD T1.type, source_layer_id := lA.id, target_layer_id := some lB.id, parameters := opar.getD T1.parameters } lA lB.name) lC.id lC.name) lC.id (w.nextId + 1)) { id := T3.id, name := T3.name, type := T3.type, source_layer_id := w.nextId + 1, target_layer_id := some lD.id, parameters := T3.parameters } (applyReplaceLayer K (update_layer_reference (applyReplaceWorld K w { id := T1.id, name := T1.name, type := oty.getD T1.type, source_layer_id := lA.id, target_layer_id := some lB.id, parameters := opar.getD T1.parameters } lA lB.id lB.name) lB.id w.nextId) { id := T2.id, name := T2.name, type := T2.type, source_layer_id := w.nextId, target_layer_id := some lC.id, parameters := T2.parameters } (applyReplaceLayer K w { id := T1.id, name := T1.name, type := oty.getD T1.type, source_layer_id := lA.id, target_layer_id := some lB.id, parameters := opar.getD T1.parameters } lA lB.name) lC.name) lD.name) := by
    rw [get_layer_updRef, get_layer_applyReplace K (update_layer_reference (applyReplaceWorld K (update_layer_reference (applyReplaceWorld K w { id := T1.id, name := T1.name, type := oty.getD T1.type, source_layer_id := lA.id, target_layer_id := some lB.id, parameters := opar.getD T1.parameters } lA lB.id lB.name) lB.id w.nextId) { id := T2.id, name := T2.name, type := T2.type, source_layer_id := w.nextId, target_layer_id := some lC.id, parameters := T2.parameters } (applyReplaceLayer K w { id := T1.id, name := T1.name, type := oty.getD T1.type, source_layer_id := lA.id, target_layer_id := some lB.id, parameters := opar.getD T1.parameters } lA lB.name) lC.id lC.name) lC.id (w.nextId + 1)) { id := T3.id, name := T3.name, type := T3.type, source_layer_id := w.nextId + 1, target_layer_id := some lD.id, parameters := T3.parameters } (applyReplaceLayer K (update_layer_reference (applyReplaceWorld K w { id := T1.id, name := T1.name, type := oty.getD T1.type, source_layer_id := lA.id, target_layer_id := some lB.id, parameters := opar.getD T1.parameters } lA lB.id lB.name) lB.id w.nextId) { id := T2.id, name := T2.name, type := T2.type, source_layer_id := w.nextId, target_layer_id := some lC.id, parameters := T2.parameters } (applyReplaceLayer K w { id := T1.id, name := T1.name, type := oty.getD T1.type, source_layer_id := lA.id, target_layer_id := some lB.id, parameters := opar.getD T1.parameters } lA lB.name) lC.name) lD.id lD.name hfLU9 hLCne (w.nextId + 2)]
    rw [if_pos (show w.nextId + 2 = (update_layer_reference (applyReplaceWorld K (update_layer_reference (applyReplaceWorld K w { id := T1.id, name := T1.name, type := oty.getD T1.type, source_layer_id := lA.id, target_layer_id := some lB.id, parameters := opar.getD T1.parameters } lA lB.id lB.name) lB.id w.nextId) { id := T2.id, name := T2.name, type := T2.type, source_layer_id := w.nextId, target_layer_id := some lC.id, parameters := T2.parameters } (applyReplaceLayer K w { id := T1.id, name := T1.name, type := oty.getD T1.type, source_layer_id := lA.id, target_layer_id := some lB.id, parameters := opar.getD T1.parameters } lA lB.name) lC.id lC.name) lC.id (w.nextId + 1)).nextId from rfl)]
  have hpts13 : pointsOf (update_layer_reference (applyReplaceWorld K (update_layer_reference (applyReplaceWorld K (update_layer_reference (applyReplaceWorld K w { id := T1.id, name := T1.name, type := oty.getD T1.type, source_layer_id := lA.id, target_layer_id := some lB.id, parameters := opar.getD T1.parameters } lA lB.id lB.name) lB.id w.nextId) { id := T2.id, name := T2.name, type := T2.type, source_layer_id := w.nextId, target_layer_id := some lC.id, parameters := T2.parameters } (applyReplaceLayer K w { id := T1.id, name := T1.name, type := oty.getD T1.type, source_layer_id := lA.id, target_layer_id := some lB.id, parameters := opar.getD T1.parameters } lA lB.name) lC.id lC.name) lC.id (w.nextId + 1)) { id := T3.id, name := T3.name, type := T3.type, source_layer_id := w.nextId + 1, target_layer_id := some lD.id, parameters := T3.parameters } (applyReplaceLayer K (update_layer_reference (applyReplaceWorld K w { id := T1.id, name := T1.name, type := oty.getD T1.type, source_layer_id := lA.id, target_layer_id := some lB.id, parameters := opar.getD T1.parameters } lA lB.id lB.name) lB.id w.nextId) { id := T2.id, name := T2.name, type := T2.type, source_layer_id := w.nextId, target_layer_id := some lC.id, parameters := T2.parameters } (applyReplaceLayer K w { id := T1.id, name := T1.name, type := oty.getD T1.type, source_layer_id := lA.id, target_layer_id := some lB.id, parameters := opar.getD T1.parameters } lA lB.name) lC.name) lD.id lD.name) lD.id (w.nextId + 2)) (w.nextId + 2) = (stepPts K { id := T3.id, name := T3.name, type := T3.type, source_layer_id := w.nextId + 1, target_layer_id := some lD.id, parameters := T3.parameters } (stepPts K { id := T2.id, name := T2.name, type := T2.type, source_layer_id := w.nextId, target_layer_id := some lC.id, parameters := T2.parameters } (stepPts K { id := T1.id, name := T1.name, type := oty.getD T1.type, source_layer_id := lA.id, target_layer_id := some lB.id, parameters := opar.getD T1.parameters } (pointsOf w lA.id)))) := by
    rw [pointsOf_updRef, pointsOf_applyReplace K (update_layer_reference (applyReplaceWorld K (update_layer_reference (applyReplaceWorld K w { id := T1.id, name := T1.name, type := oty.getD T1.type, source_layer_id := lA.id, target_layer_id := some lB.id, parameters := opar.getD T1.parameters } lA lB.id lB.name) lB.id w.nextId) { id := T2.id, name := T2.name, type := T2.type, source_layer_id := w.nextId, target_layer_id := some lC.id, parameters := T2.parameters } (applyReplaceLayer K w { id := T1.id, name := T1.name, type := oty.getD T1.type, source_layer_id := lA.id, target_layer_id := some lB.id, parameters := opar.getD T1.parameters } lA lB.name) lC.id lC.name) lC.id (w.nextId + 1)) { id := T3.id, name := T3.name, type := T3.type, source_layer_id := w.nextId + 1, target_layer_id := some lD.id, parameters := T3.parameters } (applyReplaceLayer K (update_layer_reference (applyReplaceWorld K w { id := T1.id, name := T1.name, type := oty.getD T1.type, source_layer_id := lA.id, target_layer_id := some lB.id, parameters := opar.getD T1.parameters } lA lB.id lB.name) lB.id w.nextId) { id := T2.id, name := T2.name, type := T2.type, source_layer_id := w.nextId, target_layer_id := some lC.id, parameters := T2.parameters } (applyReplaceLayer K w { id := T1.id, name := T1.name, type := oty.getD T1.type, source_layer_id := lA.id, target_layer_id := some lB.id, parameters := opar.getD T1.parameters } lA lB.name) lC.name) lD.id lD.name hfPU9 hLCne (w.nextId + 2)]
    rw [if_pos (show w.nextId + 2 = (update_layer_reference (applyReplaceWorld K (update_layer_reference (applyReplaceWorld K w { id := T1.id, name := T1.name, type := oty.getD T1.type, source_layer_id := lA.id, target_layer_id := some lB.id, parameters := opar.getD T1.parameters } lA lB.id lB.name) lB.id w.nextId) { id := T2.id, name := T2.name, type := T2.type, source_layer_id := w.nextId, target_layer_id := some lC.id, parameters := T2.parameters } (applyReplaceLayer K w { id := T1.id, name := T1.name, type := oty.getD T1.type, source_layer_id := lA.id, target_layer_id := some lB.id, parameters := opar.getD T1.parameters } lA lB.name) lC.id lC.name) lC.id (w.nextId + 1)).nextId from rfl), hptsU9C]
  have hcache : ∀ k, getCached (update_layer_reference (applyReplaceWorld K (update_layer_reference (applyReplaceWorld K (update_layer_reference (applyReplaceWorld K w { id := T1.id, name := T1.name, type := oty.getD T1.type, source_layer_id := lA.id, target_layer_id := some lB.id, parameters := opar.getD T1.parameters } lA lB.id lB.name) lB.id w.nextId) { id := T2.id, name := T2.name, type := T2.type, source_layer_id := w.nextId, target_layer_id := some lC.id, parameters := T2.parameters } (applyReplaceLayer K w { id := T1.id, name := T1.name, type := oty.getD T1.type, source_layer_id := lA.id, target_layer_id := some lB.id, parameters := opar.getD T1.parameters } lA lB.name) lC.id lC.name) lC.id (w.nextId + 1)) { id := T3.id, name := T3.name, type := T3.type, source_layer_id := w.nextId + 1, target_layer_id := some lD.id, parameters := T3.parameters } (applyReplaceLayer K (update_layer_reference (applyReplaceWorld K w { id := T1.id, name := T1.name, type := oty.getD T1.type, source_layer_id := lA.id, target_layer_id := some lB.id, parameters := opar.getD T1.parameters } lA lB.id lB.name) lB.id w.nextId) { id := T2.id, name := T2.name, type := T2.type, source_layer_id := w.nextId, target_layer_id := some lC.id, parameters := T2.parameters } (applyReplaceLayer K w { id := T1.id, name := T1.name, type := oty.getD T1.type, source_layer_id := lA.id, target_layer_id := some lB.id, parameters := opar.getD T1.parameters } lA lB.name) lC.name) lD.id lD.name) lD.id (w.nextId + 2)) k = (if k ∈ ((((applyReplaceWorld K (update_layer_reference (applyReplaceWorld K (update_layer_reference (applyReplaceWorld K w { id := T1.id, name := T1.name, type := oty.getD T1.type, source_layer_id := lA.id, target_layer_id := some lB.id, parameters := opar.getD T1.parameters } lA lB.id lB.name) lB.id w.nextId) { id := T2.id, name := T2.name, type := T2.type, source_layer_id := w.nextId, target_layer_id := some lC.id, parameters := T2.parameters } (applyReplaceLayer K w { id := T1.id, name := T1.name, type := oty.getD T1.type, source_layer_id := lA.id, target_layer_id := some lB.id, parameters := opar.getD T1.parameters } lA lB.name) lC.id lC.name) lC.id (w.nextId + 1)) { id := T3.id, name := T3.name, type := T3.type, source_layer_id := w.nextId + 1, target_layer_id := some lD.id, parameters := T3.parameters } (applyReplaceLayer K (update_layer_reference (applyReplaceWorld K w { id := T1.id, name := T1.name, type := oty.getD T1.type, source_layer_id := lA.id, target_layer_id := some lB.id, parameters := opar.getD T1.parameters } lA lB.id lB.name) lB.id w.nextId) { id := T2.id, name := T2.name, type := T2.type, source_layer_id := w.nextId, target_layer_id := some lC.id, parameters := T2.parameters } (applyReplaceLayer K w { id := T1.id, name := T1.name, type := oty.getD T1.type, source_layer_id := lA.id, target_layer_id := some lB.id, parameters := opar.getD T1.parameters } lA lB.name) lC.name) lD.id lD.name)).projections.filter (fun q => q.layer_id = lD.id)).map (fun q => q.id)) then none else if k ∈ ((((applyReplaceWorld K (update_layer_reference (applyReplaceWorld K w { id := T1.id, name := T1.name, type := oty.getD T1.type, source_layer_id := lA.id, target_layer_id := some lB.id, parameters := opar.getD T1.parameters } lA lB.id lB.name) lB.id w.nextId) { id := T2.id, name := T2.name, type := T2.type, source_layer_id := w.nextId, target_layer_id := some lC.id, parameters := T2.parameters } (applyReplaceLayer K w { id := T1.id, name := T1.name, type := oty.getD T1.type, source_layer_id := lA.id, target_layer_id := some lB.id, parameters := opar.getD T1.parameters } lA lB.name) lC.id lC.name)).projections.filter (fun q => q.layer_id = lC.id)).map (fun q => q.id)) then none else if k ∈ ((((applyReplaceWorld K w { id := T1.id, name := T1.name, type := oty.getD T1.type, source_layer_id := lA.id, target_layer_id := some lB.id, parameters := opar.getD T1.parameters } lA lB.id lB.name)).projections.filter (fun q => q.layer_id = lB.id)).map (fun q => q.id)) then none else getCached w k) := by
    intro k
    rw [getCached_updRef, getCached_applyReplace, getCached_updRef, getCached_applyReplace, getCached_updRef, getCached_applyReplace]
  refine ⟨?_, ?_, ⟨?_, ?_⟩, ⟨?_, ?_⟩, ⟨?_, ?_⟩, ⟨?_, ?_, ?_⟩, ?_, ?_, ?_, ⟨?_, ?_, ?_⟩⟩
  · rw [hfin]
    exact congrArg some hT4e
  · rw [hfin]
    show (applyReplaceWorld K (update_layer_reference (applyReplaceWorld K (update_layer_reference (applyReplaceWorld K w { id := T1.id, name := T1.name, type := oty.getD T1.type, source_layer_id := lA.id, target_layer_id := some lB.id, parameters := opar.getD T1.parameters } lA lB.id lB.name) lB.id w.nextId) { id := T2.id, name := T2.name, type := T2.type, source_layer_id := w.nextId, target_layer_id := some lC.id, parameters := T2.parameters } (applyReplaceLayer K w { id := T1.id, name := T1.name, type := oty.getD T1.type, source_layer_id := lA.id, target_layer_id := some lB.id, parameters := opar.getD T1.parameters } lA lB.name) lC.id lC.name) lC.id (w.nextId + 1)) { id := T3.id, name := T3.name, type := T3.type, source_layer_id := w.nextId + 1, target_layer_id := some lD.id, parameters := T3.parameters } (applyReplaceLayer K (update_layer_reference (applyReplaceWorld K w { id := T1.id, name := T1.name, type := oty.getD T1.type, source_layer_id := lA.id, target_layer_id := some lB.id, parameters := opar.getD T1.parameters } lA lB.id lB.name) lB.id w.nextId) { id := T2.id, name := T2.name, type := T2.type, source_layer_id := w.nextId, target_layer_id := some lC.id, parameters := T2.parameters } (applyReplaceLayer K w { id := T1.id, name := T1.name, type := oty.getD T1.type, source_layer_id := lA.id, target_layer_id := some lB.id, parameters := opar.getD T1.parameters } lA lB.name) lC.name) lD.id lD.name).transformations = _
    rw [hW13T, List.map_map, List.map_map]
    refine List.map_congr_left ?_
    intro u hu
    show ((if ((if ((if u.id = T1.id then (applyReplaceT K w { id := T1.id, name := T1.name, type := oty.getD T1.type, source_layer_id := lA.id, target_layer_id := some lB.id, parameters := opar.getD T1.parameters } lA lB.id lB.name) else u)).id = T2.id then (applyReplaceT K (update_layer_reference (applyReplaceWorld K w { id := T1.id, name := T1.name, type := oty.getD T1.type, source_layer_id := lA.id, target_layer_id := some lB.id, parameters := opar.getD T1.parameters } lA lB.id lB.name) lB.id w.nextId) { id := T2.id, name := T2.name, type := T2.type, source_layer_id := w.nextId, target_layer_id := some lC.id, parameters := T2.parameters } (applyReplaceLayer K w { id := T1.id, name := T1.name, type := oty.getD T1.type, source_layer_id := lA.id, target_layer_id := some lB.id, parameters := opar.getD T1.parameters } lA lB.name) lC.id lC.name) else (if u.id = T1.id then (applyReplaceT K w { id := T1.id, name := T1.name, type := oty.getD T1.type, source_layer_id := lA.id, target_layer_id := some lB.id, parameters := opar.getD T1.parameters } lA lB.id lB.name) else u))).id = T3.id then (applyReplaceT K (update_layer_reference (applyReplaceWorld K (update_layer_reference (applyReplaceWorld K w { id := T1.id, name := T1.name, type := oty.getD T1.type, source_layer_id := lA.id, target_layer_id := some lB.id, parameters := opar.getD T1.parameters } lA lB.id lB.name) lB.id w.nextId) { id := T2.id, name := T2.name, type := T2.type, source_layer_id := w.nextId, target_layer_id := some lC.id, parameters := T2.parameters } (applyReplaceLayer K w { id := T1.id, name := T1.name, type := oty.getD T1.type, source_layer_id := lA.id, target_layer_id := some lB.id, parameters := opar.getD T1.parameters } lA lB.name) lC.id lC.name) lC.id (w.nextId + 1)) { id := T3.id, name := T3.name, type := T3.type, source_layer_id := w.nextId + 1, target_layer_id := some lD.id, parameters := T3.parameters } (applyReplaceLayer K (update_layer_reference (applyReplaceWorld K w { id := T1.id, name := T1.name, type := oty.getD T1.type, source_layer_id := lA.id, target_layer_id := some lB.id, parameters := opar.getD T1.parameters } lA lB.id lB.name) lB.id w.nextId) { id := T2.id, name := T2.name, type := T2.type, source_layer_id := w.nextId, target_layer_id := some lC.id, parameters := T2.parameters } (applyReplaceLayer K w { id := T1.id, name := T1.name, type := oty.getD T1.type, source_layer_id := lA.id, target_layer_id := some lB.id, parameters := opar.getD T1.parameters } lA lB.name) lC.name) lD.id lD.name) else (if ((if u.id = T1.id then (applyReplaceT K w { id := T1.id, name := T1.name, type := oty.getD T1.type, source_layer_id := lA.id, target_layer_id := some lB.id, parameters := opar.getD T1.parameters } lA lB.id lB.name) else u)).id = T2.id then (applyReplaceT K (update_layer_reference (applyReplaceWorld K w { id := T1.id, name := T1.name, type := oty.getD T1.type, source_layer_id := lA.id, target_layer_id := some lB.id, parameters := opar.getD T1.parameters } lA lB.id lB.name) lB.id w.nextId) { id := T2.id, name := T2.name, type := T2.type, source_layer_id := w.nextId, target_layer_id := some lC.id, parameters := T2.parameters } (applyReplaceLayer K w { id := T1.id, name := T1.name, type := oty.getD T1.type, source_layer_id := lA.id, target_layer_id := some lB.id, parameters := opar.getD T1.parameters } lA lB.name) lC.id lC.name) else (if u.id = T1.id then (applyReplaceT K w { id := T1.id, name := T1.name, type := oty.getD T1.type, source_layer_id := lA.id, target_layer_id := some lB.id, parameters := opar.getD T1.parameters } lA lB.id lB.name) else u)))) = (if u.id = T1.id then ({ id := T1.id, name := T1.name, type := oty.getD T1.type, source_layer_id := lA.id, target_layer_id := some w.nextId, parameters := (dispatchTransform K { id := T1.id, name := T1.name, type := oty.getD T1.type, source_layer_id := lA.id, target_layer_id := some lB.id, parameters := opar.getD T1.parameters } ((pointsOf w lA.id).map (fun p => p.vector))).2 }) else if u.id = T2.id then ({ id := T2.id, name := T2.name, type := T2.type, source_layer_id := w.nextId, target_layer_id := some (w.nextId + 1), parameters := (dispatchTransform K { id := T2.id, name := T2.name, type := T2.type, source_layer_id := w.nextId, target_layer_id := some lC.id, parameters := T2.parameters } ((stepPts K { id := T1.id, name := T1.name, type := oty.getD T1.type, source_layer_id := lA.id, target_layer_id := some lB.id, parameters := opar.getD T1.parameters } (pointsOf w lA.id)).map (fun p => p.vector))).2 }) else if u.id = T3.id then ({ id := T3.id, name := T3.name, type := T3.type, source_layer_id := w.nextId + 1, target_layer_id := some (w.nextId + 2), parameters := (dispatchTransform K { id := T3.id, name := T3.name, type := T3.type, source_layer_id := w.nextId + 1, target_layer_id := some lD.id, parameters := T3.parameters } ((stepPts K { id := T2.id, name := T2.name, type := T2.type, source_layer_id := w.nextId, target_layer_id := some lC.id, parameters := T2.parameters } (stepPts K { id := T1.id, name := T1.name, type := oty.getD T1.type, source_layer_id := lA.id, target_layer_id := some lB.id, parameters := opar.getD T1.parameters } (pointsOf w lA.id))).map (fun p => p.vector))).2 }) else u)
    by_cases h1 : u.id = T1.id
    · have e1 : ((if u.id = T1.id then (applyReplaceT K w { id := T1.id, name := T1.name, type := oty.getD T1.type, source_layer_id := lA.id, target_layer_id := some lB.id, parameters := opar.getD T1.parameters } lA lB.id lB.name) else u)) = (applyReplaceT K w { id := T1.id, name := T1.name, type := oty.getD T1.type, source_layer_id := lA.id, target_layer_id := some lB.id, parameters := opar.getD T1.parameters } lA lB.id lB.name) := if_pos h1
      rw [e1, if_neg (show ¬ ((applyReplaceT K w { id := T1.id, name := T1.name, type := oty.getD T1.type, source_layer_id := lA.id, target_layer_id := some lB.id, parameters := opar.getD T1.parameters } lA lB.id lB.name).id = T2.id) from hT12), if_neg (show ¬ ((applyReplaceT K w { id := T1.id, name := T1.name, type := oty.getD T1.type, source_layer_id := lA.id, target_layer_id := some lB.id, parameters := opar.getD T1.parameters } lA lB.id lB.name).id = T3.id) from hT13), if_pos h1]
      exact hT4e
    · have e1 : ((if u.id = T1.id then (applyReplaceT K w { id := T1.id, name := T1.name, type := oty.getD T1.type, source_layer_id := lA.id, target_layer_id := some lB.id, parameters := opar.getD T1.parameters } lA lB.id lB.name) else u)) = u := if_neg h1
      rw [e1, if_neg h1]
      by_cases h2 : u.id = T2.id
      · have e2 : (if u.id = T2.id then (applyReplaceT K (update_layer_reference (applyReplaceWorld K w { id := T1.id, name := T1.name, type := oty.getD T1.type, source_layer_id := lA.id, target_layer_id := some lB.id, parameters := opar.getD T1.parameters } lA lB.id lB.name) lB.id w.nextId) { id := T2.id, name := T2.name, type := T2.type, source_layer_id := w.nextId, target_layer_id := some lC.id, parameters := T2.parameters } (applyReplaceLayer K w { id := T1.id, name := T1.name, type := oty.getD T1.type, source_layer_id := lA.id, target_layer_id := some lB.id, parameters := opar.getD T1.parameters } lA lB.name) lC.id lC.name) else u) = (applyReplaceT K (update_layer_reference (applyReplaceWorld K w { id := T1.id, name := T1.name, type := oty.getD T1.type, source_layer_id := lA.id, target_layer_id := some lB.id, parameters := opar.getD T1.parameters } lA lB.id lB.name) lB.id w.nextId) { id := T2.id, name := T2.name, type := T2.type, source_layer_id := w.nextId, target_layer_id := some lC.id, parameters := T2.parameters } (applyReplaceLayer K w { id := T1.id, name := T1.name, type := oty.getD T1.type, source_layer_id := lA.id, target_layer_id := some lB.id, parameters := opar.getD T1.parameters } lA lB.name) lC.id lC.name) := if_pos h2
        rw [e2, if_neg (show ¬ ((applyReplaceT K (update_layer_reference (applyReplaceWorld K w { id := T1.id, name := T1.name, type := oty.getD T1.type, source_layer_id := lA.id, target_layer_id := some lB.id, parameters := opar.getD T1.parameters } lA lB.id lB.name) lB.id w.nextId) { id := T2.id, name := T2.name, type := T2.type, source_layer_id := w.nextId, target_layer_id := some lC.id, parameters := T2.parameters } (applyReplaceLayer K w { id := T1.id, name := T1.name, type := oty.getD T1.type, source_layer_id := lA.id, target_layer_id := some lB.id, parameters := opar.getD T1.parameters } lA lB.name) lC.id lC.name).id = T3.id) from hT23), if_pos h2]
        exact hT2Fe
      · have e2 : (if u.id = T2.id then (applyReplaceT K (update_layer_reference (applyReplaceWorld K w { id := T1.id, name := T1.name, type := oty.getD T1.type, source_layer_id := lA.id, target_layer_id := some lB.id, parameters := opar.getD T1.parameters } lA lB.id lB.name) lB.id w.nextId) { id := T2.id, name := T2.name, type := T2.type, source_layer_id := w.nextId, target_layer_id := some lC.id, parameters := T2.parameters } (applyReplaceLayer K w { id := T1.id, name := T1.name, type := oty.getD T1.type, source_layer_id := lA.id, target_layer_id := some lB.id, parameters := opar.getD T1.parameters } lA lB.name) lC.id lC.name) else u) = u := if_neg h2
        rw [e2, if_neg h2]
        by_cases h3 : u.id = T3.id
        · have e3 : (if u.id = T3.id then (applyReplaceT K (update_layer_reference (applyReplaceWorld K (update_layer_reference (applyReplaceWorld K w { id := T1.id, name := T1.name, type := oty.getD T1.type, source_layer_id := lA.id, target_layer_id := some lB.id, parameters := opar.getD T1.parameters } lA lB.id lB.name) lB.id w.nextId) { id := T2.id, name := T2.name, type := T2.type, source_layer_id := w.nextId, target_layer_id := some lC.id, parameters := T2.parameters } (applyReplaceLayer K w { id := T1.id, name := T1.name, type := oty.getD T1.type, source_layer_id := lA.id, target_layer_id := some lB.id, parameters := opar.getD T1.parameters } lA lB.name) lC.id lC.name) lC.id (w.nextId + 1)) { id := T3.id, name := T3.name, type := T3.type, source_layer_id := w.nextId + 1, target_layer_id := some lD.id, parameters := T3.parameters } (applyReplaceLayer K (update_layer_reference (applyReplaceWorld K w { id := T1.id, name := T1.name, type := oty.getD T1.type, source_layer_id := lA.id, target_layer_id := some lB.id, parameters := opar.getD T1.parameters } lA lB.id lB.name) lB.id w.nextId) { id := T2.id, name := T2.name, type := T2.type, source_layer_id := w.nextId, target_layer_id := some lC.id, parameters := T2.parameters } (applyReplaceLayer K w { id := T1.id, name := T1.name, type := oty.getD T1.type, source_layer_id := lA.id, target_layer_id := some lB.id, parameters := opar.getD T1.parameters } lA lB.name) lC.name) lD.id lD.name) else u) = (applyReplaceT K (update_layer_reference (applyReplaceWorld K (update_layer_reference (applyReplaceWorld K w { id := T1.id, name := T1.name, type := oty.getD T1.type, source_layer_id := lA.id, target_layer_id := some lB.id, parameters := opar.getD T1.parameters } lA lB.id lB.name) lB.id w.nextId) { id := T2.id, name := T2.name, type := T2.type, source_layer_id := w.nextId, target_layer_id := some lC.id, parameters := T2.parameters } (applyReplaceLayer K w { id := T1.id, name := T1.name, type := oty.getD T1.type, source_layer_id := lA.id, target_layer_id := some lB.id, parameters := opar.getD T1.parameters } lA lB.name) lC.id lC.name) lC.id (w.nextId + 1)) { id := T3.id, name := T3.name, type := T3.type, source_layer_id := w.nextId + 1, target_layer_id := some lD.id, parameters := T3.parameters } (applyReplaceLayer K (update_layer_reference (applyReplaceWorld K w { id := T1.id, name := T1.name, type := oty.getD T1.type, source_layer_id := lA.id, target_layer_id := some lB.id, parameters := opar.getD T1.parameters } lA lB.id lB.name) lB.id w.nextId) { id := T2.id, name := T2.name, type := T2.type, source_layer_id := w.nextId, target_layer_id := some lC.id, parameters := T2.parameters } (applyReplaceLayer K w { id := T1.id, name := T1.name, type := oty.getD T1.type, source_layer_id := lA.id, target_layer_id := some lB.id, parameters := opar.getD T1.parameters } lA lB.name) lC.name) lD.id lD.name) := if_pos h3
          have e3r : (if u.id = T3.id then ({ id := T3.id, name := T3.name, type := T3.type, source_layer_id := w.nextId + 1, target_layer_id := some (w.nextId + 2), parameters := (dispatchTransform K { id := T3.id, name := T3.name, type := T3.type, source_layer_id := w.nextId + 1, target_layer_id := some lD.id, parameters := T3.parameters } ((stepPts K { id := T2.id, name := T2.name, type := T2.type, source_layer_id := w.nextId, target_layer_id := some lC.id, parameters := T2.parameters } (stepPts K { id := T1.id, name := T1.name, type := oty.getD T1.type, source_layer_id := lA.id, target_layer_id := some lB.id, parameters := opar.getD T1.parameters } (pointsOf w lA.id))).map (fun p => p.vector))).2 }) else u) = ({ id := T3.id, name := T3.name, type := T3.type, source_layer_id := w.nextId + 1, target_layer_id := some (w.nextId + 2), parameters := (dispatchTransform K { id := T3.id, name := T3.name, type := T3.type, source_layer_id := w.nextId + 1, target_layer_id := some lD.id, parameters := T3.parameters } ((stepPts K { id := T2.id, name := T2.name, type := T2.type, source_layer_id := w.nextId, target_layer_id := some lC.id, parameters := T2.parameters } (stepPts K { id := T1.id, name := T1.name, type := oty.getD T1.type, source_layer_id := lA.id, target_layer_id := some lB.id, parameters := opar.getD T1.parameters } (pointsOf w lA.id))).map (fun p => p.vector))).2 }) := if_pos h3
          rw [e3, e3r]
          exact hT3Fe
        · have e3 : (if u.id = T3.id then (applyReplaceT K (update_layer_reference (applyReplaceWorld K (update_layer_reference (applyReplaceWorld K w { id := T1.id, name := T1.name, type := oty.getD T1.type, source_layer_id := lA.id, target_layer_id := some lB.id, parameters := opar.getD T1.parameters } lA lB.id lB.name) lB.id w.nextId) { id := T2.id, name := T2.name, type := T2.type, source_layer_id := w.nextId, target_layer_id := some lC.id, parameters := T2.parameters } (applyReplaceLayer K w { id := T1.id, name := T1.name, type := oty.getD T1.type, source_layer_id := lA.id, target_layer_id := some lB.id, parameters := opar.getD T1.parameters } lA lB.name) lC.id lC.name) lC.id (w.nextId + 1)) { id := T3.id, name := T3.name, type := T3.type, source_layer_id := w.nextId + 1, target_layer_id := some lD.id, parameters := T3.parameters } (applyReplaceLayer K (update_layer_reference (applyReplaceWorld K w { id := T1.id, name := T1.name, type := oty.getD T1.type, source_layer_id := lA.id, target_layer_id := some lB.id, parameters := opar.getD T1.parameters } lA lB.id lB.name) lB.id w.nextId) { id := T2.id, name := T2.name, type := T2.type, source_layer_id := w.nextId, target_layer_id := some lC.id, parameters := T2.parameters } (applyReplaceLayer K w { id := T1.id, name := T1.name, type := oty.getD T1.type, source_layer_id := lA.id, target_layer_id := some lB.id, parameters := opar.getD T1.parameters } lA lB.name) lC.name) lD.id lD.name) else u) = u := if_neg h3
          have e3r : (if u.id = T3.id then ({ id := T3.id, name := T3.name, type := T3.type, source_layer_id := w.nextId + 1, target_layer_id := some (w.nextId + 2), parameters := (dispatchTransform K { id := T3.id, name := T3.name, type := T3.type, source_layer_id := w.nextId + 1, target_layer_id := some lD.id, parameters := T3.parameters } ((stepPts K { id := T2.id, name := T2.name, type := T2.type, source_layer_id := w.nextId, target_layer_id := some lC.id, parameters := T2.parameters } (stepPts K { id := T1.id, name := T1.name, type := oty.getD T1.type, source_layer_id := lA.id, target_layer_id := some lB.id, parameters := opar.getD T1.parameters } (pointsOf w lA.id))).map (fun p => p.vector))).2 }) else u) = u := if_neg h3
          rw [e3, e3r]
  · rw [hfin]
    show get_layer (update_layer_reference (applyReplaceWorld K (update_layer_reference (applyReplaceWorld K (update_layer_reference (applyReplaceWorld K w { id := T1.id, name := T1.name, type := oty.getD T1.type, source_layer_id := lA.id, target_layer_id := some lB.id, parameters := opar.getD T1.parameters } lA lB.id lB.name) lB.id w.nextId) { id := T2.id, name := T2.name, type := T2.type, source_layer_id := w.nextId, target_layer_id := some lC.id, parameters := T2.parameters } (applyReplaceLayer K w { id := T1.id, name := T1.name, type := oty.getD T1.type, source_layer_id := lA.id, target_layer_id := some lB.id, parameters := opar.getD T1.parameters } lA lB.name) lC.id lC.name) lC.id (w.nextId + 1)) { id := T3.id, name := T3.name, type := T3.type, source_layer_id := w.nextId + 1, target_layer_id := some lD.id, parameters := T3.parameters } (applyReplaceLayer K (update_layer_reference (applyReplaceWorld K w { id := T1.id, name := T1.name, type := oty.getD T1.type, source_layer_id := lA.id, target_layer_id := some lB.id, parameters := opar.getD T1.parameters } lA lB.id lB.name) lB.id w.nextId) { id := T2.id, name := T2.name, type := T2.type, source_layer_id := w.nextId, target_layer_id := some lC.id, parameters := T2.parameters } (applyReplaceLayer K w { id := T1.id, name := T1.name, type := oty.getD T1.type, source_layer_id := lA.id, target_layer_id := some lB.id, parameters := opar.getD T1.parameters } lA lB.name) lC.name) lD.id lD.name) lD.id (w.nextId + 2)) w.nextId = some ({ id := w.nextId, name := lB.name, description := some ("Result of " ++ (oty.getD T1.type).value ++ " transformation"), dimensionality := ((dispatchTransform K { id := T1.id, name := T1.name, type := oty.getD T1.type, source_layer_id := lA.id, target_layer_id := some lB.id, parameters := opar.getD T1.parameters } ((pointsOf w lA.id).map (fun p => p.vector))).1.head?.getD []).length, point_count := (stepPts K { id := T1.id, name := T1.name, type := oty.getD T1.type, source_layer_id := lA.id, target_layer_id := some lB.id, parameters := opar.getD T1.parameters } (pointsOf w lA.id)).length, is_derived := true, source_transformation_id := some T1.id })
    rw [hglFIN w.nextId hn02 hnD, get_layer_updRef, hgl9 w.nextId hn01 hnC, get_layer_updRef, hglB5]
    exact congrArg some hLB1e
  · rw [hfin]
    show pointsOf (update_layer_reference (applyReplaceWorld K (update_layer_reference (applyReplaceWorld K (update_layer_reference (applyReplaceWorld K w { id := T1.id, name := T1.name, type := oty.getD T1.type, source_layer_id := lA.id, target_layer_id := some lB.id, parameters := opar.getD T1.parameters } lA lB.id lB.name) lB.id w.nextId) { id := T2.id, name := T2.name, type := T2.type, source_layer_id := w.nextId, target_layer_id := some lC.id, parameters := T2.parameters } (applyReplaceLayer K w { id := T1.id, name := T1.name, type := oty.getD T1.type, source_layer_id := lA.id, target_layer_id := some lB.id, parameters := opar.getD T1.parameters } lA lB.name) lC.id lC.name) lC.id (w.nextId + 1)) { id := T3.id, name := T3.name, type := T3.type, source_layer_id := w.nextId + 1, target_layer_id := some lD.id, parameters := T3.parameters } (applyReplaceLayer K (update_layer_reference (applyReplaceWorld K w { id := T1.id, name := T1.name, type := oty.getD T1.type, source_layer_id := lA.id, target_layer_id := some lB.id, parameters := opar.getD T1.parameters } lA lB.id lB.name) lB.id w.nextId) { id := T2.id, name := T2.name, type := T2.type, source_layer_id := w.nextId, target_layer_id := some lC.id, parameters := T2.parameters } (applyReplaceLayer K w { id := T1.id, name := T1.name, type := oty.getD T1.type, source_layer_id := lA.id, target_layer_id := some lB.id, parameters := opar.getD T1.parameters } lA lB.name) lC.name) lD.id lD.name) lD.id (w.nextId + 2)) w.nextId = (stepPts K { id := T1.id, name := T1.name, type := oty.getD T1.type, source_layer_id := lA.id, target_layer_id := some lB.id, parameters := opar.getD T1.parameters } (pointsOf w lA.id))
    rw [hptFIN w.nextId hn02 hnD, pointsOf_updRef, hpt9 w.nextId hn01 hnC, pointsOf_updRef]
    exact hpts5
  · rw [hfin]
    show get_layer (update_layer_reference (applyReplaceWorld K (update_layer_reference (applyReplaceWorld K (update_layer_reference (applyReplaceWorld K w { id := T1.id, name := T1.name, type := oty.getD T1.type, source_layer_id := lA.id, target_layer_id := some lB.id, parameters := opar.getD T1.parameters } lA lB.id lB.name) lB.id w.nextId) { id := T2.id, name := T2.name, type := T2.type, source_layer_id := w.nextId, target_layer_id := some lC.id, parameters := T2.parameters } (applyReplaceLayer K w { id := T1.id, name := T1.name, type := oty.getD T1.type, source_layer_id := lA.id, target_layer_id := some lB.id, parameters := opar.getD T1.parameters } lA lB.name) lC.id lC.name) lC.id (w.nextId + 1)) { id := T3.id, name := T3.name, type := T3.type, source_layer_id := w.nextId + 1, target_layer_id := some lD.id, parameters := T3.parameters } (applyReplaceLayer K (update_layer_reference (applyReplaceWorld K w { id := T1.id, name := T1.name, type := oty.getD T1.type, source_layer_id := lA.id, target_layer_id := some lB.id, parameters := opar.getD T1.parameters } lA lB.id lB.name) lB.id w.nextId) { id := T2.id, name := T2.name, type := T2.type, source_layer_id := w.nextId, target_layer_id := some lC.id, parameters := T2.parameters } (applyReplaceLayer K w { id := T1.id, name := T1.name, type := oty.getD T1.type, source_layer_id := lA.id, target_layer_id := some lB.id, parameters := opar.getD T1.parameters } lA lB.name) lC.name) lD.id lD.name) lD.id (w.nextId + 2)) (w.nextId + 1) = some ({ id := w.nextId + 1, name := lC.name, description := some ("Result of " ++ T2.type.value ++ " transformation"), dimensionality := ((dispatchTransform K { id := T2.id, name := T2.name, type := T2.type, source_layer_id := w.nextId, target_layer_id := some lC.id, parameters := T2.parameters } ((stepPts K { id := T1.id, name := T1.name, type := oty.getD T1.type, source_layer_id := lA.id, target_layer_id := some lB.id, parameters := opar.getD T1.parameters } (pointsOf w lA.id)).map (fun p => p.vector))).1.head?.getD []).length, point_count := (stepPts K { id := T2.id, name := T2.name, type := T2.type, source_layer_id := w.nextId, target_layer_id := some lC.id, parameters := T2.parameters } (stepPts K { id := T1.id, name := T1.name, type := oty.getD T1.type, source_layer_id := lA.id, target_layer_id := some lB.id, parameters := opar.getD T1.parameters } (pointsOf w lA.id))).length, is_derived := true, source_transformation_id := some T2.id })
    rw [hglFIN (w.nextId + 1) hn12 hn1D, get_layer_updRef, hglC9new]
    exact congrArg some hLC1e
  · rw [hfin]
    show pointsOf (update_layer_reference (applyReplaceWorld K (update_layer_reference (applyReplaceWorld K (update_layer_reference (applyReplaceWorld K w { id := T1.id, name := T1.name, type := oty.getD T1.type, source_layer_id := lA.id, target_layer_id := some lB.id, parameters := opar.getD T1.parameters } lA lB.id lB.name) lB.id w.nextId) { id := T2.id, name := T2.name, type := T2.type, source_layer_id := w.nextId, target_layer_id := some lC.id, parameters := T2.parameters } (applyReplaceLayer K w { id := T1.id, name := T1.name, type := oty.getD T1.type, source_layer_id := lA.id, target_layer_id := some lB.id, parameters := opar.getD T1.parameters } lA lB.name) lC.id lC.name) lC.id (w.nextId + 1)) { id := T3.id, name := T3.name, type := T3.type, source_layer_id := w.nextId + 1, target_layer_id := some lD.id, parameters := T3.parameters } (applyReplaceLayer K (update_layer_reference (applyReplaceWorld K w { id := T1.id, name := T1.name, type := oty.getD T1.type, source_layer_id := lA.id, target_layer_id := some lB.id, parameters := opar.getD T1.parameters } lA lB.id lB.name) lB.id w.nextId) { id := T2.id, name := T2.name, type := T2.type, source_layer_id := w.nextId, target_layer_id := some lC.id, parameters := T2.parameters } (applyReplaceLayer K w { id := T1.id, name := T1.name, type := oty.getD T1.type, source_layer_id := lA.id, target_layer_id := some lB.id, parameters := opar.getD T1.parameters } lA lB.name) lC.name) lD.id lD.name) lD.id (w.nextId + 2)) (w.nextId + 1) = (stepPts K { id := T2.id, name := T2.name, type := T2.type, source_layer_id := w.nextId, target_layer_id := some lC.id, parameters := T2.parameters } (stepPts K { id := T1.id, name := T1.name, type := oty.getD T1.type, source_layer_id := lA.id, target_layer_id := some lB.id, parameters := opar.getD T1.parameters } (pointsOf w lA.id)))
    rw [hptFIN (w.nextId + 1) hn12 hn1D, pointsOf_updRef]
    exact hpts9
  · rw [hfin]
    show get_layer (update_layer_reference (applyReplaceWorld K (update_layer_reference (applyReplaceWorld K (update_layer_reference (applyReplaceWorld K w { id := T1.id, name := T1.name, type := oty.getD T1.type, source_layer_id := lA.id, target_layer_id := some lB.id, parameters := opar.getD T1.parameters } lA lB.id lB.name) lB.id w.nextId) { id := T2.id, name := T2.name, type := T2.type, source_layer_id := w.nextId, target_layer_id := some lC.id, parameters := T2.parameters } (applyReplaceLayer K w { id := T1.id, name := T1.name, type := oty.getD T1.type, source_layer_id := lA.id, target_layer_id := some lB.id, parameters := opar.getD T1.parameters } lA lB.name) lC.id lC.name) lC.id (w.nextId + 1)) { id := T3.id, name := T3.name, type := T3.type, source_layer_id := w.nextId + 1, target_layer_id := some lD.id, parameters := T3.parameters } (applyReplaceLayer K (update_layer_reference (applyReplaceWorld K w { id := T1.id, name := T1.name, type := oty.getD T1.type, source_layer_id := lA.id, target_layer_id := some lB.id, parameters := opar.getD T1.parameters } lA lB.id lB.name) lB.id w.nextId) { id := T2.id, name := T2.name, type := T2.type, source_layer_id := w.nextId, target_layer_id := some lC.id, parameters := T2.parameters } (applyReplaceLayer K w { id := T1.id, name := T1.name, type := oty.getD T1.type, source_layer_id := lA.id, target_layer_id := some lB.id, parameters := opar.getD T1.parameters } lA lB.name) lC.name) lD.id lD.name) lD.id (w.nextId + 2)) (w.nextId + 2) = some ({ id := w.nextId + 2, name := lD.name, description := some ("Result of " ++ T3.type.value ++ " transformation"), dimensionality := ((dispatchTransform K { id := T3.id, name := T3.name, type := T3.type, source_layer_id := w.nextId + 1, target_layer_id := some lD.id, parameters := T3.parameters } ((stepPts K { id := T2.id, name := T2.name, type := T2.type, source_layer_id := w.nextId, target_layer_id := some lC.id, parameters := T2.parameters } (stepPts K { id := T1.id, name := T1.name, type := oty.getD T1.type, source_layer_id := lA.id, target_layer_id := some lB.id, parameters := opar.getD T1.parameters } (pointsOf w lA.id))).map (fun p => p.vector))).1.head?.getD []).length, point_count := (stepPts K { id := T3.id, name := T3.name, type := T3.type, source_layer_id := w.nextId + 1, target_layer_id := some lD.id, parameters := T3.parameters } (stepPts K { id := T2.id, name := T2.name, type := T2.type, source_layer_id := w.nextId, target_layer_id := some lC.id, parameters := T2.parameters } (stepPts K { id := T1.id, name := T1.name, type := oty.getD T1.type, source_layer_id := lA.id, target_layer_id := some lB.id, parameters := opar.getD T1.parameters } (pointsOf w lA.id)))).length, is_derived := true, source_transformation_id := some T3.id })
    rw [hglD13]
    exact congrArg some hLD1e
  · rw [hfin]
    show pointsOf (update_layer_reference (applyReplaceWorld K (update_layer_reference (applyReplaceWorld K (update_layer_reference (applyReplaceWorld K w { id := T1.id, name := T1.name, type := oty.getD T1.type, source_layer_id := lA.id, target_layer_id := some lB.id, parameters := opar.getD T1.parameters } lA lB.id lB.name) lB.id w.nextId) { id := T2.id, name := T2.name, type := T2.type, source_layer_id := w.nextId, target_layer_id := some lC.id, parameters := T2.parameters } (applyReplaceLayer K w { id := T1.id, name := T1.name, type := oty.getD T1.type, source_layer_id := lA.id, target_layer_id := some lB.id, parameters := opar.getD T1.parameters } lA lB.name) lC.id lC.name) lC.id (w.nextId + 1)) { id := T3.id, name := T3.name, type := T3.type, source_layer_id := w.nextId + 1, target_layer_id := some lD.id, parameters := T3.parameters } (applyReplaceLayer K (update_layer_reference (applyReplaceWorld K w { id := T1.id, name := T1.name, type := oty.getD T1.type, source_layer_id := lA.id, target_layer_id := some lB.id, parameters := opar.getD T1.parameters } lA lB.id lB.name) lB.id w.nextId) { id := T2.id, name := T2.name, type := T2.type, source_layer_id := w.nextId, target_layer_id := some lC.id, parameters := T2.parameters } (applyReplaceLayer K w { id := T1.id, name := T1.name, type := oty.getD T1.type, source_layer_id := lA.id, target_layer_id := some lB.id, parameters := opar.getD T1.parameters } lA lB.name) lC.name) lD.id lD.name) lD.id (w.nextId + 2)) (w.nextId + 2) = (stepPts K { id := T3.id, name := T3.name, type := T3.type, source_layer_id := w.nextId + 1, target_layer_id := some lD.id, parameters := T3.parameters } (stepPts K { id := T2.id, name := T2.name, type := T2.type, source_layer_id := w.nextId, target_layer_id := some lC.id, parameters := T2.parameters } (stepPts K { id := T1.id, name := T1.name, type := oty.getD T1.type, source_layer_id := lA.id, target_layer_id := some lB.id, parameters := opar.getD T1.parameters } (pointsOf w lA.id))))
    exact hpts13
  · rw [hfin]
    show get_layer (update_layer_reference (applyReplaceWorld K (update_layer_reference (applyReplaceWorld K (update_layer_reference (applyReplaceWorld K w { id := T1.id, name := T1.name, type := oty.getD T1.type, source_layer_id := lA.id, target_layer_id := some lB.id, parameters := opar.getD T1.parameters } lA lB.id lB.name) lB.id w.nextId) { id := T2.id, name := T2.name, type := T2.type, source_layer_id := w.nextId, target_layer_id := some lC.id, parameters := T2.parameters } (applyReplaceLayer K w { id := T1.id, name := T1.name, type := oty.getD T1.type, source_layer_id := lA.id, target_layer_id := some lB.id, parameters := opar.getD T1.parameters } lA lB.name) lC.id lC.name) lC.id (w.nextId + 1)) { id := T3.id, name := T3.name, type := T3.type, source_layer_id := w.nextId + 1, target_layer_id := some lD.id, parameters := T3.parameters } (applyReplaceLayer K (update_layer_reference (applyReplaceWorld K w { id := T1.id, name := T1.name, type := oty.getD T1.type, source_layer_id := lA.id, target_layer_id := some lB.id, parameters := opar.getD T1.parameters } lA lB.id lB.name) lB.id w.nextId) { id := T2.id, name := T2.name, type := T2.type, source_layer_id := w.nextId, target_layer_id := some lC.id, parameters := T2.parameters } (applyReplaceLayer K w { id := T1.id, name := T1.name, type := oty.getD T1.type, source_layer_id := lA.id, target_layer_id := some lB.id, parameters := opar.getD T1.parameters } lA lB.name) lC.name) lD.id lD.name) lD.id (w.nextId + 2)) lB.id = none
    rw [hglFIN lB.id hlB2 hBD, get_layer_updRef, hgl9 lB.id hlB1 hBC, get_layer_updRef]
    rw [get_layer_applyReplace K w { id := T1.id, name := T1.name, type := oty.getD T1.type, source_layer_id := lA.id, target_layer_id := some lB.id, parameters := opar.getD T1.parameters } lA lB.id lB.name hfL hAB lB.id, if_neg hlB0, if_pos rfl]
  · rw [hfin]
    show get_layer (update_layer_reference (applyReplaceWorld K (update_layer_reference (applyReplaceWorld K (update_layer_reference (applyReplaceWorld K w { id := T1.id, name := T1.name, type := oty.getD T1.type, source_layer_id := lA.id, target_layer_id := some lB.id, parameters := opar.getD T1.parameters } lA lB.id lB.name) lB.id w.nextId) { id := T2.id, name := T2.name, type := T2.type, source_layer_id := w.nextId, target_layer_id := some lC.id, parameters := T2.parameters } (applyReplaceLayer K w { id := T1.id, name := T1.name, type := oty.getD T1.type, source_layer_id := lA.id, target_layer_id := some lB.id, parameters := opar.getD T1.parameters } lA lB.name) lC.id lC.name) lC.id (w.nextId + 1)) { id := T3.id, name := T3.name, type := T3.type, source_layer_id := w.nextId + 1, target_layer_id := some lD.id, parameters := T3.parameters } (applyReplaceLayer K (update_layer_reference (applyReplaceWorld K w { id := T1.id, name := T1.name, type := oty.getD T1.type, source_layer_id := lA.id, target_layer_id := some lB.id, parameters := opar.getD T1.parameters } lA lB.id lB.name) lB.id w.nextId) { id := T2.id, name := T2.name, type := T2.type, source_layer_id := w.nextId, target_layer_id := some lC.id, parameters := T2.parameters } (applyReplaceLayer K w { id := T1.id, name := T1.name, type := oty.getD T1.type, source_layer_id := lA.id, target_layer_id := some lB.id, parameters := opar.getD T1.parameters } lA lB.name) lC.name) lD.id lD.name) lD.id (w.nextId + 2)) lC.id = none
    rw [hglFIN lC.id hlC2 hCD, get_layer_updRef]
    rw [get_layer_applyReplace K (update_layer_reference (applyReplaceWorld K w { id := T1.id, name := T1.name, type := oty.getD T1.type, source_layer_id := lA.id, target_layer_id := some lB.id, parameters := opar.getD T1.parameters } lA lB.id lB.name) lB.id w.nextId) { id := T2.id, name := T2.name, type := T2.type, source_layer_id := w.nextId, target_layer_id := some lC.id, parameters := T2.parameters } (applyReplaceLayer K w { id := T1.id, name := T1.name, type := oty.getD T1.type, source_layer_id := lA.id, target_layer_id := some lB.id, parameters := opar.getD T1.parameters } lA lB.name) lC.id lC.name hfLU5 hLBne lC.id]
    rw [if_neg (show ¬ (lC.id = (update_layer_reference (applyReplaceWorld K w { id := T1.id, name := T1.name, type := oty.getD T1.type, source_layer_id := lA.id, target_layer_id := some lB.id, parameters := opar.getD T1.parameters } lA lB.id lB.name) lB.id w.nextId).nextId) from hlC1), if_pos rfl]
  · rw [hfin]
    show get_layer (update_layer_reference (applyReplaceWorld K (update_layer_reference (applyReplaceWorld K (update_layer_reference (applyReplaceWorld K w { id := T1.id, name := T1.name, type := oty.getD T1.type, source_layer_id := lA.id, target_layer_id := some lB.id, parameters := opar.getD T1.parameters } lA lB.id lB.name) lB.id w.nextId) { id := T2.id, name := T2.name, type := T2.type, source_layer_id := w.nextId, target_layer_id := some lC.id, parameters := T2.parameters } (applyReplaceLayer K w { id := T1.id, name := T1.name, type := oty.getD T1.type, source_layer_id := lA.id, target_layer_id := some lB.id, parameters := opar.getD T1.parameters } lA lB.name) lC.id lC.name) lC.id (w.nextId + 1)) { id := T3.id, name := T3.name, type := T3.type, source_layer_id := w.nextId + 1, target_layer_id := some lD.id, parameters := T3.parameters } (applyReplaceLayer K (update_layer_reference (applyReplaceWorld K w { id := T1.id, name := T1.name, type := oty.getD T1.type, source_layer_id := lA.id, target_layer_id := some lB.id, parameters := opar.getD T1.parameters } lA lB.id lB.name) lB.id w.nextId) { id := T2.id, name := T2.name, type := T2.type, source_layer_id := w.nextId, target_layer_id := some lC.id, parameters := T2.parameters } (applyReplaceLayer K w { id := T1.id, name := T1.name, type := oty.getD T1.type, source_layer_id := lA.id, target_layer_id := some lB.id, parameters := opar.getD T1.parameters } lA lB.name) lC.name) lD.id lD.name) lD.id (w.nextId + 2)) lD.id = none
    rw [get_layer_updRef]
    rw [get_layer_applyReplace K (update_layer_reference (applyReplaceWorld K (update_layer_reference (applyReplaceWorld K w { id := T1.id, name := T1.name, type := oty.getD T1.type, source_layer_id := lA.id, target_layer_id := some lB.id, parameters := opar.getD T1.parameters } lA lB.id lB.name) lB.id w.nextId) { id := T2.id, name := T2.name, type := T2.type, source_layer_id := w.nextId, target_layer_id := some lC.id, parameters := T2.parameters } (applyReplaceLayer K w { id := T1.id, name := T1.name, type := oty.getD T1.type, source_layer_id := lA.id, target_layer_id := some lB.id, parameters := opar.getD T1.parameters } lA lB.name) lC.id lC.name) lC.id (w.nextId + 1)) { id := T3.id, name := T3.name, type := T3.type, source_layer_id := w.nextId + 1, target_layer_id := some lD.id, parameters := T3.parameters } (applyReplaceLayer K (update_layer_reference (applyReplaceWorld K w { id := T1.id, name := T1.name, type := oty.getD T1.type, source_layer_id := lA.id, target_layer_id := some lB.id, parameters := opar.getD T1.parameters } lA lB.id lB.name) lB.id w.nextId) { id := T2.id, name := T2.name, type := T2.type, source_layer_id := w.nextId, target_layer_id := some lC.id, parameters := T2.parameters } (applyReplaceLayer K w { id := T1.id, name := T1.name, type := oty.getD T1.type, source_layer_id := lA.id, target_layer_id := some lB.id, parameters := opar.getD T1.parameters } lA lB.name) lC.name) lD.id lD.name hfLU9 hLCne lD.id]
    rw [if_neg (show ¬ (lD.id = (update_layer_reference (applyReplaceWorld K (update_layer_reference (applyReplaceWorld K w { id := T1.id, name := T1.name, type := oty.getD T1.type, source_layer_id := lA.id, target_layer_id := some lB.id, parameters := opar.getD T1.parameters } lA lB.id lB.name) lB.id w.nextId) { id := T2.id, name := T2.name, type := T2.type, source_layer_id := w.nextId, target_layer_id := some lC.id, parameters := T2.parameters } (applyReplaceLayer K w { id := T1.id, name := T1.name, type := oty.getD T1.type, source_layer_id := lA.id, target_layer_id := some lB.id, parameters := opar.getD T1.parameters } lA lB.name) lC.id lC.name) lC.id (w.nextId + 1)).nextId) from hlD2), if_pos rfl]
  · intro l hl h1 h2 h3
    rw [hfin]
    have hllt : l.id < w.nextId := hfL l hl
    have ha : l.id ≠ w.nextId + 2 := by omega
    have hb : l.id ≠ w.nextId + 1 := by omega
    have hc0 : l.id ≠ w.nextId := by omega
    refine ⟨?_, ?_⟩
    · show get_layer (update_layer_reference (applyReplaceWorld K (update_layer_reference (applyReplaceWorld K (update_layer_reference (applyReplaceWorld K w { id := T1.id, name := T1.name, type := oty.getD T1.type, source_layer_id := lA.id, target_layer_id := some lB.id, parameters := opar.getD T1.parameters } lA lB.id lB.name) lB.id w.nextId) { id := T2.id, name := T2.name, type := T2.type, source_layer_id := w.nextId, target_layer_id := some lC.id, parameters := T2.parameters } (applyReplaceLayer K w { id := T1.id, name := T1.name, type := oty.getD T1.type, source_layer_id := lA.id, target_layer_id := some lB.id, parameters := opar.getD T1.parameters } lA lB.name) lC.id lC.name) lC.id (w.nextId + 1)) { id := T3.id, name := T3.name, type := T3.type, source_layer_id := w.nextId + 1, target_layer_id := some lD.id, parameters := T3.parameters } (applyReplaceLayer K (update_layer_reference (applyReplaceWorld K w { id := T1.id, name := T1.name, type := oty.getD T1.type, source_layer_id := lA.id, target_layer_id := some lB.id, parameters := opar.getD T1.parameters } lA lB.id lB.name) lB.id w.nextId) { id := T2.id, name := T2.name, type := T2.type, source_layer_id := w.nextId, target_layer_id := some lC.id, parameters := T2.parameters } (applyReplaceLayer K w { id := T1.id, name := T1.name, type := oty.getD T1.type, source_layer_id := lA.id, target_layer_id := some lB.id, parameters := opar.getD T1.parameters } lA lB.name) lC.name) lD.id lD.name) lD.id (w.nextId + 2)) l.id = some l
      rw [hglFIN l.id ha h3, get_layer_updRef, hgl9 l.id hb h2, get_layer_updRef, hgl5 l.id hc0 h1]
      exact find?_key_eq Layer.id w.layers l hndL hl
    · show pointsOf (update_layer_reference (applyReplaceWorld K (update_layer_reference (applyReplaceWorld K (update_layer_reference (applyReplaceWorld K w { id := T1.id, name := T1.name, type := oty.getD T1.type, source_layer_id := lA.id, target_layer_id := some lB.id, parameters := opar.getD T1.parameters } lA lB.id lB.name) lB.id w.nextId) { id := T2.id, name := T2.name, type := T2.type, source_layer_id := w.nextId, target_layer_id := some lC.id, parameters := T2.parameters } (applyReplaceLayer K w { id := T1.id, name := T1.name, type := oty.getD T1.type, source_layer_id := lA.id, target_layer_id := some lB.id, parameters := opar.getD T1.parameters } lA lB.name) lC.id lC.name) lC.id (w.nextId + 1)) { id := T3.id, name := T3.name, type := T3.type, source_layer_id := w.nextId + 1, target_layer_id := some lD.id, parameters := T3.parameters } (applyReplaceLayer K (update_layer_reference (applyReplaceWorld K w { id := T1.id, name := T1.name, type := oty.getD T1.type, source_layer_id := lA.id, target_layer_id := some lB.id, parameters := opar.getD T1.parameters } lA lB.id lB.name) lB.id w.nextId) { id := T2.id, name := T2.name, type := T2.type, source_layer_id := w.nextId, target_layer_id := some lC.id, parameters := T2.parameters } (applyReplaceLayer K w { id := T1.id, name := T1.name, type := oty.getD T1.type, source_layer_id := lA.id, target_layer_id := some lB.id, parameters := opar.getD T1.parameters } lA lB.name) lC.name) lD.id lD.name) lD.id (w.nextId + 2)) l.id = pointsOf w l.id
      rw [hptFIN l.id ha h3, pointsOf_updRef, hpt9 l.id hb h2, pointsOf_updRef, hpt5 l.id hc0 h1]
  · rw [hfin]
    show ((w.projections.map (fun q => if q.layer_id = lB.id then { q with layer_id := w.nextId } else q)).map (fun q => if q.layer_id = lC.id then { q with layer_id := w.nextId + 1 } else q)).map (fun q => if q.layer_id = lD.id then { q with layer_id := w.nextId + 2 } else q) = _
    rw [List.map_map, List.map_map]
    refine List.map_congr_left ?_
    intro p hp
    show ((if ((if ((if p.layer_id = lB.id then { p with layer_id := w.nextId } else p)).layer_id = lC.id then { ((if p.layer_id = lB.id then { p with layer_id := w.nextId } else p)) with layer_id := w.nextId + 1 } else (if p.layer_id = lB.id then { p with layer_id := w.nextId } else p))).layer_id = lD.id then { ((if ((if p.layer_id = lB.id then { p with layer_id := w.nextId } else p)).layer_id = lC.id then { ((if p.layer_id = lB.id then { p with layer_id := w.nextId } else p)) with layer_id := w.nextId + 1 } else (if p.layer_id = lB.id then { p with layer_id := w.nextId } else p))) with layer_id := w.nextId + 2 } else (if ((if p.layer_id = lB.id then { p with layer_id := w.nextId } else p)).layer_id = lC.id then { ((if p.layer_id = lB.id then { p with layer_id := w.nextId } else p)) with layer_id := w.nextId + 1 } else (if p.layer_id = lB.id then { p with layer_id := w.nextId } else p)))) = (if p.layer_id = lB.id then { p with layer_id := w.nextId } else if p.layer_id = lC.id then { p with layer_id := w.nextId + 1 } else if p.layer_id = lD.id then { p with layer_id := w.nextId + 2 } else p)
    by_cases hp1 : p.layer_id = lB.id
    · simp [hp1, hnC, hnD]
    · by_cases hp2 : p.layer_id = lC.id
      · simp [hp1, hp2, Ne.symm hBC, hn1D]
      · by_cases hp3 : p.layer_id = lD.id
        · simp [hp1, hp2, hp3, Ne.symm hBD, Ne.symm hCD]
        · simp [hp1, hp2, hp3]
  · intro p hp
    rw [hfin]
    refine ⟨?_, ?_⟩
    · intro hone
      show getCached (update_layer_reference (applyReplaceWorld K (update_layer_reference (applyReplaceWorld K (update_layer_reference (applyReplaceWorld K w { id := T1.id, name := T1.name, type := oty.getD T1.type, source_layer_id := lA.id, target_layer_id := some lB.id, parameters := opar.getD T1.parameters } lA lB.id lB.name) lB.id w.nextId) { id := T2.id, name := T2.name, type := T2.type, source_layer_id := w.nextId, target_layer_id := some lC.id, parameters := T2.parameters } (applyReplaceLayer K w { id := T1.id, name := T1.name, type := oty.getD T1.type, source_layer_id := lA.id, target_layer_id := some lB.id, parameters := opar.getD T1.parameters } lA lB.name) lC.id lC.name) lC.id (w.nextId + 1)) { id := T3.id, name := T3.name, type := T3.type, source_layer_id := w.nextId + 1, target_layer_id := some lD.id, parameters := T3.parameters } (applyReplaceLayer K (update_layer_reference (applyReplaceWorld K w { id := T1.id, name := T1.name, type := oty.getD T1.type, source_layer_id := lA.id, target_layer_id := some lB.id, parameters := opar.getD T1.parameters } lA lB.id lB.name) lB.id w.nextId) { id := T2.id, name := T2.name, type := T2.type, source_layer_id := w.nextId, target_layer_id := some lC.id, parameters := T2.parameters } (applyReplaceLayer K w { id := T1.id, name := T1.name, type := oty.getD T1.type, source_layer_id := lA.id, target_layer_id := some lB.id, parameters := opar.getD T1.parameters } lA lB.name) lC.name) lD.id lD.name) lD.id (w.nextId + 2)) p.id = none
      rcases hone with hb1 | hc1 | hd1
      · have hin1 : p.id ∈ ((((applyReplaceWorld K w { id := T1.id, name := T1.name, type := oty.getD T1.type, source_layer_id := lA.id, target_layer_id := some lB.id, parameters := opar.getD T1.parameters } lA lB.id lB.name)).projections.filter (fun q => q.layer_id = lB.id)).map (fun q => q.id)) := by
          show p.id ∈ ((w.projections.filter (fun q => q.layer_id = lB.id)).map (fun q => q.id))
          exact List.mem_map.mpr ⟨p, List.mem_filter.mpr ⟨hp, by simpa using hb1⟩, rfl⟩
        rw [hcache]
        by_cases h3m : p.id ∈ ((((applyReplaceWorld K (update_layer_reference (applyReplaceWorld K (update_layer_reference (applyReplaceWorld K w { id := T1.id, name := T1.name, type := oty.getD T1.type, source_layer_id := lA.id, target_layer_id := some lB.id, parameters := opar.getD T1.parameters } lA lB.id lB.name) lB.id w.nextId) { id := T2.id, name := T2.name, type := T2.type, source_layer_id := w.nextId, target_layer_id := some lC.id, parameters := T2.parameters } (applyReplaceLayer K w { id := T1.id, name := T1.name, type := oty.getD T1.type, source_layer_id := lA.id, target_layer_id := some lB.id, parameters := opar.getD T1.parameters } lA lB.name) lC.id lC.name) lC.id (w.nextId + 1)) { id := T3.id, name := T3.name, type := T3.type, source_layer_id := w.nextId + 1, target_layer_id := some lD.id, parameters := T3.parameters } (applyReplaceLayer K (update_layer_reference (applyReplaceWorld K w { id := T1.id, name := T1.name, type := oty.getD T1.type, source_layer_id := lA.id, target_layer_id := some lB.id, parameters := opar.getD T1.parameters } lA lB.id lB.name) lB.id w.nextId) { id := T2.id, name := T2.name, type := T2.type, source_layer_id := w.nextId, target_layer_id := some lC.id, parameters := T2.parameters } (applyReplaceLayer K w { id := T1.id, name := T1.name, type := oty.getD T1.type, source_layer_id := lA.id, target_layer_id := some lB.id, parameters := opar.getD T1.parameters } lA lB.name) lC.name) lD.id lD.name)).projections.filter (fun q => q.layer_id = lD.id)).map (fun q => q.id))
        · rw [if_pos h3m]
        · rw [if_neg h3m]
          by_cases h2m : p.id ∈ ((((applyReplaceWorld K (update_layer_reference (applyReplaceWorld K w { id := T1.id, name := T1.name, type := oty.getD T1.type, source_layer_id := lA.id, target_layer_id := some lB.id, parameters := opar.getD T1.parameters } lA lB.id lB.name) lB.id w.nextId) { id := T2.id, name := T2.name, type := T2.type, source_layer_id := w.nextId, target_layer_id := some lC.id, parameters := T2.parameters } (applyReplaceLayer K w { id := T1.id, name := T1.name, type := oty.getD T1.type, source_layer_id := lA.id, target_layer_id := some lB.id, parameters := opar.getD T1.parameters } lA lB.name) lC.id lC.name)).projections.filter (fun q => q.layer_id = lC.id)).map (fun q => q.id))
          · rw [if_pos h2m]
          · rw [if_neg h2m, if_pos hin1]
      · have hin2 : p.id ∈ ((((applyReplaceWorld K (update_layer_reference (applyReplaceWorld K w { id := T1.id, name := T1.name, type := oty.getD T1.type, source_layer_id := lA.id, target_layer_id := some lB.id, parameters := opar.getD T1.parameters } lA lB.id lB.name) lB.id w.nextId) { id := T2.id, name := T2.name, type := T2.type, source_layer_id := w.nextId, target_layer_id := some lC.id, parameters := T2.parameters } (applyReplaceLayer K w { id := T1.id, name := T1.name, type := oty.getD T1.type, source_layer_id := lA.id, target_layer_id := some lB.id, parameters := opar.getD T1.parameters } lA lB.name) lC.id lC.name)).projections.filter (fun q => q.layer_id = lC.id)).map (fun q => q.id)) := by
          show p.id ∈ (((w.projections.map (fun q => if q.layer_id = lB.id then { q with layer_id := w.nextId } else q)).filter (fun q => q.layer_id = lC.id)).map (fun q => q.id))
          refine List.mem_map.mpr ⟨p, List.mem_filter.mpr ⟨?_, by simpa using hc1⟩, rfl⟩
          exact List.mem_map.mpr ⟨p, hp, if_neg (fun hx => hBC (by rw [← hx]; exact hc1))⟩
        rw [hcache]
        by_cases h3m : p.id ∈ ((((applyReplaceWorld K (update_layer_reference (applyReplaceWorld K (update_layer_reference (applyReplaceWorld K w { id := T1.id, name := T1.name, type := oty.getD T1.type, source_layer_id := lA.id, target_layer_id := some lB.id, parameters := opar.getD T1.parameters } lA lB.id lB.name) lB.id w.nextId) { id := T2.id, name := T2.name, type := T2.type, source_layer_id := w.nextId, target_layer_id := some lC.id, parameters := T2.parameters } (applyReplaceLayer K w { id := T1.id, name := T1.name, type := oty.getD T1.type, source_layer_id := lA.id, target_layer_id := some lB.id, parameters := opar.getD T1.parameters } lA lB.name) lC.id lC.name) lC.id (w.nextId + 1)) { id := T3.id, name := T3.name, type := T3.type, source_layer_id := w.nextId + 1, target_layer_id := some lD.id, parameters := T3.parameters } (applyReplaceLayer K (update_layer_reference (applyReplaceWorld K w { id := T1.id, name := T1.name, type := oty.getD T1.type, source_layer_id := lA.id, target_layer_id := some lB.id, parameters := opar.getD T1.parameters } lA lB.id lB.name) lB.id w.nextId) { id := T2.id, name := T2.name, type := T2.type, source_layer_id := w.nextId, target_layer_id := some lC.id, parameters := T2.parameters } (applyReplaceLayer K w { id := T1.id, name := T1.name, type := oty.getD T1.type, source_layer_id := lA.id, target_layer_id := some lB.id, parameters := opar.getD T1.parameters } lA lB.name) lC.name) lD.id lD.name)).projections.filter (fun q => q.layer_id = lD.id)).map (fun q => q.id))
        · rw [if_pos h3m]
        · rw [if_neg h3m, if_pos hin2]
      · have hin3 : p.id ∈ ((((applyReplaceWorld K (update_layer_reference (applyReplaceWorld K (update_layer_reference (applyReplaceWorld K w { id := T1.id, name := T1.name, type := oty.getD T1.type, source_layer_id := lA.id, target_layer_id := some lB.id, parameters := opar.getD T1.parameters } lA lB.id lB.name) lB.id w.nextId) { id := T2.id, name := T2.name, type := T2.type, source_layer_id := w.nextId, target_layer_id := some lC.id, parameters := T2.parameters } (applyReplaceLayer K w { id := T1.id, name := T1.name, type := oty.getD T1.type, source_layer_id := lA.id, target_layer_id := some lB.id, parameters := opar.getD T1.parameters } lA lB.name) lC.id lC.name) lC.id (w.nextId + 1)) { id := T3.id, name := T3.name, type := T3.type, source_layer_id := w.nextId + 1, target_layer_id := some lD.id, parameters := T3.parameters } (applyReplaceLayer K (update_layer_reference (applyReplaceWorld K w { id := T1.id, name := T1.name, type := oty.getD T1.type, source_layer_id := lA.id, target_layer_id := some lB.id, parameters := opar.getD T1.parameters } lA lB.id lB.name) lB.id w.nextId) { id := T2.id, name := T2.name, type := T2.type, source_layer_id := w.nextId, target_layer_id := some lC.id, parameters := T2.parameters } (applyReplaceLayer K w { id := T1.id, name := T1.name, type := oty.getD T1.type, source_layer_id := lA.id, target_layer_id := some lB.id, parameters := opar.getD T1.parameters } lA lB.name) lC.name) lD.id lD.name)).projections.filter (fun q => q.layer_id = lD.id)).map (fun q => q.id)) := by
          show p.id ∈ ((((w.projections.map (fun q => if q.layer_id = lB.id then { q with layer_id := w.nextId } else q)).map (fun q => if q.layer_id = lC.id then { q with layer_id := w.nextId + 1 } else q)).filter (fun q => q.layer_id = lD.id)).map (fun q => q.id))
          refine List.mem_map.mpr ⟨p, List.mem_filter.mpr ⟨?_, by simpa using hd1⟩, rfl⟩
          exact List.mem_map.mpr ⟨p, List.mem_map.mpr ⟨p, hp, if_neg (fun hx => hBD (by rw [← hx]; exact hd1))⟩, if_neg (fun hx => hCD (by rw [← hx]; exact hd1))⟩
        rw [hcache, if_pos hin3]
    · intro h1 h2 h3
      show getCached (update_layer_reference (applyReplaceWorld K (update_layer_reference (applyReplaceWorld K (update_layer_reference (applyReplaceWorld K w { id := T1.id, name := T1.name, type := oty.getD T1.type, source_layer_id := lA.id, target_layer_id := some lB.id, parameters := opar.getD T1.parameters } lA lB.id lB.name) lB.id w.nextId) { id := T2.id, name := T2.name, type := T2.type, source_layer_id := w.nextId, target_layer_id := some lC.id, parameters := T2.parameters } (applyReplaceLayer K w { id := T1.id, name := T1.name, type := oty.getD T1.type, source_layer_id := lA.id, target_layer_id := some lB.id, parameters := opar.getD T1.parameters } lA lB.name) lC.id lC.name) lC.id (w.nextId + 1)) { id := T3.id, name := T3.name, type := T3.type, source_layer_id := w.nextId + 1, target_layer_id := some lD.id, parameters := T3.parameters } (applyReplaceLayer K (update_layer_reference (applyReplaceWorld K w { id := T1.id, name := T1.name, type := oty.getD T1.type, source_layer_id := lA.id, target_layer_id := some lB.id, parameters := opar.getD T1.parameters } lA lB.id lB.name) lB.id w.nextId) { id := T2.id, name := T2.name, type := T2.type, source_layer_id := w.nextId, target_layer_id := some lC.id, parameters := T2.parameters } (applyReplaceLayer K w { id := T1.id, name := T1.name, type := oty.getD T1.type, source_layer_id := lA.id, target_layer_id := some lB.id, parameters := opar.getD T1.parameters } lA lB.name) lC.name) lD.id lD.name) lD.id (w.nextId + 2)) p.id = getCached w p.id
      have hq0 : ∀ q ∈ w.projections, q.id = p.id → q = p := fun q hq hqe => eq_of_key_eq Projection.id w.projections q p hndPj hq hp hqe
      have hni1 : p.id ∉ ((((applyReplaceWorld K w { id := T1.id, name := T1.name, type := oty.getD T1.type, source_layer_id := lA.id, target_layer_id := some lB.id, parameters := opar.getD T1.parameters } lA lB.id lB.name)).projections.filter (fun q => q.layer_id = lB.id)).map (fun q => q.id)) := by
        intro hcm
        have hcm2 : p.id ∈ ((w.projections.filter (fun q => q.layer_id = lB.id)).map (fun q => q.id)) := hcm
        obtain ⟨q, hqf, hqe⟩ := List.mem_map.mp hcm2
        obtain ⟨hq, hql⟩ := List.mem_filter.mp hqf
        have hqp := hq0 q hq hqe
        subst hqp
        exact h1 (by simpa using hql)
      have hni2 : p.id ∉ ((((applyReplaceWorld K (update_layer_reference (applyReplaceWorld K w { id := T1.id, name := T1.name, type := oty.getD T1.type, source_layer_id := lA.id, target_layer_id := some lB.id, parameters := opar.getD T1.parameters } lA lB.id lB.name) lB.id w.nextId) { id := T2.id, name := T2.name, type := T2.type, source_layer_id := w.nextId, target_layer_id := some lC.id, parameters := T2.parameters } (applyReplaceLayer K w { id := T1.id, name := T1.name, type := oty.getD T1.type, source_layer_id := lA.id, target_layer_id := some lB.id, parameters := opar.getD T1.parameters } lA lB.name) lC.id lC.name)).projections.filter (fun q => q.layer_id = lC.id)).map (fun q => q.id)) := by
        intro hcm
        have hcm2 : p.id ∈ (((w.projections.map (fun q => if q.layer_id = lB.id then { q with layer_id := w.nextId } else q)).filter (fun q => q.layer_id = lC.id)).map (fun q => q.id)) := hcm
        obtain ⟨q, hqf, hqe⟩ := List.mem_map.mp hcm2
        obtain ⟨hqm, hql⟩ := List.mem_filter.mp hqf
        obtain ⟨q0, hq0m, rfl⟩ := List.mem_map.mp hqm
        by_cases hx : q0.layer_id = lB.id
        · rw [if_pos hx] at hqe hql
          have hqp := hq0 q0 hq0m (show q0.id = p.id from hqe)
          subst hqp
          exact hnC (show w.nextId = lC.id from by simpa using hql)
        · rw [if_neg hx] at hqe hql
          have hqp := hq0 q0 hq0m hqe
          subst hqp
          exact h2 (by simpa using hql)
      have hni3 : p.id ∉ ((((applyReplaceWorld K (update_layer_reference (applyReplaceWorld K (update_layer_reference (applyReplaceWorld K w { id := T1.id, name := T1.name, type := oty.getD T1.type, source_layer_id := lA.id, target_layer_id := some lB.id, parameters := opar.getD T1.parameters } lA lB.id lB.name) lB.id w.nextId) { id := T2.id, name := T2.name, type := T2.type, source_layer_id := w.nextId, target_layer_id := some lC.id, parameters := T2.parameters } (applyReplaceLayer K w { id := T1.id, name := T1.name, type := oty.getD T1.type, source_layer_id := lA.id, target_layer_id := some lB.id, parameters := opar.getD T1.parameters } lA lB.name) lC.id lC.name) lC.id (w.nextId + 1)) { id := T3.id, name := T3.name, type := T3.type, source_layer_id := w.nextId + 1, target_layer_id := some lD.id, parameters := T3.parameters } (applyReplaceLayer K (update_layer_reference (applyReplaceWorld K w { id := T1.id, name := T1.name, type := oty.getD T1.type, source_layer_id := lA.id, target_layer_id := some lB.id, parameters := opar.getD T1.parameters } lA lB.id lB.name) lB.id w.nextId) { id := T2.id, name := T2.name, type := T2.type, source_layer_id := w.nextId, target_layer_id := some lC.id, parameters := T2.parameters } (applyReplaceLayer K w { id := T1.id, name := T1.name, type := oty.getD T1.type, source_layer_id := lA.id, target_layer_id := some lB.id, parameters := opar.getD T1.parameters } lA lB.name) lC.name) lD.id lD.name)).projections.filter (fun q => q.layer_id = lD.id)).map (fun q => q.id)) := by
        intro hcm
        have hcm2 : p.id ∈ ((((w.projections.map (fun q => if q.layer_id = lB.id then { q with layer_id := w.nextId } else q)).map (fun q => if q.layer_id = lC.id then { q with layer_id := w.nextId + 1 } else q)).filter (fun q => q.layer_id = lD.id)).map (fun q => q.id)) := hcm
        obtain ⟨q, hqf, hqe⟩ := List.mem_map.mp hcm2
        obtain ⟨hqm, hql⟩ := List.mem_filter.mp hqf
        obtain ⟨q1, hq1m, rfl⟩ := List.mem_map.mp hqm
        obtain ⟨q0, hq0m, rfl⟩ := List.mem_map.mp hq1m
        by_cases hx : q0.layer_id = lB.id
        · rw [if_pos hx] at hql
          simp [hnC, hnD] at hql
        · rw [if_neg hx] at hqe hql
          by_cases hx2 : q0.layer_id = lC.id
          · rw [if_pos hx2] at hql
            simp [hn1D] at hql
          · rw [if_neg hx2] at hqe hql
            have hqp := hq0 q0 hq0m hqe
            subst hqp
            exact h3 (by simpa using hql)
      rw [hcache, if_neg hni3, if_neg hni2, if_neg hni1]
  · exact stepPts_vectors K hK { id := T1.id, name := T1.name, type := oty.getD T1.type, source_layer_id := lA.id, target_layer_id := some lB.id, parameters := opar.getD T1.parameters } (pointsOf w lA.id)
  · exact stepPts_vectors K hK { id := T2.id, name := T2.name, type := T2.type, source_layer_id := w.nextId, target_layer_id := some lC.id, parameters := T2.parameters } (stepPts K { id := T1.id, name := T1.name, type := oty.getD T1.type, source_layer_id := lA.id, target_layer_id := some lB.id, parameters := opar.getD T1.parameters } (pointsOf w lA.id))
  · exact stepPts_vectors K hK { id := T3.id, name := T3.name, type := T3.type, source_layer_id := w.nextId + 1, target_layer_id := some lD.id, parameters := T3.parameters } (stepPts K { id := T2.id, name := T2.name, type := T2.type, source_layer_id := w.nextId, target_layer_id := some lC.id, parameters := T2.parameters } (stepPts K { id := T1.id, name := T1.name, type := oty.getD T1.type, source_layer_id := lA.id, target_layer_id := some lB.id, parameters := opar.getD T1.parameters } (pointsOf w lA.id)))

-- C1GEN END

/-- Witness for C1: on the concrete chain `A → B → C → D` with one point per
layer and a projection bound to `B`, editing `T1`'s type succeeds and returns
the rewritten transformation. -/
theorem C1_propagation_chain_witness :
    ((update_transformation K0 demoChainW demoChainT1.id none
      (some TransformationType.rotation) none).1).isSome = true := by
  have h := C1_propagation_chain K0 demoChainW demoChainT1 demoChainT2 demoChainT3
    demoChainA demoChainB demoChainC demoChainD (some TransformationType.rotation) none
    ⟨fun _ _ => rfl, fun _ _ => rfl, fun _ _ => rfl⟩
    (by decide) (by decide) (by decide) (by decide) (by decide) (by decide) rfl
    (by decide) (by decide) (by decide) (by decide)
    (by decide) (by decide) (by decide) (by decide) (by decide) (by decide)
    (by decide) (by decide) (by decide)
    (by decide) (by decide) (by decide) (by decide) (by decide) (by decide)
    (by decide) (by decide) (by decide)
    (by decide) (by decide) (by decide)
    (by decide) (by decide)
  rw [h.1]
  rfl

end Vectorscope